import Mathlib

/-!
# Glove acquisition program (`microcontroller/i2c_transfer.c`)

A shallow embedding of the acquisition program: the per-hand record, the
record assembler (`store_data`, `group_data`), the flex rounding
(`round_flex`), the two bus transaction routines (`i2c_read`, `i2c_write`)
and the polling loop of `main`.

Conventions of the embedding.

* A C array `T a[N]` is a function `Fin N → T`.  An access `a[i]` with a
  run-time index `i` goes through `rd` / `wr` / `upd`, which return `none`
  when `i` is not below `N`: an out-of-bounds access is a failure of the
  model, never a silent default.
* `unsigned int` is `Nat` (reduced modulo `2 ^ 32` where a conversion can
  wrap), `int` is `Int`.
* Every `double` of the program is either the literal `0.0` or
  `(double)atoi( buffer )`, an integer that a double holds exactly, and the
  program only copies doubles; `double` is therefore `Int`.
* The source's `bool` is `typedef enum{ false, true } bool`, an integer type
  with the two named constants `false = 0` and `true = 1`; it is `Nat`.
* Loops are run by `forRange`, a counted `for` loop whose body can `break`.
-/

namespace Glove

/-! ## Constants -/

/-- Number of characters in buffer. -/
abbrev MAX_CHAR : Nat := 1023
/-- Atmega I2C address. -/
abbrev ATMEGA_ADDR : Nat := 4
/-- Total number of contact sensors. -/
abbrev TOTAL_NUM_CONTACTS : Nat := 13
/-- Number of contact sensors per finger. -/
abbrev NUM_FINGER_CONTACTS : Nat := 2
/-- Number of hands. -/
abbrev NUM_HANDS : Nat := 2
/-- Number of fingers per hand. -/
abbrev NUM_FINGERS : Nat := 5
/-- Number of inter-digital folds per hand. -/
abbrev NUM_FOLDS : Nat := 4
/-- The maximum 10-bit ADC value (`MAX_ADC 1023.0`). -/
abbrev MAX_ADC : Nat := 1023
/-- Number of connected LSM303 accelerometers. -/
abbrev NUM_303 : Nat := 2
/-- Number of values per LSM303 accelerometer reading. -/
abbrev NUM_303_VALS : Nat := 6
/-- The macro text `NUM_303 * NUM_303_VALS`. -/
abbrev TOTAL_NUM_303 : Nat := NUM_303 * NUM_303_VALS
/-- The macro text `TOTAL_NUM_303 / 2`, which expands to `NUM_303 * NUM_303_VALS / 2`. -/
abbrev SEP_NUM_303 : Nat := NUM_303 * NUM_303_VALS / 2
/-- Number of connected LSM9DOF accelerometers. -/
abbrev NUM_9DOF : Nat := 2
/-- Number of values per LSM9DOF accelerometer reading. -/
abbrev NUM_9DOF_VALS : Nat := 9
/-- The macro text `NUM_9DOF * NUM_9DOF_VALS`. -/
abbrev TOTAL_NUM_9DOF : Nat := NUM_9DOF * NUM_9DOF_VALS
/-- The macro text `TOTAL_NUM_9DOF / 3`, which expands to `NUM_9DOF * NUM_9DOF_VALS / 3`. -/
abbrev SEP_NUM_9DOF : Nat := NUM_9DOF * NUM_9DOF_VALS / 3

/-! ## Types -/

/-- The source's `typedef enum{ false, true } bool`: an unsigned integer. -/
abbrev bool : Type := Nat
/-- The enumeration constant `false`. -/
abbrev bool.false : bool := 0
/-- The enumeration constant `true`. -/
abbrev bool.true : bool := 1

/-- A `double` of the program: always an exactly represented integer. -/
abbrev double : Type := Int

/-- Structure to store finger related data. -/
structure Finger where
  flex : Nat
  contact : Fin NUM_FINGER_CONTACTS → bool
deriving DecidableEq

/-- Structure to store inter-digital fold related data. -/
structure Fold where
  contact : bool
deriving DecidableEq

/-- Structure to store LSM303 accelerometer related data. -/
structure LSM303 where
  accel_x : double
  accel_y : double
  accel_z : double
  mag_x : double
  mag_y : double
  mag_z : double
deriving DecidableEq

/-- Structure to store LSM9DOF accelerometer related data. -/
structure LSM9DOF where
  accel_x : double
  accel_y : double
  accel_z : double
  mag_x : double
  mag_y : double
  mag_z : double
  gyro_x : double
  gyro_y : double
  gyro_z : double
deriving DecidableEq

/-- Structure to store hand related data. -/
structure Hand where
  fingers : Fin NUM_FINGERS → Finger
  fold : Fin NUM_FOLDS → Fold
  lsm303 : Fin NUM_303 → LSM303
  lsm9dof : Fin NUM_9DOF → LSM9DOF
deriving DecidableEq

/-! ## Arrays and loops -/

/-- The read `a[i]` of a C array of `n` elements. -/
def rd {α : Type} {n : Nat} (a : Fin n → α) (i : Nat) : Option α :=
  if h : i < n then some (a ⟨i, h⟩) else none

/-- The write `a[i] = v` of a C array of `n` elements. -/
def wr {α : Type} {n : Nat} (a : Fin n → α) (i : Nat) (v : α) : Option (Fin n → α) :=
  if h : i < n then some (Function.update a ⟨i, h⟩ v) else none

/-- The in-place change of `a[i]` by `g` (a write through `a[i].field...`). -/
def upd {α : Type} {n : Nat} (a : Fin n → α) (i : Nat) (g : α → Option α) :
    Option (Fin n → α) :=
  if h : i < n then (g (a ⟨i, h⟩)).map (Function.update a ⟨i, h⟩) else none

/-- A counted `for` loop `for( k = k0 ; k < k0 + n ; k++ ) body`: `forRange body n k s`
runs the `n` iterations that remain when the counter is `k` and the state is
`s`.  The body returns the new state and whether it left the loop by
`break`; a body that fails (`none`) makes the loop fail. -/
def forRange {σ : Type} (body : Nat → σ → Option (σ × Bool)) : Nat → Nat → σ → Option σ
  | 0, _, s => some s
  | n + 1, k, s =>
    match body k s with
    | none => none
    | some (s', true) => some s'
    | some (s', false) => forRange body n (k + 1) s'

/-! ## The record assembler -/

/-- The array of both hands, `struct Hand hands[NUM_HANDS]`. -/
abbrev Hands : Type := Fin NUM_HANDS → Hand

/-- The assignment `hands[i].fingers[j].flex = v`. -/
def set_flex (hands : Hands) (i j : Nat) (v : Nat) : Option Hands :=
  upd hands i fun h =>
    (upd h.fingers j fun f => some { f with flex := v }).map
      fun fs => { h with fingers := fs }

/-- The assignment `hands[i].fingers[j].contact[k] = v`. -/
def set_finger_contact (hands : Hands) (i j k : Nat) (v : bool) : Option Hands :=
  upd hands i fun h =>
    (upd h.fingers j fun f =>
      (wr f.contact k v).map fun c => { f with contact := c }).map
      fun fs => { h with fingers := fs }

/-- The assignment `hands[i].fold[j].contact = v`. -/
def set_fold_contact (hands : Hands) (i j : Nat) (v : bool) : Option Hands :=
  upd hands i fun h =>
    (upd h.fold j fun _ => some { contact := v }).map
      fun fs => { h with fold := fs }

/-- The assignment `hands[i].lsm303[j].f = src[k]`, where the member `f` is
given by its setter `set`. -/
def set_303 (hands : Hands) (i j : Nat) (src : Fin SEP_NUM_303 → double) (k : Nat)
    (set : LSM303 → double → LSM303) : Option Hands :=
  (rd src k).bind fun v =>
    upd hands i fun h =>
      (upd h.lsm303 j fun x => some (set x v)).map fun a => { h with lsm303 := a }

/-- The assignment `hands[i].lsm9dof[j].f = src[k]`, where the member `f` is
given by its setter `set`. -/
def set_9dof (hands : Hands) (i j : Nat) (src : Fin SEP_NUM_9DOF → double) (k : Nat)
    (set : LSM9DOF → double → LSM9DOF) : Option Hands :=
  (rd src k).bind fun v =>
    upd hands i fun h =>
      (upd h.lsm9dof j fun x => some (set x v)).map fun a => { h with lsm9dof := a }

/-- The inner loop of `store_data` over the contact slots `k` of finger `j`:
`hands[i].fingers[j].contact[k] = contact[m] ; m++ ;` and a `break` when
`j == NUM_FINGERS - 1`.  The state is `(hands, m)`. -/
def store_data_contact_body (contact : Fin TOTAL_NUM_CONTACTS → bool) (i j : Nat)
    (k : Nat) (st : Hands × Nat) : Option ((Hands × Nat) × Bool) := do
  let c ← rd contact st.2
  let hands ← set_finger_contact st.1 i j k c
  let m := st.2 + 1
  if j = NUM_FINGERS - 1 then
    pure ((hands, m), true)
  else
    pure ((hands, m), false)

/-- The body of the first loop of `store_data`, over the fingers `j`. -/
def store_data_finger_body (flex : Fin NUM_FINGERS → Nat)
    (contact : Fin TOTAL_NUM_CONTACTS → bool) (i : Nat)
    (j : Nat) (st : Hands × Nat) : Option ((Hands × Nat) × Bool) := do
  let f ← rd flex j
  let hands ← set_flex st.1 i j f
  let st ← forRange (store_data_contact_body contact i j) NUM_FINGER_CONTACTS 0 (hands, st.2)
  pure (st, false)

/-- The body of the second loop of `store_data`, over the folds `j`. -/
def store_data_fold_body (contact : Fin TOTAL_NUM_CONTACTS → bool) (i : Nat)
    (j : Nat) (st : Hands × Nat) : Option ((Hands × Nat) × Bool) := do
  let c ← rd contact st.2
  let hands ← set_fold_contact st.1 i j c
  pure ((hands, st.2 + 1), false)

/-- The body of the third loop of `store_data`, over the LSM303 instances `j`;
the state is `(hands, k)`, and `mag303[k++]` reads at `k` and then steps `k`. -/
def store_data_303_body (accel303 mag303 : Fin SEP_NUM_303 → double) (i : Nat)
    (j : Nat) (st : Hands × Nat) : Option ((Hands × Nat) × Bool) := do
  let k := st.2
  let hands ← set_303 st.1 i j accel303 k fun x v => { x with accel_x := v }
  let hands ← set_303 hands i j mag303 k fun x v => { x with mag_x := v }
  let k := k + 1
  let hands ← set_303 hands i j accel303 k fun x v => { x with accel_y := v }
  let hands ← set_303 hands i j mag303 k fun x v => { x with mag_y := v }
  let k := k + 1
  let hands ← set_303 hands i j accel303 k fun x v => { x with accel_z := v }
  let hands ← set_303 hands i j mag303 k fun x v => { x with mag_z := v }
  let k := k + 1
  pure ((hands, k), false)

/-- The body of the fourth loop of `store_data`, over the LSM9DOF instances
`j`; the state is `(hands, k)`, and `gyro9dof[k++]` reads at `k` and then
steps `k`. -/
def store_data_9dof_body (accel9dof mag9dof gyro9dof : Fin SEP_NUM_9DOF → double) (i : Nat)
    (j : Nat) (st : Hands × Nat) : Option ((Hands × Nat) × Bool) := do
  let k := st.2
  let hands ← set_9dof st.1 i j accel9dof k fun x v => { x with accel_x := v }
  let hands ← set_9dof hands i j mag9dof k fun x v => { x with mag_x := v }
  let hands ← set_9dof hands i j gyro9dof k fun x v => { x with gyro_x := v }
  let k := k + 1
  let hands ← set_9dof hands i j accel9dof k fun x v => { x with accel_y := v }
  let hands ← set_9dof hands i j mag9dof k fun x v => { x with mag_y := v }
  let hands ← set_9dof hands i j gyro9dof k fun x v => { x with gyro_y := v }
  let k := k + 1
  let hands ← set_9dof hands i j accel9dof k fun x v => { x with accel_z := v }
  let hands ← set_9dof hands i j mag9dof k fun x v => { x with mag_z := v }
  let hands ← set_9dof hands i j gyro9dof k fun x v => { x with gyro_z := v }
  let k := k + 1
  pure ((hands, k), false)

/-- The first two loops of `store_data` (fingers, then folds), which share
the counter `m` into the contact stream; the result is the record and the
final value of `m`. -/
def store_data_contacts (hands : Hands) (flex : Fin NUM_FINGERS → Nat)
    (contact : Fin TOTAL_NUM_CONTACTS → bool) (i : Nat) : Option (Hands × Nat) := do
  let st ← forRange (store_data_finger_body flex contact i) NUM_FINGERS 0 (hands, 0)
  forRange (store_data_fold_body contact i) NUM_FOLDS 0 st

/-- Function to store the data into the appropriate fields within the data
structure. -/
def store_data (hands : Hands) (flex : Fin NUM_FINGERS → Nat)
    (contact : Fin TOTAL_NUM_CONTACTS → bool)
    (accel303 mag303 : Fin SEP_NUM_303 → double)
    (accel9dof mag9dof gyro9dof : Fin SEP_NUM_9DOF → double) (i : Nat) : Option Hands := do
  let st ← store_data_contacts hands flex contact i
  let st ← forRange (store_data_303_body accel303 mag303 i) NUM_303 0 (st.1, 0)
  let st ← forRange (store_data_9dof_body accel9dof mag9dof gyro9dof i) NUM_9DOF 0 (st.1, 0)
  pure st.1

/-- The loop body of `group_data`: `store_data` with the left streams when
`i == 0`, with the right streams otherwise. -/
def group_data_body (left_flex right_flex : Fin NUM_FINGERS → Nat)
    (left_contact right_contact : Fin TOTAL_NUM_CONTACTS → bool)
    (left_303_accel left_303_mag right_303_accel right_303_mag : Fin SEP_NUM_303 → double)
    (left_9dof_accel left_9dof_mag left_9dof_gyro
      right_9dof_accel right_9dof_mag right_9dof_gyro : Fin SEP_NUM_9DOF → double)
    (i : Nat) (hands : Hands) : Option (Hands × Bool) :=
  if i = 0 then
    (store_data hands left_flex left_contact left_303_accel left_303_mag
      left_9dof_accel left_9dof_mag left_9dof_gyro i).map fun h => (h, false)
  else
    (store_data hands right_flex right_contact right_303_accel right_303_mag
      right_9dof_accel right_9dof_mag right_9dof_gyro i).map fun h => (h, false)

/-- Function to group the sensor data into a data structure. -/
def group_data (hands : Hands) (left_flex right_flex : Fin NUM_FINGERS → Nat)
    (left_contact right_contact : Fin TOTAL_NUM_CONTACTS → bool)
    (left_303_accel left_303_mag right_303_accel right_303_mag : Fin SEP_NUM_303 → double)
    (left_9dof_accel left_9dof_mag left_9dof_gyro
      right_9dof_accel right_9dof_mag right_9dof_gyro : Fin SEP_NUM_9DOF → double) :
    Option Hands :=
  forRange
    (group_data_body left_flex right_flex left_contact right_contact
      left_303_accel left_303_mag right_303_accel right_303_mag
      left_9dof_accel left_9dof_mag left_9dof_gyro
      right_9dof_accel right_9dof_mag right_9dof_gyro)
    NUM_HANDS 0 hands

/-! ## Flex rounding -/

/-- Function to round input flex sensor values. -/
def round_flex (x lb ub : Nat) : Nat :=
  let MIN_VAL := 0
  let MID_VAL := 50
  let MAX_VAL := 100
  if x < lb then MIN_VAL
  else if x > ub then MAX_VAL
  else MID_VAL

/-- The lower bound for rounding (`write_file`). -/
abbrev lb : Nat := 10
/-- The upper bound for rounding (`write_file`). -/
abbrev ub : Nat := 40

/-- The value `(unsigned int)(((float)flex / MAX_ADC) * 100.0)` of `write_file`
in exact arithmetic: the quotient and the product are taken in the
rationals and the conversion to `unsigned int` truncates. -/
def flex_adjust (flex : Nat) : Nat :=
  Int.toNat ⌊(flex : ℚ) / (MAX_ADC : ℚ) * 100⌋

/-- The value `write_file` prints in `<flex>`: `round_flex( flex_adjust, lb, ub )`. -/
def flex_round (flex : Nat) : Nat :=
  round_flex (flex_adjust flex) lb ub

/-- The three-level quantisation as the specification words it:
`adjusted < lowerBound → 0`, `adjusted > upperBound → 100`, otherwise `50`,
with `lowerBound = 10` and `upperBound = 40`. -/
def three_level_spec (adjusted : Nat) : Nat :=
  if adjusted < 10 then 0 else if adjusted > 40 then 100 else 50

/-! ## Decoding a sample -/

/-- The C library's `isspace` in the "C" locale, on a byte. -/
def isspace (c : Nat) : Bool :=
  c == 32 || (9 ≤ c && c ≤ 13)

/-- The C library's `isdigit`, on a byte. -/
def isdigit (c : Nat) : Bool :=
  48 ≤ c && c ≤ 57

/-- The digits of `atoi`: the longest run of decimal digits at the head of
the text, read in base ten onto `acc`.  The text ends at the first byte that
is not a digit, the terminating NUL included. -/
def atoi_digits : List Nat → Nat → Nat
  | [], acc => acc
  | c :: cs, acc => if isdigit c then atoi_digits cs (acc * 10 + (c - 48)) else acc

/-- The C library's `atoi` on the bytes of a buffer: leading white space is
skipped, one sign `-` (45) or `+` (43) is taken, then the digits.  The
samples of this program are at most six bytes wide, so the value always fits
an `int`. -/
def atoi (buffer : List Nat) : Int :=
  match buffer.dropWhile isspace with
  | [] => 0
  | c :: cs =>
    if c = 45 then - (atoi_digits cs 0 : Int)
    else if c = 43 then (atoi_digits cs 0 : Int)
    else (atoi_digits (c :: cs) 0 : Int)

/-- The conversion of an `int` to `unsigned int`, as in `(unsigned int)atoi( buffer )`. -/
def to_unsigned (n : Int) : Nat :=
  Int.toNat (n % 2 ^ 32)

/-- The conversion `(bool)n` of an `int` to the enumeration `bool`: the value
is kept (reduced to the unsigned enumeration type), it is not normalised to
`false` or `true`. -/
def to_bool (n : Int) : bool :=
  to_unsigned n

/-- Function to initialize a buffer of characters: `MAX_CHAR` NUL bytes. -/
def buffer_init : List Nat :=
  List.replicate MAX_CHAR 0

/-- The two statements of `main` that decode one contact sample into
`right_contact[i]`: the store of `(bool)atoi( buffer )` and the flip
`if( right_contact[i] == true ) right_contact[i] = false ; else right_contact[i] = true ;`. -/
def decode_contact (right_contact : Fin TOTAL_NUM_CONTACTS → bool) (i : Nat)
    (buffer : List Nat) : Option (Fin TOTAL_NUM_CONTACTS → bool) := do
  let a ← wr right_contact i (to_bool (atoi buffer))
  let c ← rd a i
  if c = bool.true then wr a i bool.false else wr a i bool.true

/-- The text a buffer holds as a C string: its bytes before the first NUL. -/
def c_string (buffer : List Nat) : List Nat :=
  buffer.takeWhile fun c => c != 0

/-! ## Bus transactions -/

/-- What the operating system answers to the calls of one transaction:
the value `open` returns (`-1` on failure), the value `ioctl` returns
(negative on failure), the bytes `read` has to deliver (`none` when `read`
returns `-1`; fewer bytes than asked is a short read), the value `write`
returns, and the value `close` returns (`-1` on failure). -/
structure BusOutcome where
  open_ret : Int
  ioctl_ret : Int
  read_data : Option (List Nat)
  write_ret : Int
  close_ret : Int
deriving DecidableEq

/-- One call of `i2c_read` or `i2c_write` as seen from outside: its direction,
the byte width it asked for and the value it returned. -/
structure Event where
  is_write : Bool
  num_bytes : Nat
  ok : Bool
deriving DecidableEq

/-- The world outside the program: the number of transactions issued so far
(the next one is answered by outcome number `t`), the number of successful
`open` calls, the number of `close` calls, the record of the calls, and the
bytes handed to the bus by each `write` call that was reached. -/
structure World where
  t : Nat
  opened : Nat
  closed : Nat
  log : List Event
  sent : List (List Nat)
deriving DecidableEq

/-- The result of a transaction: the returned `bool`, the buffer, the file
handle `*fd`, and the world. -/
structure IOResult where
  ret : Bool
  buffer : List Nat
  fd : Int
  world : World
deriving DecidableEq

/-- The world after a call that asked for `num_bytes` and returned `ok`. -/
def World.after (w : World) (is_write : Bool) (num_bytes : Nat) (ok : Bool)
    (opened closed : Nat) : World :=
  { t := w.t + 1, opened := opened, closed := closed,
    log := w.log ++ [{ is_write := is_write, num_bytes := num_bytes, ok := ok }],
    sent := w.sent }

/-- The world after the call `write( *fd, buffer, num_bytes )`: the first
`num_bytes` bytes of `buffer` are handed to the bus. -/
def World.write (w : World) (buffer : List Nat) (num_bytes : Nat) : World :=
  { w with sent := w.sent ++ [buffer.take num_bytes] }

/-- Function to read from an I2C device.  The file name, the address, the
open flags and the mode are fixed in `main` and only reach the operating
system, whose answers are the outcome `bus w.t`. -/
def i2c_read (bus : Nat → BusOutcome) (buffer : List Nat) (num_bytes : Nat) (fd : Int)
    (open_file close_file : Bool) (w : World) : IOResult :=
  let o := bus w.t
  let fd1 := if open_file then o.open_ret else fd
  let opened := if open_file then w.opened + 1 else w.opened
  if open_file ∧ o.open_ret = -1 then
    { ret := false, buffer := buffer, fd := fd1,
      world := w.after false num_bytes false w.opened w.closed }
  else if o.ioctl_ret < 0 then
    { ret := false, buffer := buffer, fd := fd1,
      world := w.after false num_bytes false opened w.closed }
  else
    match o.read_data with
    | none =>
      { ret := false, buffer := buffer, fd := fd1,
        world := w.after false num_bytes false opened w.closed }
    | some bytes =>
      let got := bytes.take num_bytes
      let buffer1 := got ++ buffer.drop got.length
      if got.length ≠ num_bytes then
        { ret := false, buffer := buffer1, fd := fd1,
          world := w.after false num_bytes false opened w.closed }
      else if close_file then
        if o.close_ret = -1 then
          { ret := false, buffer := buffer1, fd := fd1,
            world := w.after false num_bytes false opened (w.closed + 1) }
        else
          { ret := true, buffer := buffer1, fd := fd1,
            world := w.after false num_bytes true opened (w.closed + 1) }
      else
        { ret := true, buffer := buffer1, fd := fd1,
          world := w.after false num_bytes true opened w.closed }

/-- Function to write to an I2C device. -/
def i2c_write (bus : Nat → BusOutcome) (buffer : List Nat) (num_bytes : Nat) (fd : Int)
    (open_file close_file : Bool) (w : World) : IOResult :=
  let o := bus w.t
  let fd1 := if open_file then o.open_ret else fd
  let opened := if open_file then w.opened + 1 else w.opened
  if open_file ∧ o.open_ret = -1 then
    { ret := false, buffer := buffer, fd := fd1,
      world := w.after true num_bytes false w.opened w.closed }
  else if o.ioctl_ret < 0 then
    { ret := false, buffer := buffer, fd := fd1,
      world := w.after true num_bytes false opened w.closed }
  else if o.write_ret ≠ (num_bytes : Int) then
    { ret := false, buffer := buffer, fd := fd1,
      world := (w.write buffer num_bytes).after true num_bytes false opened w.closed }
  else if close_file then
    if o.close_ret = -1 then
      { ret := false, buffer := buffer, fd := fd1,
        world := (w.write buffer num_bytes).after true num_bytes false opened (w.closed + 1) }
    else
      { ret := true, buffer := buffer, fd := fd1,
        world := (w.write buffer num_bytes).after true num_bytes true opened (w.closed + 1) }
  else
    { ret := true, buffer := buffer, fd := fd1,
      world := (w.write buffer num_bytes).after true num_bytes true opened w.closed }

/-! ## The polling loop of `main` -/

/-- The variables of `main` that a cycle reads or writes, and the world. -/
structure State where
  world : World
  fd : Int
  buffer : List Nat
  cmd : List Nat
  status : String
  left_flex : Fin NUM_FINGERS → Nat
  right_flex : Fin NUM_FINGERS → Nat
  left_contact : Fin TOTAL_NUM_CONTACTS → bool
  right_contact : Fin TOTAL_NUM_CONTACTS → bool
  left_303_accel : Fin SEP_NUM_303 → double
  left_303_mag : Fin SEP_NUM_303 → double
  right_303_accel : Fin SEP_NUM_303 → double
  right_303_mag : Fin SEP_NUM_303 → double
  left_9dof_accel : Fin SEP_NUM_9DOF → double
  left_9dof_mag : Fin SEP_NUM_9DOF → double
  left_9dof_gyro : Fin SEP_NUM_9DOF → double
  right_9dof_accel : Fin SEP_NUM_9DOF → double
  right_9dof_mag : Fin SEP_NUM_9DOF → double
  right_9dof_gyro : Fin SEP_NUM_9DOF → double
  hands : Hands

/-- The record of one hand after `data_init`: its loops over `j` set every
finger and every inertial sensor to zero; they do not visit `fold`. -/
def data_init_hand (h : Hand) : Hand :=
  { fingers := fun _ => { flex := 0, contact := fun _ => 0 }
    fold := h.fold
    lsm303 := fun _ =>
      { accel_x := 0, accel_y := 0, accel_z := 0, mag_x := 0, mag_y := 0, mag_z := 0 }
    lsm9dof := fun _ =>
      { accel_x := 0, accel_y := 0, accel_z := 0, mag_x := 0, mag_y := 0, mag_z := 0,
        gyro_x := 0, gyro_y := 0, gyro_z := 0 } }

/-- Function to initialize the sensor data and data structure.  Each loop
runs over every index of the arrays it writes, so each stream is zero
everywhere afterwards. -/
def data_init (s : State) : State :=
  { s with
    left_flex := fun _ => 0
    right_flex := fun _ => 0
    left_contact := fun _ => 0
    right_contact := fun _ => 0
    left_303_accel := fun _ => 0
    left_303_mag := fun _ => 0
    right_303_accel := fun _ => 0
    right_303_mag := fun _ => 0
    left_9dof_accel := fun _ => 0
    left_9dof_mag := fun _ => 0
    left_9dof_gyro := fun _ => 0
    right_9dof_accel := fun _ => 0
    right_9dof_mag := fun _ => 0
    right_9dof_gyro := fun _ => 0
    hands := fun i => data_init_hand (s.hands i) }

/-- The start of `main` up to its loop: `buffer_init( status )`,
`buffer_init( cmd )` and `data_init`; `s` holds the indeterminate initial
values of the locals.  (`reset_sensor` only pulses a GPIO file and sleeps; it
touches none of these variables.) -/
def main_init (s : State) : State :=
  data_init { s with status := "", cmd := buffer_init }

/-- The body shared by the seven read loops of `main`: one `i2c_read` of
`num_bytes` bytes (with `open_file` and `close_file` both `true`); when it
fails `strcpy( status, "disconnected" )` and `break`, otherwise the loop's
own store of the decoded sample. -/
def read_step (bus : Nat → BusOutcome) (num_bytes : Nat) (store : Nat → State → Option State)
    (i : Nat) (s : State) : Option (State × Bool) :=
  let r := i2c_read bus s.buffer num_bytes s.fd true true s.world
  let s1 := { s with buffer := r.buffer, fd := r.fd, world := r.world }
  if r.ret = false then
    some ({ s1 with status := "disconnected" }, true)
  else
    (store i s1).map fun s2 => (s2, false)

/-- The store `right_flex[i] = (unsigned int)atoi( buffer )`. -/
def store_flex (i : Nat) (s : State) : Option State :=
  (wr s.right_flex i (to_unsigned (atoi s.buffer))).map fun a => { s with right_flex := a }

/-- The store and flip of `right_contact[i]`. -/
def store_contact (i : Nat) (s : State) : Option State :=
  (decode_contact s.right_contact i s.buffer).map fun a => { s with right_contact := a }

/-- The store `right_303_accel[i] = (double)atoi( buffer )`. -/
def store_303_accel (i : Nat) (s : State) : Option State :=
  (wr s.right_303_accel i (atoi s.buffer)).map fun a => { s with right_303_accel := a }

/-- The store `right_303_mag[i] = (double)atoi( buffer )`. -/
def store_303_mag (i : Nat) (s : State) : Option State :=
  (wr s.right_303_mag i (atoi s.buffer)).map fun a => { s with right_303_mag := a }

/-- The store `right_9dof_accel[i] = (double)atoi( buffer )`. -/
def store_9dof_accel (i : Nat) (s : State) : Option State :=
  (wr s.right_9dof_accel i (atoi s.buffer)).map fun a => { s with right_9dof_accel := a }

/-- The store `right_9dof_mag[i] = (double)atoi( buffer )`. -/
def store_9dof_mag (i : Nat) (s : State) : Option State :=
  (wr s.right_9dof_mag i (atoi s.buffer)).map fun a => { s with right_9dof_mag := a }

/-- The store `right_9dof_gyro[i] = (double)atoi( buffer )`. -/
def store_9dof_gyro (i : Nat) (s : State) : Option State :=
  (wr s.right_9dof_gyro i (atoi s.buffer)).map fun a => { s with right_9dof_gyro := a }

/-- The head of a cycle: `buffer_init( buffer )`, `strcpy( status, "connected" )`,
`cmd[0] = 0`, `num_bytes = 1` and the `i2c_write` that resets the
microcontroller's internal pointer. -/
def cursor_reset (bus : Nat → BusOutcome) (s : State) : State :=
  let s := { s with buffer := buffer_init, status := "connected", cmd := s.cmd.set 0 0 }
  let r := i2c_write bus s.cmd 1 s.fd true true s.world
  let s := { s with cmd := r.buffer, fd := r.fd, world := r.world }
  if r.ret = false then { s with status := "disconnected" } else s

/-- The flex loop of a cycle, `num_bytes = 4`, `i < (NUM_FINGERS - 1)`. -/
def read_flex (bus : Nat → BusOutcome) (s : State) : Option State :=
  forRange (read_step bus 4 store_flex) (NUM_FINGERS - 1) 0 s

/-- The contact loop of a cycle, after `buffer_init( buffer )`, `num_bytes = 1`. -/
def read_contacts (bus : Nat → BusOutcome) (s : State) : Option State :=
  forRange (read_step bus 1 store_contact) TOTAL_NUM_CONTACTS 0
    { s with buffer := buffer_init }

/-- The two LSM303 loops of a cycle, `num_bytes = 4`. -/
def read_303 (bus : Nat → BusOutcome) (s : State) : Option State := do
  let s ← forRange (read_step bus 4 store_303_accel) SEP_NUM_303 0 s
  forRange (read_step bus 4 store_303_mag) SEP_NUM_303 0 s

/-- The three LSM9DOF loops of a cycle, `num_bytes = 6`. -/
def read_9dof (bus : Nat → BusOutcome) (s : State) : Option State := do
  let s ← forRange (read_step bus 6 store_9dof_accel) SEP_NUM_9DOF 0 s
  let s ← forRange (read_step bus 6 store_9dof_mag) SEP_NUM_9DOF 0 s
  forRange (read_step bus 6 store_9dof_gyro) SEP_NUM_9DOF 0 s

/-- The call of `group_data` in `main`. -/
def group (s : State) : Option State :=
  (group_data s.hands s.left_flex s.right_flex s.left_contact s.right_contact
    s.left_303_accel s.left_303_mag s.right_303_accel s.right_303_mag
    s.left_9dof_accel s.left_9dof_mag s.left_9dof_gyro
    s.right_9dof_accel s.right_9dof_mag s.right_9dof_gyro).map
    fun h => { s with hands := h }

/-- One pass of the `while( true )` loop of `main`, up to the call of
`write_file`: the state it returns holds the `hands` and the `status` that
`write_file` receives. -/
def cycle (bus : Nat → BusOutcome) (s : State) : Option State := do
  let s := cursor_reset bus s
  let s ← read_flex bus s
  let s ← read_contacts bus s
  let s ← read_303 bus s
  let s ← read_9dof bus s
  group s

/-- The `hands` and `status` arguments of the `write_file` call that ends a cycle. -/
def emitted (s : State) : Hands × String :=
  (s.hands, s.status)

/-- The first `n` passes of the loop of `main` from state `s`: the arguments
of the `n` calls of `write_file`, in order, and the state after them. -/
def cycles (bus : Nat → BusOutcome) : Nat → State → Option (List (Hands × String) × State)
  | 0, s => some ([], s)
  | n + 1, s =>
    match cycle bus s with
    | none => none
    | some s1 =>
      match cycles bus n s1 with
      | none => none
      | some (out, s2) => some (emitted s1 :: out, s2)

/-- The program `main` run for `n` passes of its loop from indeterminate
initial locals `s`. -/
def main (bus : Nat → BusOutcome) (n : Nat) (s : State) :
    Option (List (Hands × String) × State) :=
  cycles bus n (main_init s)

/-- The calls this cycle added to the record of the world. -/
def new_events (before after : State) : List Event :=
  after.world.log.drop before.world.log.length

/-- Whether `l` is the run of one read category of width `num_bytes` and
count `count`: at least one and at most `count` reads, all of that width,
every read but the last successful, and a last read that failed whenever
fewer than `count` were made. -/
def is_category_run (num_bytes count : Nat) (l : List Event) : Bool :=
  decide (1 ≤ l.length) && decide (l.length ≤ count) &&
  l.all (fun e => !e.is_write && e.num_bytes == num_bytes) &&
  l.dropLast.all (fun e => e.ok) &&
  (decide (l.length = count) || (l.getLast?.map fun e => e.ok) == some false)

/-! ## The assembled record in closed form -/

/-- The element `a[n]` of a stream for a computed position `n`, zero when `n`
is outside the stream (no position used below is). -/
def at_pos {α : Type} [Zero α] {N : Nat} (a : Fin N → α) (n : Nat) : α :=
  if h : n < N then a ⟨n, h⟩ else 0

/-- The record `store_data` leaves in `hands[i]`, written member by member:
`h` is the record `hands[i]` held before the call, of which only the second
contact slot of the thumb is kept. -/
def assemble (h : Hand) (flex : Fin NUM_FINGERS → Nat)
    (contact : Fin TOTAL_NUM_CONTACTS → bool)
    (accel303 mag303 : Fin SEP_NUM_303 → double)
    (accel9dof mag9dof gyro9dof : Fin SEP_NUM_9DOF → double) : Hand :=
  { fingers := fun j =>
      { flex := flex j
        contact := fun k =>
          if j.val = NUM_FINGERS - 1 ∧ k.val = 1 then (h.fingers j).contact k
          else at_pos contact (2 * j.val + k.val) }
    fold := fun j => { contact := at_pos contact (9 + j.val) }
    lsm303 := fun j =>
      { accel_x := at_pos accel303 (3 * j.val)
        accel_y := at_pos accel303 (3 * j.val + 1)
        accel_z := at_pos accel303 (3 * j.val + 2)
        mag_x := at_pos mag303 (3 * j.val)
        mag_y := at_pos mag303 (3 * j.val + 1)
        mag_z := at_pos mag303 (3 * j.val + 2) }
    lsm9dof := fun j =>
      { accel_x := at_pos accel9dof (3 * j.val)
        accel_y := at_pos accel9dof (3 * j.val + 1)
        accel_z := at_pos accel9dof (3 * j.val + 2)
        mag_x := at_pos mag9dof (3 * j.val)
        mag_y := at_pos mag9dof (3 * j.val + 1)
        mag_z := at_pos mag9dof (3 * j.val + 2)
        gyro_x := at_pos gyro9dof (3 * j.val)
        gyro_y := at_pos gyro9dof (3 * j.val + 1)
        gyro_z := at_pos gyro9dof (3 * j.val + 2) } }

/-! ## Vocabulary for the outcome of a cycle -/

/-- Whether `i2c_read`, called for `num_bytes` bytes with `open_file` and
`close_file` both `true`, returns `true` on the outcome `o`: `open`, `ioctl`
and `close` succeed and `read` delivers the full width. -/
def read_succeeds (o : BusOutcome) (num_bytes : Nat) : Bool :=
  decide (o.open_ret ≠ -1) && decide (0 ≤ o.ioctl_ret) &&
    (match o.read_data with
     | none => false
     | some bytes => decide ((bytes.take num_bytes).length = num_bytes)) &&
    decide (o.close_ret ≠ -1)

/-- Whether `i2c_write`, called for `num_bytes` bytes with `open_file` and
`close_file` both `true`, returns `true` on the outcome `o`. -/
def write_succeeds (o : BusOutcome) (num_bytes : Nat) : Bool :=
  decide (o.open_ret ≠ -1) && decide (0 ≤ o.ioctl_ret) &&
    decide (o.write_ret = (num_bytes : Int)) && decide (o.close_ret ≠ -1)

/-- The bytes the `write` call of an `i2c_write` hands to the bus on the
outcome `o`: none when `open` or `ioctl` fails (the call is not reached),
otherwise the first `num_bytes` bytes of the buffer. -/
def write_sent (o : BusOutcome) (buffer : List Nat) (num_bytes : Nat) : List (List Nat) :=
  if o.open_ret = -1 ∨ o.ioctl_ret < 0 then [] else [buffer.take num_bytes]

/-- The bytes a read of `num_bytes` bytes puts at the front of the buffer on
the outcome `o`. -/
def sample (o : BusOutcome) (num_bytes : Nat) : List Nat :=
  (o.read_data.getD []).take num_bytes

/-- The number of reads that succeed before the first failure, among at most
`n` reads of `num_bytes` bytes answered by the outcomes `t`, `t + 1`, ... -/
def read_count (bus : Nat → BusOutcome) (num_bytes : Nat) : Nat → Nat → Nat
  | 0, _ => 0
  | n + 1, t =>
    if read_succeeds (bus t) num_bytes then read_count bus num_bytes n (t + 1) + 1 else 0

/-- The number of calls a read loop of count `n` issues from outcome `t` on:
its successful reads and, when it stops early, the read that failed. -/
def read_calls (bus : Nat → BusOutcome) (num_bytes n t : Nat) : Nat :=
  if read_count bus num_bytes n t < n then read_count bus num_bytes n t + 1
  else n

/-- The calls a read loop of count `n` adds to the record of the world from
outcome `t` on: one successful read per sample stored and, when the loop stops
early, the read that failed. -/
def read_events (bus : Nat → BusOutcome) (num_bytes n t : Nat) : List Event :=
  List.replicate (read_count bus num_bytes n t)
      { is_write := false, num_bytes := num_bytes, ok := true } ++
    if read_count bus num_bytes n t < n then
      [{ is_write := false, num_bytes := num_bytes, ok := false }]
    else []

/-- A stream array after a read loop that started at index `k` on outcome `t`
with `tail` behind the sample in the buffer: the slots `k`, `k + 1`, ... of
the successful reads hold the decoded samples, every other slot holds what it
held before the loop. -/
def stream_after {α : Type} {N : Nat} (bus : Nat → BusOutcome) (num_bytes n k t : Nat)
    (tail : List Nat) (dec : List Nat → α) (a : Fin N → α) : Fin N → α :=
  fun i =>
    if k ≤ i.val ∧ i.val < k + read_count bus num_bytes n t then
      dec (sample (bus (t + (i.val - k))) num_bytes ++ tail)
    else a i

/-- The buffer after one `i2c_read` of `num_bytes` bytes on the outcome `o`:
untouched when `open`, `ioctl` or `read` fails, otherwise the delivered bytes
over its front. -/
def buffer_after_read (o : BusOutcome) (num_bytes : Nat) (buffer : List Nat) : List Nat :=
  if o.open_ret = -1 ∨ o.ioctl_ret < 0 then buffer
  else
    match o.read_data with
    | none => buffer
    | some bytes => bytes.take num_bytes ++ buffer.drop (bytes.take num_bytes).length

/-- The buffer after a read loop of count `n` from outcome `t` on. -/
def loop_buffer (bus : Nat → BusOutcome) (num_bytes : Nat) : Nat → Nat → List Nat → List Nat
  | 0, _, b => b
  | n + 1, t, b =>
    if read_succeeds (bus t) num_bytes then
      loop_buffer bus num_bytes n (t + 1) (buffer_after_read (bus t) num_bytes b)
    else buffer_after_read (bus t) num_bytes b

/-- The file handle `fd` after a read loop of count `n` from outcome `t` on:
the value the last `open` returned. -/
def loop_fd (bus : Nat → BusOutcome) (num_bytes : Nat) : Nat → Nat → Int → Int
  | 0, _, f => f
  | n + 1, t, _ =>
    if read_succeeds (bus t) num_bytes then loop_fd bus num_bytes n (t + 1) (bus t).open_ret
    else (bus t).open_ret

/-- The flex decoding `(unsigned int)atoi( buffer )`. -/
def dec_flex (buffer : List Nat) : Nat :=
  to_unsigned (atoi buffer)

/-- The contact decoding: `(bool)atoi( buffer )`, flipped by the comparison
with `true`. -/
def dec_contact (buffer : List Nat) : bool :=
  if to_bool (atoi buffer) = bool.true then bool.false else bool.true

/-- The inertial decoding `(double)atoi( buffer )`. -/
def dec_double (buffer : List Nat) : double :=
  atoi buffer

/-- The outcome number of the first flex read of the cycle that starts at
outcome `t` (outcome `t` answers the cursor reset). -/
def at_flex (t : Nat) : Nat :=
  t + 1

/-- The outcome number of the first contact read of the cycle from `t`. -/
def at_contacts (bus : Nat → BusOutcome) (t : Nat) : Nat :=
  at_flex t + read_calls bus 4 (NUM_FINGERS - 1) (at_flex t)

/-- The outcome number of the first LSM303 accelerometer read. -/
def at_303_accel (bus : Nat → BusOutcome) (t : Nat) : Nat :=
  at_contacts bus t + read_calls bus 1 TOTAL_NUM_CONTACTS (at_contacts bus t)

/-- The outcome number of the first LSM303 magnetometer read. -/
def at_303_mag (bus : Nat → BusOutcome) (t : Nat) : Nat :=
  at_303_accel bus t + read_calls bus 4 SEP_NUM_303 (at_303_accel bus t)

/-- The outcome number of the first LSM9DOF accelerometer read. -/
def at_9dof_accel (bus : Nat → BusOutcome) (t : Nat) : Nat :=
  at_303_mag bus t + read_calls bus 4 SEP_NUM_303 (at_303_mag bus t)

/-- The outcome number of the first LSM9DOF magnetometer read. -/
def at_9dof_mag (bus : Nat → BusOutcome) (t : Nat) : Nat :=
  at_9dof_accel bus t + read_calls bus 6 SEP_NUM_9DOF (at_9dof_accel bus t)

/-- The outcome number of the first LSM9DOF gyrometer read. -/
def at_9dof_gyro (bus : Nat → BusOutcome) (t : Nat) : Nat :=
  at_9dof_mag bus t + read_calls bus 6 SEP_NUM_9DOF (at_9dof_mag bus t)

/-- The outcome number the next cycle starts at. -/
def at_end (bus : Nat → BusOutcome) (t : Nat) : Nat :=
  at_9dof_gyro bus t + read_calls bus 6 SEP_NUM_9DOF (at_9dof_gyro bus t)

/-- The calls of the cycle that starts at outcome `t`, in order: the cursor
reset, then the reads of the seven categories. -/
def cycle_events (bus : Nat → BusOutcome) (t : Nat) : List Event :=
  { is_write := true, num_bytes := 1, ok := write_succeeds (bus t) 1 } ::
    (read_events bus 4 (NUM_FINGERS - 1) (at_flex t) ++
     read_events bus 1 TOTAL_NUM_CONTACTS (at_contacts bus t) ++
     read_events bus 4 SEP_NUM_303 (at_303_accel bus t) ++
     read_events bus 4 SEP_NUM_303 (at_303_mag bus t) ++
     read_events bus 6 SEP_NUM_9DOF (at_9dof_accel bus t) ++
     read_events bus 6 SEP_NUM_9DOF (at_9dof_mag bus t) ++
     read_events bus 6 SEP_NUM_9DOF (at_9dof_gyro bus t))

/-- What the call `e` returns on the outcome `o`: the result of `i2c_write`
for a write and of `i2c_read` for a read, of the width of `e`. -/
def call_result (o : BusOutcome) (e : Event) : Bool :=
  if e.is_write then write_succeeds o e.num_bytes else read_succeeds o e.num_bytes

/-- A stream array after the run of reads `run` of width `num_bytes` whose
first read is answered by outcome number `t0`: for each `i` below the number
of successful reads of the run, slot `i` holds the decoding of the bytes the
`i`-th read of the run received, those of outcome `t0 + i`, in front of the
NUL bytes of the cleared buffer; every other slot holds what it held before. -/
def filled_by {α : Type} {N : Nat} (bus : Nat → BusOutcome) (num_bytes t0 : Nat)
    (run : List Event) (dec : List Nat → α) (a : Fin N → α) : Fin N → α :=
  fun i =>
    if i.val < run.countP (fun e => e.ok) then
      dec (sample (bus (t0 + i.val)) num_bytes ++ buffer_init.drop num_bytes)
    else a i

/-- The property `P` holds of every call of the list `l` at its position,
counted from `off`. -/
def on_calls (P : Nat → Event → Prop) (off : Nat) (l : List Event) : Prop :=
  ∀ j e, l[j]? = some e → P (off + j) e

/-- The buffer at the end of the cycle that starts at outcome `t`: the buffer
is cleared before the contact reads, and the six loops from there on write
over it. -/
def cycle_buffer (bus : Nat → BusOutcome) (t : Nat) : List Nat :=
  loop_buffer bus 6 SEP_NUM_9DOF (at_9dof_gyro bus t)
    (loop_buffer bus 6 SEP_NUM_9DOF (at_9dof_mag bus t)
      (loop_buffer bus 6 SEP_NUM_9DOF (at_9dof_accel bus t)
        (loop_buffer bus 4 SEP_NUM_303 (at_303_mag bus t)
          (loop_buffer bus 4 SEP_NUM_303 (at_303_accel bus t)
            (loop_buffer bus 1 TOTAL_NUM_CONTACTS (at_contacts bus t) buffer_init)))))

/-- The file handle `fd` at the end of the cycle that starts at outcome `t`. -/
def cycle_fd (bus : Nat → BusOutcome) (t : Nat) : Int :=
  loop_fd bus 6 SEP_NUM_9DOF (at_9dof_gyro bus t)
    (loop_fd bus 6 SEP_NUM_9DOF (at_9dof_mag bus t)
      (loop_fd bus 6 SEP_NUM_9DOF (at_9dof_accel bus t)
        (loop_fd bus 4 SEP_NUM_303 (at_303_mag bus t)
          (loop_fd bus 4 SEP_NUM_303 (at_303_accel bus t)
            (loop_fd bus 1 TOTAL_NUM_CONTACTS (at_contacts bus t)
              (loop_fd bus 4 (NUM_FINGERS - 1) (at_flex t) (bus t).open_ret))))))

/-- Whether every call of the cycle from outcome `t` succeeds: the cursor
reset and the full count of reads of each category. -/
def all_succeed (bus : Nat → BusOutcome) (t : Nat) : Bool :=
  write_succeeds (bus t) 1 &&
  decide (read_count bus 4 (NUM_FINGERS - 1) (at_flex t) = NUM_FINGERS - 1) &&
  decide (read_count bus 1 TOTAL_NUM_CONTACTS (at_contacts bus t) = TOTAL_NUM_CONTACTS) &&
  decide (read_count bus 4 SEP_NUM_303 (at_303_accel bus t) = SEP_NUM_303) &&
  decide (read_count bus 4 SEP_NUM_303 (at_303_mag bus t) = SEP_NUM_303) &&
  decide (read_count bus 6 SEP_NUM_9DOF (at_9dof_accel bus t) = SEP_NUM_9DOF) &&
  decide (read_count bus 6 SEP_NUM_9DOF (at_9dof_mag bus t) = SEP_NUM_9DOF) &&
  decide (read_count bus 6 SEP_NUM_9DOF (at_9dof_gyro bus t) = SEP_NUM_9DOF)

/-- The state with a new buffer, file handle, world and status: the four
variables every bus call of `main` may change. -/
def State.with_io (s : State) (buffer : List Nat) (fd : Int) (world : World)
    (status : String) : State :=
  { s with buffer := buffer, fd := fd, world := world, status := status }

/-- The state with a new `cmd`. -/
def State.set_cmd (a : List Nat) (s : State) : State :=
  { s with cmd := a }

/-- The state with a new `buffer`. -/
def State.set_buffer (a : List Nat) (s : State) : State :=
  { s with buffer := a }

/-- The state with a new `hands`. -/
def State.set_hands (a : Hands) (s : State) : State :=
  { s with hands := a }

/-- The state with a new `right_flex`. -/
def State.set_right_flex (a : Fin NUM_FINGERS → Nat) (s : State) : State :=
  { s with right_flex := a }

/-- The state with a new `right_contact`. -/
def State.set_right_contact (a : Fin TOTAL_NUM_CONTACTS → bool) (s : State) : State :=
  { s with right_contact := a }

/-- The state with a new `right_303_accel`. -/
def State.set_right_303_accel (a : Fin SEP_NUM_303 → double) (s : State) : State :=
  { s with right_303_accel := a }

/-- The state with a new `right_303_mag`. -/
def State.set_right_303_mag (a : Fin SEP_NUM_303 → double) (s : State) : State :=
  { s with right_303_mag := a }

/-- The state with a new `right_9dof_accel`. -/
def State.set_right_9dof_accel (a : Fin SEP_NUM_9DOF → double) (s : State) : State :=
  { s with right_9dof_accel := a }

/-- The state with a new `right_9dof_mag`. -/
def State.set_right_9dof_mag (a : Fin SEP_NUM_9DOF → double) (s : State) : State :=
  { s with right_9dof_mag := a }

/-- The state with a new `right_9dof_gyro`. -/
def State.set_right_9dof_gyro (a : Fin SEP_NUM_9DOF → double) (s : State) : State :=
  { s with right_9dof_gyro := a }

/-! ## Concrete inputs -/

/-- A hand record with every member zero. -/
def zero_hand : Hand :=
  { fingers := fun _ => { flex := 0, contact := fun _ => 0 }
    fold := fun _ => { contact := 0 }
    lsm303 := fun _ =>
      { accel_x := 0, accel_y := 0, accel_z := 0, mag_x := 0, mag_y := 0, mag_z := 0 }
    lsm9dof := fun _ =>
      { accel_x := 0, accel_y := 0, accel_z := 0, mag_x := 0, mag_y := 0, mag_z := 0,
        gyro_x := 0, gyro_y := 0, gyro_z := 0 } }

/-- Both hands zero. -/
def zero_hands : Hands :=
  fun _ => zero_hand

/-- The stream `[1, 2, 3, 4, 5, 6]`. -/
def stream_1_to_6 : Fin SEP_NUM_303 → double :=
  fun k => (k.val : Int) + 1

/-- The flex array `[0, 0, 0, 0, 7]`. -/
def flex_thumb_7 : Fin NUM_FINGERS → Nat :=
  fun j => if j.val = 4 then 7 else 0

/-- A state of `main` with every variable zero and a fresh world. -/
def zero_state : State :=
  { world := { t := 0, opened := 0, closed := 0, log := [], sent := [] }
    fd := 0
    buffer := buffer_init
    cmd := buffer_init
    status := ""
    left_flex := fun _ => 0
    right_flex := fun _ => 0
    left_contact := fun _ => 0
    right_contact := fun _ => 0
    left_303_accel := fun _ => 0
    left_303_mag := fun _ => 0
    right_303_accel := fun _ => 0
    right_303_mag := fun _ => 0
    left_9dof_accel := fun _ => 0
    left_9dof_mag := fun _ => 0
    left_9dof_gyro := fun _ => 0
    right_9dof_accel := fun _ => 0
    right_9dof_mag := fun _ => 0
    right_9dof_gyro := fun _ => 0
    hands := zero_hands }

/-- The outcome of a transaction in which every system call succeeds, `read`
delivers `bytes` and `write` accepts `written` bytes. -/
def good_outcome (bytes : List Nat) (written : Int) : BusOutcome :=
  { open_ret := 3, ioctl_ret := 0, read_data := some bytes, write_ret := written,
    close_ret := 0 }

/-! ## Vocabulary for the claims on handles, contact members and histories -/

/-- The number of bus handles that are open: the successful `open` calls that
no `close` call has followed. -/
def open_handles (w : World) : Nat :=
  w.opened - w.closed

/-- The member of a hand record that `store_data` fills from position `k` of
the contact stream: the two slots of fingers 0 to 3 (positions 0 to 7), the
first slot of the thumb (position 8), the four folds (positions 9 to 12). -/
def contact_member (h : Hand) (k : Fin TOTAL_NUM_CONTACTS) : bool :=
  if hk : k.val < 8 then
    (h.fingers ⟨k.val / 2, by simp only [NUM_FINGERS]; omega⟩).contact
      ⟨k.val % 2, by simp only [NUM_FINGER_CONTACTS]; omega⟩
  else if hk8 : k.val = 8 then
    (h.fingers ⟨4, by decide⟩).contact ⟨0, by decide⟩
  else
    (h.fold ⟨k.val - 9, by
      have := k.isLt
      simp only [NUM_FOLDS, TOTAL_NUM_CONTACTS] at *
      omega⟩).contact

/-- Two runs of a read loop on one stream, compared slot by slot: a slot
among the first `count` (those whose read succeeded) holds the same value
after both runs; any other slot holds, after each run, what it held before
that run. -/
def agree_or_kept {α : Type} {N : Nat} (count : Nat)
    (before before' after after' : Fin N → α) : Prop :=
  ∀ i : Fin N,
    if i.val < count then after i = after' i
    else after i = before i ∧ after' i = before' i

/-- The outcome of a transaction that fails at `open`. -/
def dead_outcome : BusOutcome :=
  { open_ret := -1, ioctl_ret := 0, read_data := none, write_ret := 0, close_ret := 0 }

/-- The outcome of a transaction whose `open` succeeds and whose `ioctl`
fails. -/
def unaddressed_outcome : BusOutcome :=
  { open_ret := 3, ioctl_ret := -1, read_data := none, write_ret := 0, close_ret := 0 }

/-- The outcome of a transaction whose `open` and `ioctl` succeed and whose
transfer is short: `read` delivers one byte, `write` accepts none. -/
def short_outcome : BusOutcome :=
  { open_ret := 3, ioctl_ret := 0, read_data := some [49], write_ret := 0, close_ret := 0 }

/-- A bus that answers outcomes 0 to 5 (the cursor reset, four flex reads and
the first contact read) with success and the bytes `"0000"`, and fails every
later transaction: the contact reads fail at position 1. -/
def bus_contacts_fail_at_1 : Nat → BusOutcome :=
  fun t => if t < 6 then good_outcome [48, 48, 48, 48] 1 else dead_outcome

/-- A bus on which every transaction fails. -/
def bus_dead : Nat → BusOutcome :=
  fun _ => dead_outcome

/-- A bus whose first 48 transactions (one whole cycle) succeed with the bytes
`"123456"` and whose later transactions all fail. -/
def bus_good_then_dead : Nat → BusOutcome :=
  fun t => if t < 48 then good_outcome [49, 50, 51, 52, 53, 54] 1 else dead_outcome

/-- The zero state with the right-hand flex array `[0, 0, 0, 0, 7]`. -/
def state_flex_7 : State :=
  State.set_right_flex flex_thumb_7 zero_state

/-- The thumb carries no reading: slot 4 of both flex streams is 0 and the
second contact slot of the thumb is `false` in both records. -/
def thumb_unused (s : State) : Prop :=
  s.left_flex 4 = 0 ∧ s.right_flex 4 = 0 ∧
  ∀ i : Fin NUM_HANDS, ((s.hands i).fingers 4).contact 1 = bool.false

/-- The outcomes from number `t'` on of the bus `bus'` are those from number
`t` on of the bus `bus`: the two buses give the same responses to a cycle that
starts at `t` on the one and at `t'` on the other. -/
def same_responses (bus : Nat → BusOutcome) (t : Nat) (bus' : Nat → BusOutcome) (t' : Nat) :
    Prop :=
  ∀ j, bus' (t' + j) = bus (t + j)

/-- The bytes a read of `num_bytes` bytes on the outcome `o` puts into the
buffer: none when `open`, `ioctl` or `read` fails, otherwise the bytes `read`
delivered, at most `num_bytes` of them. -/
def delivered (o : BusOutcome) (num_bytes : Nat) : Option (List Nat) :=
  if o.open_ret = -1 ∨ o.ioctl_ret < 0 then none
  else o.read_data.map fun bytes => bytes.take num_bytes

/-- The outcomes `o` and `o'` are the same response to the call `e`: the call
returns the same success or failure on both and, when it is a read, is
delivered the same bytes.  The descriptor number `open` returns and the error
codes are not compared. -/
def same_response (e : Event) (o o' : BusOutcome) : Prop :=
  call_result o' e = call_result o e ∧
  (e.is_write = false → delivered o' e.num_bytes = delivered o e.num_bytes)

/-- The cycle that starts at outcome `t'` of the bus `bus'` receives the
responses the cycle that starts at outcome `t` of the bus `bus` received: for
each call of that cycle, the `j`-th one, outcome `t' + j` of `bus'` is the same
response to it as outcome `t + j` of `bus`. -/
def same_cycle_responses (bus : Nat → BusOutcome) (t : Nat) (bus' : Nat → BusOutcome)
    (t' : Nat) : Prop :=
  ∀ j e, (cycle_events bus t)[j]? = some e → same_response e (bus (t + j)) (bus' (t' + j))

/-- A bus on which every transaction succeeds with the bytes `"123456"` and
on which `open` returns a different descriptor number at every call. -/
def bus_fresh_handles : Nat → BusOutcome :=
  fun t => { open_ret := 3 + t, ioctl_ret := 0, read_data := some [49, 50, 51, 52, 53, 54],
             write_ret := 1, close_ret := 0 }

end Glove

/-! # Theorems -/

namespace Glove

/-! ## The record assembler -/

/-- C1: for each side `i` and every 13-element contact stream `c`, `store_data`
returns a record in which `fingers[j].contact[k] = c[2*j+k]` for `j < 4`,
`k < 2`, `fingers[4].contact[0] = c[8]` and `fold[j].contact = c[9+j]` for
`j < 4`; the contact counter `m` ends at 13, and no read falls outside the
13 elements (such a read would make the model return `none`). -/
theorem store_data_contact_positions (hands : Hands) (flex : Fin NUM_FINGERS → Nat)
    (c : Fin TOTAL_NUM_CONTACTS → bool) (accel303 mag303 : Fin SEP_NUM_303 → double)
    (accel9dof mag9dof gyro9dof : Fin SEP_NUM_9DOF → double) (i : Fin NUM_HANDS) :
    ∃ hands', store_data hands flex c accel303 mag303 accel9dof mag9dof gyro9dof i.val
        = some hands' ∧
      (∀ (j : Fin 4) (k : Fin 2),
        ((hands' i).fingers (Fin.castLE (by decide) j)).contact k
          = c (⟨2 * j.val + k.val, by omega⟩ : Fin 13)) ∧
      ((hands' i).fingers 4).contact 0 = c 8 ∧
      (∀ j : Fin 4, ((hands' i).fold j).contact = c (⟨9 + j.val, by omega⟩ : Fin 13)) ∧
      (store_data_contacts hands flex c i.val).map Prod.snd = some TOTAL_NUM_CONTACTS := by
  fin_cases i
  · refine ⟨_, rfl, ?_, rfl, ?_, rfl⟩
    · intro j k
      fin_cases j <;> fin_cases k <;> rfl
    · intro j
      fin_cases j <;> rfl
  · refine ⟨_, rfl, ?_, rfl, ?_, rfl⟩
    · intro j k
      fin_cases j <;> fin_cases k <;> rfl
    · intro j
      fin_cases j <;> rfl

/-- C2 (as stated, refuted): with the accelerometer stream `[1, 2, 3, 4, 5, 6]`
the x component of sensor instance 1 is not stream position 1 (the value 2):
it is stream position 3 (the value 4), and position 1 is the y component of
instance 0. -/
theorem store_data_303_not_per_axis :
    (store_data zero_hands flex_thumb_7 (fun _ => 0) stream_1_to_6 stream_1_to_6
        (fun _ => 0) (fun _ => 0) (fun _ => 0) 1).map
        (fun h => (((h 1).lsm303 1).accel_x, ((h 1).lsm303 0).accel_y))
      = some (4, 2) ∧
    stream_1_to_6 ⟨1, by decide⟩ = 2 ∧
    (store_data zero_hands flex_thumb_7 (fun _ => 0) stream_1_to_6 stream_1_to_6
        (fun _ => 0) (fun _ => 0) (fun _ => 0) 1).map
        (fun h => ((h 1).lsm303 1).accel_x)
      ≠ some (stream_1_to_6 ⟨1, by decide⟩) := by
  refine ⟨rfl, rfl, ?_⟩
  decide

/-- C2 (amended): for every accelerometer stream `a` and magnetometer stream
`m`, `store_data` gives sensor instance `j` the three consecutive stream
positions `3*j`, `3*j+1`, `3*j+2` as its x, y and z components (the stream is
ordered per instance across axes): instance 0 reads positions 0, 1, 2 and
instance 1 reads positions 3, 4, 5, for `accel` and `mag` alike. -/
theorem store_data_303_positions (hands : Hands) (flex : Fin NUM_FINGERS → Nat)
    (c : Fin TOTAL_NUM_CONTACTS → bool) (a m : Fin SEP_NUM_303 → double)
    (accel9dof mag9dof gyro9dof : Fin SEP_NUM_9DOF → double) (i : Fin NUM_HANDS) :
    ∃ hands', store_data hands flex c a m accel9dof mag9dof gyro9dof i.val = some hands' ∧
      ∀ j : Fin 2,
        ((hands' i).lsm303 j).accel_x = a (⟨3 * j.val, by omega⟩ : Fin 6) ∧
        ((hands' i).lsm303 j).accel_y = a (⟨3 * j.val + 1, by omega⟩ : Fin 6) ∧
        ((hands' i).lsm303 j).accel_z = a (⟨3 * j.val + 2, by omega⟩ : Fin 6) ∧
        ((hands' i).lsm303 j).mag_x = m (⟨3 * j.val, by omega⟩ : Fin 6) ∧
        ((hands' i).lsm303 j).mag_y = m (⟨3 * j.val + 1, by omega⟩ : Fin 6) ∧
        ((hands' i).lsm303 j).mag_z = m (⟨3 * j.val + 2, by omega⟩ : Fin 6) := by
  fin_cases i
  · refine ⟨_, rfl, ?_⟩
    intro j
    fin_cases j <;> exact ⟨rfl, rfl, rfl, rfl, rfl, rfl⟩
  · refine ⟨_, rfl, ?_⟩
    intro j
    fin_cases j <;> exact ⟨rfl, rfl, rfl, rfl, rfl, rfl⟩

/-- C3: for each side `i` and every flex array `f`, `store_data` returns a
record with `fingers[j].flex = f[j]` for `j < 4` (index, middle, ring,
pinky); when `f` begins `[10, 20, 30, 40]` the four readings are
`[10, 20, 30, 40]`, whatever the fifth element is. -/
theorem store_data_flex_positions (hands : Hands)
    (c : Fin TOTAL_NUM_CONTACTS → bool) (accel303 mag303 : Fin SEP_NUM_303 → double)
    (accel9dof mag9dof gyro9dof : Fin SEP_NUM_9DOF → double) (i : Fin NUM_HANDS) :
    (∀ f : Fin NUM_FINGERS → Nat,
      ∃ hands', store_data hands f c accel303 mag303 accel9dof mag9dof gyro9dof i.val
          = some hands' ∧
        ∀ j : Fin 4, ((hands' i).fingers (Fin.castLE (by decide) j)).flex
          = f (Fin.castLE (by decide) j)) ∧
    (∀ f4 : Nat,
      ∃ hands', store_data hands ![10, 20, 30, 40, f4] c accel303 mag303
          accel9dof mag9dof gyro9dof i.val = some hands' ∧
        List.ofFn (fun j : Fin 4 => ((hands' i).fingers (Fin.castLE (by decide) j)).flex)
          = [10, 20, 30, 40]) := by
  fin_cases i
  · refine ⟨fun f => ⟨_, rfl, ?_⟩, fun f4 => ⟨_, rfl, rfl⟩⟩
    intro j
    fin_cases j <;> rfl
  · refine ⟨fun f => ⟨_, rfl, ?_⟩, fun f4 => ⟨_, rfl, rfl⟩⟩
    intro j
    fin_cases j <;> rfl

/-- C4 (as stated, refuted): from the all-zero record and the flex array
`[0, 0, 0, 0, 7]`, `store_data` leaves the thumb's flex reading at 7, not at
the 0 it held before the call. -/
theorem store_data_writes_thumb_flex :
    ((zero_hands 1).fingers 4).flex = 0 ∧
    (store_data zero_hands flex_thumb_7 (fun _ => 0) (fun _ => 0) (fun _ => 0)
        (fun _ => 0) (fun _ => 0) (fun _ => 0) 1).map
        (fun h => ((h 1).fingers 4).flex) = some 7 := by
  exact ⟨rfl, rfl⟩

/-- C4 (amended): `store_data` assigns the thumb's flex reading from the fifth
element of the flex array it is passed: for each side `i`, every prior record
and every flex array `f`, `hands[i].fingers[4].flex = f[4]` after the call,
so it depends on no sensor reading `f[0..3]`. -/
theorem store_data_thumb_flex (hands : Hands) (f : Fin NUM_FINGERS → Nat)
    (c : Fin TOTAL_NUM_CONTACTS → bool) (accel303 mag303 : Fin SEP_NUM_303 → double)
    (accel9dof mag9dof gyro9dof : Fin SEP_NUM_9DOF → double) (i : Fin NUM_HANDS) :
    ∃ hands', store_data hands f c accel303 mag303 accel9dof mag9dof gyro9dof i.val
        = some hands' ∧
      ((hands' i).fingers 4).flex = f 4 := by
  fin_cases i
  · exact ⟨_, rfl, rfl⟩
  · exact ⟨_, rfl, rfl⟩

/-! ## Decoding -/

theorem atoi_digits_c_string (cs : List Nat) (acc : Nat) :
    atoi_digits (c_string cs) acc = atoi_digits cs acc := by
  induction cs generalizing acc with
  | nil => rfl
  | cons c cs ih =>
    by_cases hc : c = 0
    · subst hc
      simp [c_string, atoi_digits, isdigit]
    · have h1 : c_string (c :: cs) = c :: c_string cs := by
        simp [c_string, hc]
      rw [h1]
      simp only [atoi_digits]
      split
      · exact ih _
      · rfl

theorem dropWhile_isspace_c_string (cs : List Nat) :
    (c_string cs).dropWhile isspace = c_string (cs.dropWhile isspace) := by
  induction cs with
  | nil => rfl
  | cons c cs ih =>
    by_cases hc : c = 0
    · subst hc
      simp [c_string, isspace]
    · have h1 : c_string (c :: cs) = c :: c_string cs := by
        simp [c_string, hc]
      rw [h1]
      by_cases hs : isspace c = true
      · simp only [List.dropWhile_cons, hs, if_true]
        exact ih
      · simp only [List.dropWhile_cons, hs]
        exact h1.symm

/-- The value of `atoi` depends on the text of the buffer only. -/
theorem atoi_c_string (buffer : List Nat) : atoi (c_string buffer) = atoi buffer := by
  unfold atoi
  rw [dropWhile_isspace_c_string]
  cases h : buffer.dropWhile isspace with
  | nil => rfl
  | cons c cs =>
    by_cases hc : c = 0
    · subst hc
      simp [c_string, atoi_digits, isdigit]
    · have h1 : c_string (c :: cs) = c :: c_string cs := by
        simp [c_string, hc]
      rw [h1]
      simp only []
      rw [atoi_digits_c_string, ← h1, atoi_digits_c_string]

/-- C5: in the contact loop, an `i2c_read` that succeeds and leaves the text
`"1"` (byte 49) in the buffer stores `right_contact[i] = false`, and one that
leaves the text `"0"` (byte 48) stores `right_contact[i] = true`; the loop
goes on to the next sample. -/
theorem contact_decoding_inverts (bus : Nat → BusOutcome) (s : State) (i : Nat)
    (hi : i < TOTAL_NUM_CONTACTS) (c : Nat) (hc : c = 49 ∨ c = 48)
    (hok : (i2c_read bus s.buffer 1 s.fd true true s.world).ret = true)
    (htext : c_string (i2c_read bus s.buffer 1 s.fd true true s.world).buffer = [c]) :
    ∃ s', read_step bus 1 store_contact i s = some (s', false) ∧
      s'.right_contact ⟨i, hi⟩ = if c = 49 then bool.false else bool.true := by
  have hatoi : atoi (i2c_read bus s.buffer 1 s.fd true true s.world).buffer
      = if c = 49 then 1 else 0 := by
    rw [← atoi_c_string, htext]
    rcases hc with rfl | rfl <;> rfl
  rcases hc with rfl | rfl
  · simp [read_step, hok, store_contact, decode_contact, hatoi, wr, rd, hi, to_bool,
      to_unsigned]
  · simp [read_step, hok, store_contact, decode_contact, hatoi, wr, rd, hi, to_bool,
      to_unsigned]

/-- Witness of C5: the first contact read of a fresh state, answered with the
single byte `"1"`. -/
theorem contact_decoding_inverts_witness :
    ∃ s', read_step (fun _ => good_outcome [49] 1) 1 store_contact 0 zero_state
        = some (s', false) ∧
      s'.right_contact ⟨0, by decide⟩ = if 49 = 49 then bool.false else bool.true :=
  contact_decoding_inverts (fun _ => good_outcome [49] 1) zero_state 0 (by decide) 49
    (Or.inl rfl) rfl rfl

/-- What the two decoding statements store: `false` when the converted
sample equals the constant `true` (1), `true` for every other value. -/
theorem decode_contact_value (a : Fin TOTAL_NUM_CONTACTS → bool) (i : Nat)
    (hi : i < TOTAL_NUM_CONTACTS) (buffer : List Nat) :
    ∃ a', decode_contact a i buffer = some a' ∧
      a' ⟨i, hi⟩ = if to_bool (atoi buffer) = bool.true then bool.false else bool.true := by
  simp only [decode_contact, wr, rd, hi, dite_true, Option.bind_eq_bind,
    Option.some_bind, Function.update_same]
  split_ifs <;> simp

/-- C6 (the code at the failing input): a contact read that succeeds with the
text `"2"` parses to 2, which `(bool)` keeps as 2; the comparison with `true`
(1) fails, and the sample is stored as `true`, although 2 is truthy. -/
theorem contact_decoding_of_two :
    atoi (50 :: List.replicate 1022 0) = 2 ∧ to_bool 2 = 2 ∧
    (read_step (fun _ => good_outcome [50] 1) 1 store_contact 0 zero_state).map
        (fun r => (r.1.right_contact 0, r.2)) = some (bool.true, false) := by
  refine ⟨rfl, rfl, rfl⟩

/-! ## Flex rounding -/

/-- C7: with the bounds 10 and 40, `round_flex` is the three-level function of
the specification for every `x`; its value is 0, 50 or 100; and 9, 10, 40, 41
give 0, 50, 50, 100. -/
theorem round_flex_three_level (x : Nat) :
    round_flex x 10 40 = three_level_spec x ∧
    (round_flex x 10 40 = 0 ∨ round_flex x 10 40 = 50 ∨ round_flex x 10 40 = 100) ∧
    round_flex 9 10 40 = 0 ∧ round_flex 10 10 40 = 50 ∧
    round_flex 40 10 40 = 50 ∧ round_flex 41 10 40 = 100 := by
  refine ⟨?_, ?_, rfl, rfl, rfl, rfl⟩
  · simp only [round_flex, three_level_spec]
  · simp only [round_flex]
    split_ifs <;> simp

theorem round_flex_mono (x y : Nat) (h : x ≤ y) : round_flex x lb ub ≤ round_flex y lb ub := by
  simp only [round_flex]
  split_ifs <;> omega

theorem flex_adjust_mono (r1 r2 : Nat) (h : r1 ≤ r2) : flex_adjust r1 ≤ flex_adjust r2 := by
  unfold flex_adjust
  apply Int.toNat_le_toNat
  apply Int.floor_le_floor
  have h' : (r1 : ℚ) ≤ (r2 : ℚ) := by exact_mod_cast h
  have hpos : (0 : ℚ) < (MAX_ADC : ℚ) := by norm_num
  gcongr

/-- The exact value `floor(r / 1023 * 100)` is the natural-number quotient
`r * 100 / 1023`. -/
theorem flex_adjust_eq (r : Nat) : flex_adjust r = r * 100 / 1023 := by
  unfold flex_adjust
  have h : (r : ℚ) / (MAX_ADC : ℚ) * 100 = ((r * 100 : ℕ) : ℚ) / ((1023 : ℕ) : ℚ) := by
    push_cast
    ring
  rw [h, Rat.floor_natCast_div_natCast]
  omega

/-- C8: the flex value `write_file` prints, `round_flex` of the exact
`floor(r / 1023 * 100)` with the bounds 10 and 40, is monotone in the raw
reading `r`. -/
theorem flex_round_monotone (r1 r2 : Nat) (h : r1 ≤ r2) : flex_round r1 ≤ flex_round r2 := by
  unfold flex_round
  exact round_flex_mono _ _ (flex_adjust_mono r1 r2 h)

/-- Witness of C8 at the raw readings 100 and 700. -/
theorem flex_round_monotone_witness : flex_round 100 ≤ flex_round 700 :=
  flex_round_monotone 100 700 (by decide)

/-! ## The cycle -/

theorem i2c_read_log (bus : Nat → BusOutcome) (buffer : List Nat) (num_bytes : Nat) (fd : Int)
    (open_file close_file : Bool) (w : World) :
    (i2c_read bus buffer num_bytes fd open_file close_file w).world.log
      = w.log ++ [{ is_write := false, num_bytes := num_bytes,
                    ok := (i2c_read bus buffer num_bytes fd open_file close_file w).ret }] := by
  unfold i2c_read
  simp only []
  split_ifs <;> try rfl
  all_goals (split <;> try split_ifs) <;> rfl

theorem i2c_write_log (bus : Nat → BusOutcome) (buffer : List Nat) (num_bytes : Nat) (fd : Int)
    (open_file close_file : Bool) (w : World) :
    (i2c_write bus buffer num_bytes fd open_file close_file w).world.log
      = w.log ++ [{ is_write := true, num_bytes := num_bytes,
                    ok := (i2c_write bus buffer num_bytes fd open_file close_file w).ret }] := by
  unfold i2c_write
  simp only []
  split_ifs <;> rfl

theorem is_category_run_fail (w n : Nat) :
    is_category_run w (n + 1) [{ is_write := false, num_bytes := w, ok := false }] = true := by
  simp [is_category_run]

theorem is_category_run_last (w : Nat) (ok : Bool) :
    is_category_run w 1 [{ is_write := false, num_bytes := w, ok := ok }] = true := by
  simp [is_category_run]

theorem is_category_run_cons (w n : Nat) (l : List Event)
    (h : is_category_run w n l = true) :
    is_category_run w (n + 1) ({ is_write := false, num_bytes := w, ok := true } :: l)
      = true := by
  cases l with
  | nil => simp [is_category_run] at h
  | cons x xs =>
    simp only [is_category_run, List.length_cons, List.all_cons, List.dropLast_cons₂,
      List.getLast?_cons_cons, Bool.and_eq_true, decide_eq_true_eq, Bool.or_eq_true,
      Bool.not_eq_true', beq_iff_eq] at h ⊢
    obtain ⟨⟨⟨⟨h1, h2⟩, h3⟩, h4⟩, h5⟩ := h
    refine ⟨⟨⟨⟨by omega, by omega⟩, by simpa using h3⟩, by simpa using h4⟩, ?_⟩
    rcases h5 with h5 | h5
    · left; omega
    · right; exact h5

theorem read_loop_spec (bus : Nat → BusOutcome) (w : Nat) (store : Nat → State → Option State)
    (bound : Nat)
    (hstore : ∀ i s, i < bound →
      ∃ s', store i s = some s' ∧ s'.world = s.world ∧ s'.status = s.status) :
    ∀ n k s, k + n ≤ bound →
      ∃ s' l, forRange (read_step bus w store) n k s = some s' ∧
        s'.world.log = s.world.log ++ l ∧
        ((n = 0 ∧ l = []) ∨ is_category_run w n l = true) ∧
        s'.status = if l.all (fun e => e.ok) then s.status else "disconnected" := by
  intro n
  induction n with
  | zero =>
    intro k s _
    exact ⟨s, [], rfl, by simp, Or.inl ⟨rfl, rfl⟩, by simp⟩
  | succ n ih =>
    intro k s hk
    have hlog := i2c_read_log bus s.buffer w s.fd true true s.world
    cases hret : (i2c_read bus s.buffer w s.fd true true s.world).ret with
    | false =>
      rw [hret] at hlog
      refine ⟨{ s with buffer := (i2c_read bus s.buffer w s.fd true true s.world).buffer,
                       fd := (i2c_read bus s.buffer w s.fd true true s.world).fd,
                       world := (i2c_read bus s.buffer w s.fd true true s.world).world,
                       status := "disconnected" },
        [{ is_write := false, num_bytes := w, ok := false }], ?_, hlog,
        Or.inr (is_category_run_fail w n), by simp⟩
      simp [forRange, read_step, hret]
    | true =>
      rw [hret] at hlog
      obtain ⟨s2, hs2, hw2, hst2⟩ := hstore k
        { s with buffer := (i2c_read bus s.buffer w s.fd true true s.world).buffer,
                 fd := (i2c_read bus s.buffer w s.fd true true s.world).fd,
                 world := (i2c_read bus s.buffer w s.fd true true s.world).world } (by omega)
      obtain ⟨s', l', hrun, hl', hcat, hst'⟩ := ih (k + 1) s2 (by omega)
      refine ⟨s', { is_write := false, num_bytes := w, ok := true } :: l', ?_, ?_, ?_, ?_⟩
      · simp [forRange, read_step, hret, hs2, hrun]
      · rw [hl', hw2]
        simp only []
        rw [hlog]
        simp
      · right
        rcases hcat with ⟨rfl, rfl⟩ | hcat
        · exact is_category_run_last w true
        · exact is_category_run_cons w n l' hcat
      · rw [hst', hst2]
        simp

theorem store_flex_frame (i : Nat) (s : State) (h : i < NUM_FINGERS - 1) :
    ∃ s', store_flex i s = some s' ∧ s'.world = s.world ∧ s'.status = s.status := by
  have h' : i < NUM_FINGERS := by omega
  simp [store_flex, wr, h']

theorem store_contact_frame (i : Nat) (s : State) (h : i < TOTAL_NUM_CONTACTS) :
    ∃ s', store_contact i s = some s' ∧ s'.world = s.world ∧ s'.status = s.status := by
  simp only [store_contact, decode_contact, wr, rd, h, dite_true, Option.bind_eq_bind,
    Option.some_bind, Function.update_same]
  split_ifs <;> simp

theorem store_303_accel_frame (i : Nat) (s : State) (h : i < SEP_NUM_303) :
    ∃ s', store_303_accel i s = some s' ∧ s'.world = s.world ∧ s'.status = s.status := by
  simp only [store_303_accel, wr, dif_pos h, Option.map_some']
  exact ⟨_, rfl, rfl, rfl⟩

theorem store_303_mag_frame (i : Nat) (s : State) (h : i < SEP_NUM_303) :
    ∃ s', store_303_mag i s = some s' ∧ s'.world = s.world ∧ s'.status = s.status := by
  simp only [store_303_mag, wr, dif_pos h, Option.map_some']
  exact ⟨_, rfl, rfl, rfl⟩

theorem store_9dof_accel_frame (i : Nat) (s : State) (h : i < SEP_NUM_9DOF) :
    ∃ s', store_9dof_accel i s = some s' ∧ s'.world = s.world ∧ s'.status = s.status := by
  simp only [store_9dof_accel, wr, dif_pos h, Option.map_some']
  exact ⟨_, rfl, rfl, rfl⟩

theorem store_9dof_mag_frame (i : Nat) (s : State) (h : i < SEP_NUM_9DOF) :
    ∃ s', store_9dof_mag i s = some s' ∧ s'.world = s.world ∧ s'.status = s.status := by
  simp only [store_9dof_mag, wr, dif_pos h, Option.map_some']
  exact ⟨_, rfl, rfl, rfl⟩

theorem store_9dof_gyro_frame (i : Nat) (s : State) (h : i < SEP_NUM_9DOF) :
    ∃ s', store_9dof_gyro i s = some s' ∧ s'.world = s.world ∧ s'.status = s.status := by
  simp only [store_9dof_gyro, wr, dif_pos h, Option.map_some']
  exact ⟨_, rfl, rfl, rfl⟩

theorem group_frame (s : State) :
    ∃ s', group s = some s' ∧ s'.world = s.world ∧ s'.status = s.status :=
  ⟨_, rfl, rfl, rfl⟩

theorem cursor_reset_spec (bus : Nat → BusOutcome) (s : State) :
    ∃ ok, (cursor_reset bus s).world.log
        = s.world.log ++ [{ is_write := true, num_bytes := 1, ok := ok }] ∧
      (cursor_reset bus s).status = if ok then "connected" else "disconnected" := by
  have hlog := i2c_write_log bus (s.cmd.set 0 0) 1 s.fd true true s.world
  cases hret : (i2c_write bus (s.cmd.set 0 0) 1 s.fd true true s.world).ret with
  | false =>
    rw [hret] at hlog
    exact ⟨false, by simp [cursor_reset, hret, hlog], by simp [cursor_reset, hret]⟩
  | true =>
    rw [hret] at hlog
    exact ⟨true, by simp [cursor_reset, hret, hlog], by simp [cursor_reset, hret]⟩

/-- The shape of one cycle: it returns, the calls it adds to the record are
the reset write followed by the seven read categories, and the status is
`"connected"` exactly when every one of these calls returned `true`. -/
theorem cycle_spec (bus : Nat → BusOutcome) (s : State) :
    ∃ s' ok l1 l2 l3 l4 l5 l6 l7, cycle bus s = some s' ∧
      s'.world.log = s.world.log ++
        ({ is_write := true, num_bytes := 1, ok := ok } ::
          (l1 ++ l2 ++ l3 ++ l4 ++ l5 ++ l6 ++ l7)) ∧
      is_category_run 4 4 l1 = true ∧ is_category_run 1 13 l2 = true ∧
      is_category_run 4 6 l3 = true ∧ is_category_run 4 6 l4 = true ∧
      is_category_run 6 6 l5 = true ∧ is_category_run 6 6 l6 = true ∧
      is_category_run 6 6 l7 = true ∧
      s'.status =
        if (ok && l1.all (fun e => e.ok) && l2.all (fun e => e.ok) && l3.all (fun e => e.ok) &&
            l4.all (fun e => e.ok) && l5.all (fun e => e.ok) && l6.all (fun e => e.ok) &&
            l7.all (fun e => e.ok)) = true
        then "connected" else "disconnected" := by
  obtain ⟨ok, h0l, h0s⟩ := cursor_reset_spec bus s
  obtain ⟨s1, l1, hr1, hl1, hc1, hs1⟩ :=
    read_loop_spec bus 4 store_flex (NUM_FINGERS - 1) store_flex_frame 4 0
      (cursor_reset bus s) (by decide)
  obtain ⟨s2, l2, hr2, hl2, hc2, hs2⟩ :=
    read_loop_spec bus 1 store_contact TOTAL_NUM_CONTACTS store_contact_frame 13 0
      { s1 with buffer := buffer_init } (by decide)
  obtain ⟨s3, l3, hr3, hl3, hc3, hs3⟩ :=
    read_loop_spec bus 4 store_303_accel SEP_NUM_303 store_303_accel_frame 6 0 s2 (by decide)
  obtain ⟨s4, l4, hr4, hl4, hc4, hs4⟩ :=
    read_loop_spec bus 4 store_303_mag SEP_NUM_303 store_303_mag_frame 6 0 s3 (by decide)
  obtain ⟨s5, l5, hr5, hl5, hc5, hs5⟩ :=
    read_loop_spec bus 6 store_9dof_accel SEP_NUM_9DOF store_9dof_accel_frame 6 0 s4
      (by decide)
  obtain ⟨s6, l6, hr6, hl6, hc6, hs6⟩ :=
    read_loop_spec bus 6 store_9dof_mag SEP_NUM_9DOF store_9dof_mag_frame 6 0 s5 (by decide)
  obtain ⟨s7, l7, hr7, hl7, hc7, hs7⟩ :=
    read_loop_spec bus 6 store_9dof_gyro SEP_NUM_9DOF store_9dof_gyro_frame 6 0 s6
      (by decide)
  obtain ⟨s8, hg, hw8, hst8⟩ := group_frame s7
  refine ⟨s8, ok, l1, l2, l3, l4, l5, l6, l7, ?_, ?_, ?_, ?_, ?_, ?_, ?_, ?_, ?_, ?_⟩
  · have e1 : read_flex bus (cursor_reset bus s) = some s1 := hr1
    have e2 : read_contacts bus s1 = some s2 := hr2
    have e3 : read_303 bus s2 = some s4 := by
      simp only [read_303, Option.bind_eq_bind]
      rw [show forRange (read_step bus 4 store_303_accel) SEP_NUM_303 0 s2 = some s3 from hr3]
      exact hr4
    have e4 : read_9dof bus s4 = some s7 := by
      simp only [read_9dof, Option.bind_eq_bind]
      rw [show forRange (read_step bus 6 store_9dof_accel) SEP_NUM_9DOF 0 s4 = some s5
        from hr5]
      simp only [Option.some_bind]
      rw [show forRange (read_step bus 6 store_9dof_mag) SEP_NUM_9DOF 0 s5 = some s6 from hr6]
      exact hr7
    simp only [cycle, Option.bind_eq_bind, e1, e2, e3, e4, Option.some_bind]
    exact hg
  · rw [hw8, hl7, hl6, hl5, hl4, hl3, hl2]
    simp only []
    rw [hl1, h0l]
    simp
  · simpa using hc1
  · simpa using hc2
  · simpa using hc3
  · simpa using hc4
  · simpa using hc5
  · simpa using hc6
  · simpa using hc7
  · rw [hst8, hs7, hs6, hs5, hs4, hs3, hs2]
    simp only []
    rw [hs1, h0s]
    cases ok <;> cases l1.all (fun e => e.ok) <;> cases l2.all (fun e => e.ok) <;>
      cases l3.all (fun e => e.ok) <;> cases l4.all (fun e => e.ok) <;>
      cases l5.all (fun e => e.ok) <;> cases l6.all (fun e => e.ok) <;>
      cases l7.all (fun e => e.ok) <;> rfl

theorem new_events_of_log (s s' : State) (l : List Event)
    (h : s'.world.log = s.world.log ++ l) : new_events s s' = l := by
  simp [new_events, h]

/-- C9: for every sequence of outcomes a cycle returns, and the status it hands
to `write_file` is `"connected"` if and only if every call the cycle issued
(the reset write and each read it attempted) returned `true`; it is
`"disconnected"` if and only if some call of the cycle failed, whatever
succeeded after that call. -/
theorem cycle_status_connected_iff (bus : Nat → BusOutcome) (s : State) :
    ∃ s', cycle bus s = some s' ∧
      s'.world.log = s.world.log ++ new_events s s' ∧
      ((emitted s').2 = "connected" ↔ ∀ e ∈ new_events s s', e.ok = true) ∧
      ((emitted s').2 = "disconnected" ↔ ∃ e ∈ new_events s s', e.ok = false) := by
  obtain ⟨s', ok, l1, l2, l3, l4, l5, l6, l7, hc, hl, -, -, -, -, -, -, -, hs⟩ :=
    cycle_spec bus s
  have hn := new_events_of_log s s' _ hl
  refine ⟨s', hc, by rw [hn]; exact hl, ?_, ?_⟩
  · rw [hn]
    simp only [emitted, hs]
    constructor
    · intro h e he
      have hall : (ok && l1.all (fun e => e.ok) && l2.all (fun e => e.ok) &&
          l3.all (fun e => e.ok) && l4.all (fun e => e.ok) && l5.all (fun e => e.ok) &&
          l6.all (fun e => e.ok) && l7.all (fun e => e.ok)) = true := by
        by_contra hne
        rw [if_neg hne] at h
        exact absurd h (by decide)
      simp only [Bool.and_eq_true, List.all_eq_true] at hall
      simp only [List.mem_cons, List.mem_append] at he
      obtain ⟨⟨⟨⟨⟨⟨⟨h0, h1⟩, h2⟩, h3⟩, h4⟩, h5⟩, h6⟩, h7⟩ := hall
      rcases he with rfl | ((((((he | he) | he) | he) | he) | he) | he)
      · exact h0
      · exact h1 e he
      · exact h2 e he
      · exact h3 e he
      · exact h4 e he
      · exact h5 e he
      · exact h6 e he
      · exact h7 e he
    · intro h
      rw [if_pos]
      simp only [Bool.and_eq_true, List.all_eq_true]
      refine ⟨⟨⟨⟨⟨⟨⟨?_, ?_⟩, ?_⟩, ?_⟩, ?_⟩, ?_⟩, ?_⟩, ?_⟩
      · exact h _ (List.mem_cons_self _ _)
      all_goals
        intro e he
        apply h e
        simp only [List.mem_cons, List.mem_append]
        tauto
  · rw [hn]
    simp only [emitted, hs]
    constructor
    · intro h
      have hall : ¬ (ok && l1.all (fun e => e.ok) && l2.all (fun e => e.ok) &&
          l3.all (fun e => e.ok) && l4.all (fun e => e.ok) && l5.all (fun e => e.ok) &&
          l6.all (fun e => e.ok) && l7.all (fun e => e.ok)) = true := by
        intro hpos
        rw [if_pos hpos] at h
        exact absurd h (by decide)
      by_contra hno
      apply hall
      simp only [Bool.and_eq_true, List.all_eq_true]
      have hall' : ∀ e ∈ ({ is_write := true, num_bytes := 1, ok := ok } : Event) ::
          (l1 ++ l2 ++ l3 ++ l4 ++ l5 ++ l6 ++ l7), e.ok = true := by
        intro e he
        by_contra hek
        exact hno ⟨e, he, by simpa using hek⟩
      refine ⟨⟨⟨⟨⟨⟨⟨?_, ?_⟩, ?_⟩, ?_⟩, ?_⟩, ?_⟩, ?_⟩, ?_⟩
      · exact hall' _ (List.mem_cons_self _ _)
      all_goals
        intro e he
        apply hall' e
        simp only [List.mem_cons, List.mem_append]
        tauto
    · rintro ⟨e, he, hek⟩
      rw [if_neg]
      intro hall
      simp only [Bool.and_eq_true, List.all_eq_true] at hall
      simp only [List.mem_cons, List.mem_append] at he
      obtain ⟨⟨⟨⟨⟨⟨⟨h0, h1⟩, h2⟩, h3⟩, h4⟩, h5⟩, h6⟩, h7⟩ := hall
      have : e.ok = true := by
        rcases he with rfl | ((((((he | he) | he) | he) | he) | he) | he)
        · exact h0
        · exact h1 e he
        · exact h2 e he
        · exact h3 e he
        · exact h4 e he
        · exact h5 e he
        · exact h6 e he
        · exact h7 e he
      rw [this] at hek
      exact absurd hek (by decide)

/-- A cycle on a bus on which every call fails at `open`: the reset write and
one read of each of the seven categories are attempted, and the status is
`"disconnected"`. -/
theorem cycle_on_dead_bus :
    (cycle (fun _ => { open_ret := -1, ioctl_ret := 0, read_data := none, write_ret := 0,
                       close_ret := 0 }) zero_state).map
        (fun s' => (new_events zero_state s', s'.status))
      = some ([⟨true, 1, false⟩, ⟨false, 4, false⟩, ⟨false, 1, false⟩, ⟨false, 4, false⟩,
               ⟨false, 4, false⟩, ⟨false, 6, false⟩, ⟨false, 6, false⟩, ⟨false, 6, false⟩],
              "disconnected") := by
  rfl

/-- A cycle on a bus on which every call succeeds and every read delivers the
bytes `"123456"`: 48 calls, status `"connected"`, and the decoded samples. -/
theorem cycle_on_good_bus :
    (cycle (fun _ => good_outcome [49, 50, 51, 52, 53, 54] 1) zero_state).map
        (fun s' => ((new_events zero_state s').length, s'.status, s'.right_flex 0,
           s'.right_contact 0, s'.right_303_accel ⟨0, by decide⟩, s'.right_9dof_gyro ⟨5, by decide⟩,
           ((s'.hands 1).lsm9dof 1).gyro_z, ((s'.hands 1).fingers 0).flex))
      = some (48, "connected", 1234, 0, 1234, 123456, 123456, 1234) := by
  rfl

/-! ## What a cycle stores -/

theorem i2c_read_ret (bus : Nat → BusOutcome) (buffer : List Nat) (num_bytes : Nat) (fd : Int)
    (w : World) :
    (i2c_read bus buffer num_bytes fd true true w).ret = read_succeeds (bus w.t) num_bytes := by
  unfold i2c_read read_succeeds
  simp only []
  by_cases h1 : (bus w.t).open_ret = -1
  · simp [h1]
  · by_cases h2 : (bus w.t).ioctl_ret < 0
    · have h2' : ¬ 0 ≤ (bus w.t).ioctl_ret := by omega
      simp [h1, h2, h2']
    · have h2' : 0 ≤ (bus w.t).ioctl_ret := by omega
      cases hrd : (bus w.t).read_data with
      | none => simp [h1, h2]
      | some bytes =>
        by_cases h3 : num_bytes ≤ bytes.length
        · have h3' : ¬ bytes.length < num_bytes := by omega
          by_cases h4 : (bus w.t).close_ret = -1
          · simp [h1, h2, h2', h3, h3', h4]
          · simp [h1, h2, h2', h3, h3', h4]
        · have h3' : bytes.length < num_bytes := by omega
          simp [h1, h2, h2', h3, h3']

theorem i2c_read_t (bus : Nat → BusOutcome) (buffer : List Nat) (num_bytes : Nat) (fd : Int)
    (open_file close_file : Bool) (w : World) :
    (i2c_read bus buffer num_bytes fd open_file close_file w).world.t = w.t + 1 := by
  unfold i2c_read
  simp only []
  split_ifs <;> try rfl
  all_goals (split <;> try split_ifs) <;> rfl

theorem i2c_read_buffer (bus : Nat → BusOutcome) (buffer : List Nat) (num_bytes : Nat)
    (fd : Int) (w : World)
    (h : (i2c_read bus buffer num_bytes fd true true w).ret = true) :
    (i2c_read bus buffer num_bytes fd true true w).buffer
      = sample (bus w.t) num_bytes ++ buffer.drop num_bytes := by
  unfold i2c_read at h ⊢
  unfold sample
  simp only [] at h ⊢
  by_cases h1 : (bus w.t).open_ret = -1
  · simp [h1] at h
  · by_cases h2 : (bus w.t).ioctl_ret < 0
    · simp [h1, h2] at h
    · cases hrd : (bus w.t).read_data with
      | none => simp [h1, h2, hrd] at h
      | some bytes =>
        by_cases h3 : num_bytes ≤ bytes.length
        · have h3' : ¬ bytes.length < num_bytes := by omega
          by_cases h4 : (bus w.t).close_ret = -1
          · simp [h1, h2, hrd, h3, h3', h4] at h
          · simp [h1, h2, h3, h3', h4]
        · have h3' : bytes.length < num_bytes := by omega
          simp [h1, h2, hrd, h3, h3'] at h

theorem i2c_read_tail (bus : Nat → BusOutcome) (buffer : List Nat) (num_bytes : Nat)
    (fd : Int) (open_file close_file : Bool) (w : World) :
    (i2c_read bus buffer num_bytes fd open_file close_file w).buffer.drop num_bytes
      = buffer.drop num_bytes := by
  have key : ∀ bytes : List Nat,
      (bytes.take num_bytes ++ buffer.drop (bytes.take num_bytes).length).drop num_bytes
        = buffer.drop num_bytes := by
    intro bytes
    have hle : (bytes.take num_bytes).length ≤ num_bytes := by
      simp [List.length_take]
    rw [List.drop_append_eq_append_drop, List.drop_eq_nil_of_le hle, List.nil_append,
      List.drop_drop]
    congr 1
    omega
  unfold i2c_read
  simp only []
  split_ifs <;> try rfl
  all_goals (split <;> try split_ifs) <;> first | rfl | exact key _

theorem i2c_read_buffer_eq (bus : Nat → BusOutcome) (buffer : List Nat) (num_bytes : Nat)
    (fd : Int) (w : World) :
    (i2c_read bus buffer num_bytes fd true true w).buffer
      = buffer_after_read (bus w.t) num_bytes buffer := by
  unfold i2c_read buffer_after_read
  simp only []
  by_cases h1 : (bus w.t).open_ret = -1
  · simp [h1]
  · by_cases h2 : (bus w.t).ioctl_ret < 0
    · simp [h1, h2]
    · cases hrd : (bus w.t).read_data with
      | none => simp [h1, h2]
      | some bytes =>
        simp only [h1, h2, and_false, or_self, if_false]
        split_ifs <;> rfl

theorem i2c_read_fd (bus : Nat → BusOutcome) (buffer : List Nat) (num_bytes : Nat)
    (fd : Int) (close_file : Bool) (w : World) :
    (i2c_read bus buffer num_bytes fd true close_file w).fd = (bus w.t).open_ret := by
  unfold i2c_read
  simp only []
  split_ifs <;> try rfl
  all_goals (split <;> try split_ifs) <;> rfl

theorem stream_after_zero {α : Type} {N : Nat} (bus : Nat → BusOutcome) (wd k t : Nat)
    (tail : List Nat) (dec : List Nat → α) (a : Fin N → α) :
    stream_after bus wd 0 k t tail dec a = a := by
  funext i
  simp [stream_after, read_count]

theorem stream_after_fail {α : Type} {N : Nat} (bus : Nat → BusOutcome) (wd n k t : Nat)
    (tail : List Nat) (dec : List Nat → α) (a : Fin N → α)
    (h : read_succeeds (bus t) wd = false) :
    stream_after bus wd (n + 1) k t tail dec a = a := by
  funext i
  simp [stream_after, read_count, h]

theorem stream_after_succ {α : Type} {N : Nat} (bus : Nat → BusOutcome) (wd n k t : Nat)
    (tail : List Nat) (dec : List Nat → α) (a : Fin N → α) (hk : k < N)
    (h : read_succeeds (bus t) wd = true) :
    stream_after bus wd n (k + 1) (t + 1) tail dec
        (Function.update a ⟨k, hk⟩ (dec (sample (bus t) wd ++ tail)))
      = stream_after bus wd (n + 1) k t tail dec a := by
  funext i
  simp only [stream_after, read_count, h, if_true]
  by_cases hik : i.val = k
  · have hi : i = ⟨k, hk⟩ := Fin.ext hik
    subst hi
    simp
  · have hne : i ≠ ⟨k, hk⟩ := fun e => hik (congrArg Fin.val e)
    by_cases hlt : k + 1 ≤ i.val ∧ i.val < k + 1 + read_count bus wd n (t + 1)
    · have h2 : k ≤ i.val ∧ i.val < k + (read_count bus wd n (t + 1) + 1) := by omega
      have h3 : t + 1 + (i.val - (k + 1)) = t + (i.val - k) := by omega
      rw [if_pos hlt, if_pos h2, h3]
    · have h2 : ¬ (k ≤ i.val ∧ i.val < k + (read_count bus wd n (t + 1) + 1)) := by omega
      rw [if_neg hlt, if_neg h2, Function.update_noteq hne]

theorem read_step_eq (bus : Nat → BusOutcome) (wd : Nat) (store : Nat → State → Option State)
    (k : Nat) (s : State) :
    read_step bus wd store k s =
      if (i2c_read bus s.buffer wd s.fd true true s.world).ret = false then
        some (s.with_io (i2c_read bus s.buffer wd s.fd true true s.world).buffer
          (i2c_read bus s.buffer wd s.fd true true s.world).fd
          (i2c_read bus s.buffer wd s.fd true true s.world).world "disconnected", true)
      else
        (store k (s.with_io (i2c_read bus s.buffer wd s.fd true true s.world).buffer
          (i2c_read bus s.buffer wd s.fd true true s.world).fd
          (i2c_read bus s.buffer wd s.fd true true s.world).world s.status)).map
          fun s2 => (s2, false) := rfl

theorem with_io_with_io (s : State) (b b' : List Nat) (f f' : Int) (w w' : World)
    (st st' : String) :
    (s.with_io b f w st).with_io b' f' w' st' = s.with_io b' f' w' st' := rfl

theorem with_io_self (s : State) : s.with_io s.buffer s.fd s.world s.status = s := rfl

/-- The buffer and the file handle after a read loop, for any store that
leaves the buffer, the file handle and the world alone. -/
theorem read_loop_buffer_fd (bus : Nat → BusOutcome) (wd : Nat)
    (store : Nat → State → Option State)
    (hframe : ∀ i s s2, store i s = some s2 →
      s2.buffer = s.buffer ∧ s2.fd = s.fd ∧ s2.world = s.world) :
    ∀ n k s r, forRange (read_step bus wd store) n k s = some r →
      r.buffer = loop_buffer bus wd n s.world.t s.buffer ∧
      r.fd = loop_fd bus wd n s.world.t s.fd := by
  intro n
  induction n with
  | zero =>
    intro k s r h
    simp only [forRange, Option.some.injEq] at h
    subst h
    exact ⟨rfl, rfl⟩
  | succ n ih =>
    intro k s r h
    have hret := i2c_read_ret bus s.buffer wd s.fd s.world
    have ht := i2c_read_t bus s.buffer wd s.fd true true s.world
    have hb := i2c_read_buffer_eq bus s.buffer wd s.fd s.world
    have hf := i2c_read_fd bus s.buffer wd s.fd true s.world
    have hstep := read_step_eq bus wd store k s
    cases hsucc : read_succeeds (bus s.world.t) wd with
    | false =>
      rw [hsucc] at hret
      rw [if_pos hret] at hstep
      simp only [forRange, hstep, Option.some.injEq] at h
      subst h
      simp only [loop_buffer, loop_fd, hsucc]
      exact ⟨hb, hf⟩
    | true =>
      rw [hsucc] at hret
      rw [if_neg (by simp [hret])] at hstep
      cases hst : store k (s.with_io (i2c_read bus s.buffer wd s.fd true true s.world).buffer
          (i2c_read bus s.buffer wd s.fd true true s.world).fd
          (i2c_read bus s.buffer wd s.fd true true s.world).world s.status) with
      | none =>
        rw [hst] at hstep
        simp [forRange, hstep] at h
      | some s2 =>
        rw [hst] at hstep
        simp only [forRange, hstep, Option.map_some'] at h
        obtain ⟨e1, e2, e3⟩ := hframe _ _ _ hst
        obtain ⟨r1, r2⟩ := ih (k + 1) s2 r h
        have e1' : s2.buffer = buffer_after_read (bus s.world.t) wd s.buffer := e1.trans hb
        have e2' : s2.fd = (bus s.world.t).open_ret := e2.trans hf
        have e3' : s2.world.t = s.world.t + 1 := (congrArg World.t e3).trans ht
        rw [e1', e3'] at r1
        rw [e2', e3'] at r2
        simp only [loop_buffer, loop_fd, hsucc, if_true]
        exact ⟨r1, r2⟩

/-- The content of a read loop, for any stream given by its reader `get` and
writer `put`: the loop returns; the stream holds the decoded samples of the
successful reads and is otherwise unchanged; only the buffer, the file handle,
the world and the status change besides. -/
theorem read_loop_content {α : Type} {N : Nat} (bus : Nat → BusOutcome) (wd : Nat)
    (get : State → Fin N → α) (put : (Fin N → α) → State → State)
    (dec : List Nat → α) (store : Nat → State → Option State)
    (hstore : ∀ i s (h : i < N),
      store i s = some (put (Function.update (get s) ⟨i, h⟩ (dec s.buffer)) s))
    (hgp : ∀ a s, get (put a s) = a)
    (hpp : ∀ a b s, put a (put b s) = put a s)
    (hpg : ∀ s, put (get s) s = s)
    (hio : ∀ a s b f w st, (put a s).with_io b f w st = put a (s.with_io b f w st))
    (hgio : ∀ s b f w st, get (s.with_io b f w st) = get s)
    (hproj : ∀ a s, (put a s).world = s.world ∧ (put a s).buffer = s.buffer ∧
      (put a s).status = s.status) :
    ∀ n k s, k + n ≤ N →
      ∃ b f w, forRange (read_step bus wd store) n k s
          = some (put (stream_after bus wd n k s.world.t (s.buffer.drop wd) dec (get s))
              (s.with_io b f w
                (if read_count bus wd n s.world.t < n then "disconnected" else s.status))) ∧
        w.t = s.world.t + read_calls bus wd n s.world.t ∧
        w.log = s.world.log ++ read_events bus wd n s.world.t ∧
        b.drop wd = s.buffer.drop wd := by
  intro n
  induction n with
  | zero =>
    intro k s _
    refine ⟨s.buffer, s.fd, s.world, ?_, by simp [read_calls, read_count],
      by simp [read_events, read_count], rfl⟩
    rw [stream_after_zero]
    simp only [forRange, read_count, Nat.lt_irrefl, if_false]
    rw [with_io_self, hpg]
  | succ n ih =>
    intro k s hk
    have hkN : k < N := by omega
    have hret := i2c_read_ret bus s.buffer wd s.fd s.world
    have ht := i2c_read_t bus s.buffer wd s.fd true true s.world
    have htail := i2c_read_tail bus s.buffer wd s.fd true true s.world
    have hlog := i2c_read_log bus s.buffer wd s.fd true true s.world
    have hstep := read_step_eq bus wd store k s
    cases hsucc : read_succeeds (bus s.world.t) wd with
    | false =>
      rw [hsucc] at hret
      have hc : read_count bus wd (n + 1) s.world.t = 0 := by simp [read_count, hsucc]
      refine ⟨(i2c_read bus s.buffer wd s.fd true true s.world).buffer,
        (i2c_read bus s.buffer wd s.fd true true s.world).fd,
        (i2c_read bus s.buffer wd s.fd true true s.world).world, ?_, ?_, ?_, htail⟩
      · rw [stream_after_fail bus wd n k s.world.t _ dec _ hsucc]
        rw [if_pos hret] at hstep
        simp only [forRange, hstep, hc, Nat.zero_lt_succ, if_true]
        have e := hpg (s.with_io (i2c_read bus s.buffer wd s.fd true true s.world).buffer
          (i2c_read bus s.buffer wd s.fd true true s.world).fd
          (i2c_read bus s.buffer wd s.fd true true s.world).world "disconnected")
        rw [hgio] at e
        rw [e]
      · rw [ht]
        simp [read_calls, hc]
      · rw [hlog, hret]
        simp [read_events, hc]
    | true =>
      rw [hsucc] at hret
      have hbuf := i2c_read_buffer bus s.buffer wd s.fd s.world hret
      have hc : read_count bus wd (n + 1) s.world.t
          = read_count bus wd n (s.world.t + 1) + 1 := by simp [read_count, hsucc]
      rw [if_neg (by simp [hret])] at hstep
      generalize (i2c_read bus s.buffer wd s.fd true true s.world).buffer = rb at *
      generalize (i2c_read bus s.buffer wd s.fd true true s.world).fd = rf at *
      generalize (i2c_read bus s.buffer wd s.fd true true s.world).world = rw at *
      rw [hstore k _ hkN, hgio] at hstep
      have hs1b : (s.with_io rb rf rw s.status).buffer = rb := rfl
      rw [hs1b] at hstep
      obtain ⟨b, f, w, hrun, hw, hl, hb⟩ := ih (k + 1)
        (put (Function.update (get s) ⟨k, hkN⟩ (dec rb)) (s.with_io rb rf rw s.status))
        (by omega)
      have hp := hproj (Function.update (get s) ⟨k, hkN⟩ (dec rb)) (s.with_io rb rf rw s.status)
      obtain ⟨hp1, hp2, hp3⟩ := hp
      have hw1 : (s.with_io rb rf rw s.status).world = rw := rfl
      have hst1 : (s.with_io rb rf rw s.status).status = s.status := rfl
      rw [hp1, hp2, hp3, hw1, hs1b, hst1, hgp, hio, with_io_with_io, hpp, ht, htail] at hrun
      rw [hp1, hw1, ht] at hw
      rw [hp2, hs1b, htail] at hb
      rw [hp1, hw1, hlog, hret, ht] at hl
      refine ⟨b, f, w, ?_, ?_, ?_, hb⟩
      · simp only [forRange, hstep, Option.map_some']
        rw [hrun, hbuf, stream_after_succ bus wd n k s.world.t _ dec _ hkN hsucc, hc]
        simp only [Nat.add_lt_add_iff_right]
      · rw [hw]
        simp only [read_calls, hc, Nat.add_lt_add_iff_right]
        split_ifs <;> omega
      · rw [hl]
        simp [read_events, hc, List.replicate_succ]

theorem store_flex_eq (i : Nat) (s : State) (h : i < NUM_FINGERS) :
    store_flex i s = some (State.set_right_flex
      (Function.update s.right_flex ⟨i, h⟩ (dec_flex s.buffer)) s) := by
  simp only [store_flex, wr, dif_pos h, Option.map_some']
  rfl

theorem store_contact_eq (i : Nat) (s : State) (h : i < TOTAL_NUM_CONTACTS) :
    store_contact i s = some (State.set_right_contact
      (Function.update s.right_contact ⟨i, h⟩ (dec_contact s.buffer)) s) := by
  simp only [store_contact, decode_contact, wr, rd, dif_pos h, Option.bind_eq_bind,
    Option.some_bind, Function.update_same, dec_contact]
  split_ifs <;> simp only [Option.map_some', Function.update_idem] <;> rfl

theorem store_303_accel_eq (i : Nat) (s : State) (h : i < SEP_NUM_303) :
    store_303_accel i s = some (State.set_right_303_accel
      (Function.update s.right_303_accel ⟨i, h⟩ (dec_double s.buffer)) s) := by
  simp only [store_303_accel, wr, dif_pos h, Option.map_some']
  rfl

theorem store_303_mag_eq (i : Nat) (s : State) (h : i < SEP_NUM_303) :
    store_303_mag i s = some (State.set_right_303_mag
      (Function.update s.right_303_mag ⟨i, h⟩ (dec_double s.buffer)) s) := by
  simp only [store_303_mag, wr, dif_pos h, Option.map_some']
  rfl

theorem store_9dof_accel_eq (i : Nat) (s : State) (h : i < SEP_NUM_9DOF) :
    store_9dof_accel i s = some (State.set_right_9dof_accel
      (Function.update s.right_9dof_accel ⟨i, h⟩ (dec_double s.buffer)) s) := by
  simp only [store_9dof_accel, wr, dif_pos h, Option.map_some']
  rfl

theorem store_9dof_mag_eq (i : Nat) (s : State) (h : i < SEP_NUM_9DOF) :
    store_9dof_mag i s = some (State.set_right_9dof_mag
      (Function.update s.right_9dof_mag ⟨i, h⟩ (dec_double s.buffer)) s) := by
  simp only [store_9dof_mag, wr, dif_pos h, Option.map_some']
  rfl

theorem store_9dof_gyro_eq (i : Nat) (s : State) (h : i < SEP_NUM_9DOF) :
    store_9dof_gyro i s = some (State.set_right_9dof_gyro
      (Function.update s.right_9dof_gyro ⟨i, h⟩ (dec_double s.buffer)) s) := by
  simp only [store_9dof_gyro, wr, dif_pos h, Option.map_some']
  rfl

theorem i2c_write_ret (bus : Nat → BusOutcome) (buffer : List Nat) (num_bytes : Nat) (fd : Int)
    (w : World) :
    (i2c_write bus buffer num_bytes fd true true w).ret
      = write_succeeds (bus w.t) num_bytes := by
  unfold i2c_write write_succeeds
  simp only []
  by_cases h1 : (bus w.t).open_ret = -1
  · simp [h1]
  · by_cases h2 : (bus w.t).ioctl_ret < 0
    · have h2' : ¬ 0 ≤ (bus w.t).ioctl_ret := by omega
      simp [h1, h2, h2']
    · have h2' : 0 ≤ (bus w.t).ioctl_ret := by omega
      by_cases h3 : (bus w.t).write_ret = (num_bytes : Int)
      · by_cases h4 : (bus w.t).close_ret = -1
        · simp [h1, h2, h2', h3, h4]
        · simp [h1, h2, h2', h3, h4]
      · simp [h1, h2, h2', h3]

theorem i2c_write_t (bus : Nat → BusOutcome) (buffer : List Nat) (num_bytes : Nat) (fd : Int)
    (open_file close_file : Bool) (w : World) :
    (i2c_write bus buffer num_bytes fd open_file close_file w).world.t = w.t + 1 := by
  unfold i2c_write
  simp only []
  split_ifs <;> rfl

theorem i2c_write_fd (bus : Nat → BusOutcome) (buffer : List Nat) (num_bytes : Nat)
    (fd : Int) (close_file : Bool) (w : World) :
    (i2c_write bus buffer num_bytes fd true close_file w).fd = (bus w.t).open_ret := by
  unfold i2c_write
  simp only []
  split_ifs <;> rfl

theorem store_flex_io (i : Nat) (s s2 : State) (h : store_flex i s = some s2) :
    s2.buffer = s.buffer ∧ s2.fd = s.fd ∧ s2.world = s.world := by
  by_cases hi : i < NUM_FINGERS
  · rw [store_flex_eq i s hi] at h
    cases h
    exact ⟨rfl, rfl, rfl⟩
  · simp only [store_flex, wr, dif_neg hi, Option.map_none'] at h
    cases h

theorem store_contact_io (i : Nat) (s s2 : State) (h : store_contact i s = some s2) :
    s2.buffer = s.buffer ∧ s2.fd = s.fd ∧ s2.world = s.world := by
  by_cases hi : i < TOTAL_NUM_CONTACTS
  · rw [store_contact_eq i s hi] at h
    cases h
    exact ⟨rfl, rfl, rfl⟩
  · simp [store_contact, decode_contact, wr, hi] at h

theorem store_303_accel_io (i : Nat) (s s2 : State) (h : store_303_accel i s = some s2) :
    s2.buffer = s.buffer ∧ s2.fd = s.fd ∧ s2.world = s.world := by
  by_cases hi : i < SEP_NUM_303
  · rw [store_303_accel_eq i s hi] at h
    cases h
    exact ⟨rfl, rfl, rfl⟩
  · simp only [store_303_accel, wr, dif_neg hi, Option.map_none'] at h
    cases h

theorem store_303_mag_io (i : Nat) (s s2 : State) (h : store_303_mag i s = some s2) :
    s2.buffer = s.buffer ∧ s2.fd = s.fd ∧ s2.world = s.world := by
  by_cases hi : i < SEP_NUM_303
  · rw [store_303_mag_eq i s hi] at h
    cases h
    exact ⟨rfl, rfl, rfl⟩
  · simp only [store_303_mag, wr, dif_neg hi, Option.map_none'] at h
    cases h

theorem store_9dof_accel_io (i : Nat) (s s2 : State) (h : store_9dof_accel i s = some s2) :
    s2.buffer = s.buffer ∧ s2.fd = s.fd ∧ s2.world = s.world := by
  by_cases hi : i < SEP_NUM_9DOF
  · rw [store_9dof_accel_eq i s hi] at h
    cases h
    exact ⟨rfl, rfl, rfl⟩
  · simp only [store_9dof_accel, wr, dif_neg hi, Option.map_none'] at h
    cases h

theorem store_9dof_mag_io (i : Nat) (s s2 : State) (h : store_9dof_mag i s = some s2) :
    s2.buffer = s.buffer ∧ s2.fd = s.fd ∧ s2.world = s.world := by
  by_cases hi : i < SEP_NUM_9DOF
  · rw [store_9dof_mag_eq i s hi] at h
    cases h
    exact ⟨rfl, rfl, rfl⟩
  · simp only [store_9dof_mag, wr, dif_neg hi, Option.map_none'] at h
    cases h

theorem store_9dof_gyro_io (i : Nat) (s s2 : State) (h : store_9dof_gyro i s = some s2) :
    s2.buffer = s.buffer ∧ s2.fd = s.fd ∧ s2.world = s.world := by
  by_cases hi : i < SEP_NUM_9DOF
  · rw [store_9dof_gyro_eq i s hi] at h
    cases h
    exact ⟨rfl, rfl, rfl⟩
  · simp only [store_9dof_gyro, wr, dif_neg hi, Option.map_none'] at h
    cases h

/-- The head of a cycle in closed form. -/
theorem cursor_reset_eq (bus : Nat → BusOutcome) (s : State) :
    ∃ f w, cursor_reset bus s
        = (State.set_cmd (s.cmd.set 0 0) s).with_io buffer_init f w
            (if write_succeeds (bus s.world.t) 1 then "connected" else "disconnected") ∧
      w.t = at_flex s.world.t ∧
      w.log = s.world.log ++
        [{ is_write := true, num_bytes := 1, ok := write_succeeds (bus s.world.t) 1 }] ∧
      f = (bus s.world.t).open_ret := by
  have hret := i2c_write_ret bus (s.cmd.set 0 0) 1 s.fd s.world
  have ht := i2c_write_t bus (s.cmd.set 0 0) 1 s.fd true true s.world
  have hlog := i2c_write_log bus (s.cmd.set 0 0) 1 s.fd true true s.world
  rw [hret] at hlog
  refine ⟨(i2c_write bus (s.cmd.set 0 0) 1 s.fd true true s.world).fd,
    (i2c_write bus (s.cmd.set 0 0) 1 s.fd true true s.world).world, ?_, ht, hlog,
    i2c_write_fd bus (s.cmd.set 0 0) 1 s.fd true s.world⟩
  have hb : (i2c_write bus (s.cmd.set 0 0) 1 s.fd true true s.world).buffer = s.cmd.set 0 0 := by
    unfold i2c_write
    simp only []
    split_ifs <;> rfl
  cases hw : write_succeeds (bus s.world.t) 1 with
  | false =>
    rw [hw] at hret
    simp only [cursor_reset, hret, if_true, hb, State.with_io, State.set_cmd]
    rfl
  | true =>
    rw [hw] at hret
    simp only [cursor_reset, hret, hb, State.with_io, State.set_cmd]
    rfl

theorem hand_eq_of_members (a b : Hand) (h1 : a.fingers = b.fingers) (h2 : a.fold = b.fold)
    (h3 : a.lsm303 = b.lsm303) (h4 : a.lsm9dof = b.lsm9dof) : a = b := by
  cases a; cases b; simp_all

theorem finger_eq_of_members (a b : Finger) (h1 : a.flex = b.flex)
    (h2 : a.contact = b.contact) : a = b := by
  cases a; cases b; simp_all

/-- The closed form of `store_data`: it returns, and the new array of hands is
the old one with `hands[i]` replaced by the assembled record. -/
theorem store_data_eq (hands : Hands) (flex : Fin NUM_FINGERS → Nat)
    (contact : Fin TOTAL_NUM_CONTACTS → bool) (accel303 mag303 : Fin SEP_NUM_303 → double)
    (accel9dof mag9dof gyro9dof : Fin SEP_NUM_9DOF → double) (i : Fin NUM_HANDS) :
    store_data hands flex contact accel303 mag303 accel9dof mag9dof gyro9dof i.val
      = some (Function.update hands i
          (assemble (hands i) flex contact accel303 mag303 accel9dof mag9dof gyro9dof)) := by
  have key : ∃ h', store_data hands flex contact accel303 mag303 accel9dof mag9dof gyro9dof
        i.val = some h' ∧ h' = Function.update hands i
          (assemble (hands i) flex contact accel303 mag303 accel9dof mag9dof gyro9dof) := by
    fin_cases i
    · refine ⟨_, rfl, ?_⟩
      funext s
      fin_cases s
      · apply hand_eq_of_members
        · funext j
          fin_cases j <;>
            exact finger_eq_of_members _ _ rfl (by funext k; fin_cases k <;> rfl)
        · funext j; fin_cases j <;> rfl
        · funext j; fin_cases j <;> rfl
        · funext j; fin_cases j <;> rfl
      · rfl
    · refine ⟨_, rfl, ?_⟩
      funext s
      fin_cases s
      · rfl
      · apply hand_eq_of_members
        · funext j
          fin_cases j <;>
            exact finger_eq_of_members _ _ rfl (by funext k; fin_cases k <;> rfl)
        · funext j; fin_cases j <;> rfl
        · funext j; fin_cases j <;> rfl
        · funext j; fin_cases j <;> rfl
  obtain ⟨h', e1, e2⟩ := key
  rw [e1, e2]

/-- The closed form of `group_data`: both records are replaced by the
assembled ones, the left from the left streams, the right from the right. -/
theorem group_data_eq (hands : Hands) (left_flex right_flex : Fin NUM_FINGERS → Nat)
    (left_contact right_contact : Fin TOTAL_NUM_CONTACTS → bool)
    (left_303_accel left_303_mag right_303_accel right_303_mag : Fin SEP_NUM_303 → double)
    (left_9dof_accel left_9dof_mag left_9dof_gyro
      right_9dof_accel right_9dof_mag right_9dof_gyro : Fin SEP_NUM_9DOF → double) :
    group_data hands left_flex right_flex left_contact right_contact
        left_303_accel left_303_mag right_303_accel right_303_mag
        left_9dof_accel left_9dof_mag left_9dof_gyro
        right_9dof_accel right_9dof_mag right_9dof_gyro
      = some (Function.update
          (Function.update hands 0
            (assemble (hands 0) left_flex left_contact left_303_accel left_303_mag
              left_9dof_accel left_9dof_mag left_9dof_gyro))
          1
          (assemble (hands 1) right_flex right_contact right_303_accel right_303_mag
            right_9dof_accel right_9dof_mag right_9dof_gyro)) := by
  have e0 := store_data_eq hands left_flex left_contact left_303_accel left_303_mag
    left_9dof_accel left_9dof_mag left_9dof_gyro 0
  have e1 := store_data_eq
    (Function.update hands 0
      (assemble (hands 0) left_flex left_contact left_303_accel left_303_mag
        left_9dof_accel left_9dof_mag left_9dof_gyro))
    right_flex right_contact right_303_accel right_303_mag
    right_9dof_accel right_9dof_mag right_9dof_gyro 1
  have h01 : (Function.update hands (0 : Fin NUM_HANDS)
      (assemble (hands 0) left_flex left_contact left_303_accel left_303_mag
        left_9dof_accel left_9dof_mag left_9dof_gyro)) 1 = hands 1 := rfl
  rw [h01] at e1
  have e0' : store_data hands left_flex left_contact left_303_accel left_303_mag
      left_9dof_accel left_9dof_mag left_9dof_gyro 0 = _ := e0
  have e1' : store_data _ right_flex right_contact right_303_accel right_303_mag
      right_9dof_accel right_9dof_mag right_9dof_gyro (0 + 1) = _ := e1
  simp only [group_data, forRange, group_data_body, if_true, e0', Option.map_some',
    Nat.add_one_ne_zero, if_false, e1']

theorem read_count_le (bus : Nat → BusOutcome) (wd : Nat) :
    ∀ n t, read_count bus wd n t ≤ n := by
  intro n
  induction n with
  | zero => intro t; simp [read_count]
  | succ n ih =>
    intro t
    simp only [read_count]
    split_ifs
    · have := ih (t + 1); omega
    · omega

theorem drop_eq_of_drop_eq {α : Type} (a b : List α) (m n : Nat) (hmn : m ≤ n)
    (h : a.drop m = b.drop m) : a.drop n = b.drop n := by
  have e : n = m + (n - m) := by omega
  rw [e, ← List.drop_drop, ← List.drop_drop, h]

theorem status_chain (c0 : Bool) (r1 n1 r2 n2 r3 n3 r4 n4 r5 n5 r6 n6 r7 n7 : Nat)
    (l1 : r1 ≤ n1) (l2 : r2 ≤ n2) (l3 : r3 ≤ n3) (l4 : r4 ≤ n4) (l5 : r5 ≤ n5)
    (l6 : r6 ≤ n6) (l7 : r7 ≤ n7) :
    (if r7 < n7 then "disconnected"
      else if r6 < n6 then "disconnected"
      else if r5 < n5 then "disconnected"
      else if r4 < n4 then "disconnected"
      else if r3 < n3 then "disconnected"
      else if r2 < n2 then "disconnected"
      else if r1 < n1 then "disconnected"
      else if c0 = true then "connected" else "disconnected")
    = if (c0 && decide (r1 = n1) && decide (r2 = n2) && decide (r3 = n3) &&
          decide (r4 = n4) && decide (r5 = n5) && decide (r6 = n6) && decide (r7 = n7)) = true
      then "connected" else "disconnected" := by
  simp only [Bool.and_eq_true, decide_eq_true_eq]
  by_cases h7 : r7 = n7
  swap
  · rw [if_pos (by omega), if_neg (fun h => h7 h.2)]
  by_cases h6 : r6 = n6
  swap
  · rw [if_neg (by omega), if_pos (by omega), if_neg (fun h => h6 h.1.2)]
  by_cases h5 : r5 = n5
  swap
  · rw [if_neg (by omega), if_neg (by omega), if_pos (by omega),
      if_neg (fun h => h5 h.1.1.2)]
  by_cases h4 : r4 = n4
  swap
  · rw [if_neg (by omega), if_neg (by omega), if_neg (by omega), if_pos (by omega),
      if_neg (fun h => h4 h.1.1.1.2)]
  by_cases h3 : r3 = n3
  swap
  · rw [if_neg (by omega), if_neg (by omega), if_neg (by omega), if_neg (by omega),
      if_pos (by omega), if_neg (fun h => h3 h.1.1.1.1.2)]
  by_cases h2 : r2 = n2
  swap
  · rw [if_neg (by omega), if_neg (by omega), if_neg (by omega), if_neg (by omega),
      if_neg (by omega), if_pos (by omega), if_neg (fun h => h2 h.1.1.1.1.1.2)]
  by_cases h1 : r1 = n1
  swap
  · rw [if_neg (by omega), if_neg (by omega), if_neg (by omega), if_neg (by omega),
      if_neg (by omega), if_neg (by omega), if_pos (by omega),
      if_neg (fun h => h1 h.1.1.1.1.1.1.2)]
  rw [if_neg (by omega), if_neg (by omega), if_neg (by omega), if_neg (by omega),
    if_neg (by omega), if_neg (by omega), if_neg (by omega)]
  by_cases h0 : c0 = true
  · rw [if_pos h0, if_pos ⟨⟨⟨⟨⟨⟨⟨h0, h1⟩, h2⟩, h3⟩, h4⟩, h5⟩, h6⟩, h7⟩]
  · rw [if_neg h0, if_neg (fun h => h0 h.1.1.1.1.1.1.1)]

/-- What one cycle stores, in closed form.  The cycle returns; its status and
the outcome it stops at depend on the outcomes only; each right-hand stream
holds the decoded samples of its successful reads and, in every other slot,
what it held before the cycle; the left-hand streams are unchanged; and the
records are assembled from these streams. -/
theorem cycle_content (bus : Nat → BusOutcome) (s : State) :
    ∃ s', cycle bus s = some s' ∧
      s'.status = (if all_succeed bus s.world.t then "connected" else "disconnected") ∧
      s'.world.t = at_end bus s.world.t ∧
      s'.world.log = s.world.log ++ cycle_events bus s.world.t ∧
      s'.cmd = s.cmd.set 0 0 ∧
      s'.buffer = cycle_buffer bus s.world.t ∧
      s'.fd = cycle_fd bus s.world.t ∧
      s'.right_flex = stream_after bus 4 (NUM_FINGERS - 1) 0 (at_flex s.world.t)
        (buffer_init.drop 4) dec_flex s.right_flex ∧
      s'.right_contact = stream_after bus 1 TOTAL_NUM_CONTACTS 0 (at_contacts bus s.world.t)
        (buffer_init.drop 1) dec_contact s.right_contact ∧
      s'.right_303_accel = stream_after bus 4 SEP_NUM_303 0 (at_303_accel bus s.world.t)
        (buffer_init.drop 4) dec_double s.right_303_accel ∧
      s'.right_303_mag = stream_after bus 4 SEP_NUM_303 0 (at_303_mag bus s.world.t)
        (buffer_init.drop 4) dec_double s.right_303_mag ∧
      s'.right_9dof_accel = stream_after bus 6 SEP_NUM_9DOF 0 (at_9dof_accel bus s.world.t)
        (buffer_init.drop 6) dec_double s.right_9dof_accel ∧
      s'.right_9dof_mag = stream_after bus 6 SEP_NUM_9DOF 0 (at_9dof_mag bus s.world.t)
        (buffer_init.drop 6) dec_double s.right_9dof_mag ∧
      s'.right_9dof_gyro = stream_after bus 6 SEP_NUM_9DOF 0 (at_9dof_gyro bus s.world.t)
        (buffer_init.drop 6) dec_double s.right_9dof_gyro ∧
      (s'.left_flex = s.left_flex ∧ s'.left_contact = s.left_contact ∧
        s'.left_303_accel = s.left_303_accel ∧ s'.left_303_mag = s.left_303_mag ∧
        s'.left_9dof_accel = s.left_9dof_accel ∧ s'.left_9dof_mag = s.left_9dof_mag ∧
        s'.left_9dof_gyro = s.left_9dof_gyro) ∧
      s'.hands = Function.update
        (Function.update s.hands 0
          (assemble (s.hands 0) s'.left_flex s'.left_contact s'.left_303_accel s'.left_303_mag
            s'.left_9dof_accel s'.left_9dof_mag s'.left_9dof_gyro))
        1
        (assemble (s.hands 1) s'.right_flex s'.right_contact s'.right_303_accel
          s'.right_303_mag s'.right_9dof_accel s'.right_9dof_mag s'.right_9dof_gyro) := by
  obtain ⟨f0, w0, hc, hw0, hl0, hf0⟩ := cursor_reset_eq bus s
  obtain ⟨b1, f1, w1, hr1, hw1, hl1, hb1⟩ := read_loop_content bus 4 State.right_flex
    State.set_right_flex dec_flex store_flex store_flex_eq
    (fun _ _ => rfl) (fun _ _ _ => rfl) (fun _ => rfl) (fun _ _ _ _ _ _ => rfl)
    (fun _ _ _ _ _ => rfl) (fun _ _ => ⟨rfl, rfl, rfl⟩) (NUM_FINGERS - 1) 0
    (cursor_reset bus s) (by decide)
  rw [hc] at hr1 hw1 hl1 hb1
  generalize hR1 : State.set_right_flex _ _ = R1 at hr1
  have hbf1 := read_loop_buffer_fd bus 4 store_flex store_flex_io _ _ _ _ hr1
  obtain ⟨b2, f2, w2, hr2, hw2, hl2, hb2⟩ := read_loop_content bus 1 State.right_contact
    State.set_right_contact dec_contact store_contact store_contact_eq
    (fun _ _ => rfl) (fun _ _ _ => rfl) (fun _ => rfl) (fun _ _ _ _ _ _ => rfl)
    (fun _ _ _ _ _ => rfl) (fun _ _ => ⟨rfl, rfl, rfl⟩) TOTAL_NUM_CONTACTS 0
    (State.set_buffer buffer_init R1) (by decide)
  generalize hR2 : State.set_right_contact _ _ = R2 at hr2
  have hbf2 := read_loop_buffer_fd bus 1 store_contact store_contact_io _ _ _ _ hr2
  obtain ⟨b3, f3, w3, hr3, hw3, hl3, hb3⟩ := read_loop_content bus 4 State.right_303_accel
    State.set_right_303_accel dec_double store_303_accel store_303_accel_eq
    (fun _ _ => rfl) (fun _ _ _ => rfl) (fun _ => rfl) (fun _ _ _ _ _ _ => rfl)
    (fun _ _ _ _ _ => rfl) (fun _ _ => ⟨rfl, rfl, rfl⟩) SEP_NUM_303 0 R2 (by decide)
  generalize hR3 : State.set_right_303_accel _ _ = R3 at hr3
  have hbf3 := read_loop_buffer_fd bus 4 store_303_accel store_303_accel_io _ _ _ _ hr3
  obtain ⟨b4, f4, w4, hr4, hw4, hl4, hb4⟩ := read_loop_content bus 4 State.right_303_mag
    State.set_right_303_mag dec_double store_303_mag store_303_mag_eq
    (fun _ _ => rfl) (fun _ _ _ => rfl) (fun _ => rfl) (fun _ _ _ _ _ _ => rfl)
    (fun _ _ _ _ _ => rfl) (fun _ _ => ⟨rfl, rfl, rfl⟩) SEP_NUM_303 0 R3 (by decide)
  generalize hR4 : State.set_right_303_mag _ _ = R4 at hr4
  have hbf4 := read_loop_buffer_fd bus 4 store_303_mag store_303_mag_io _ _ _ _ hr4
  obtain ⟨b5, f5, w5, hr5, hw5, hl5, hb5⟩ := read_loop_content bus 6 State.right_9dof_accel
    State.set_right_9dof_accel dec_double store_9dof_accel store_9dof_accel_eq
    (fun _ _ => rfl) (fun _ _ _ => rfl) (fun _ => rfl) (fun _ _ _ _ _ _ => rfl)
    (fun _ _ _ _ _ => rfl) (fun _ _ => ⟨rfl, rfl, rfl⟩) SEP_NUM_9DOF 0 R4 (by decide)
  generalize hR5 : State.set_right_9dof_accel _ _ = R5 at hr5
  have hbf5 := read_loop_buffer_fd bus 6 store_9dof_accel store_9dof_accel_io _ _ _ _ hr5
  obtain ⟨b6, f6, w6, hr6, hw6, hl6, hb6⟩ := read_loop_content bus 6 State.right_9dof_mag
    State.set_right_9dof_mag dec_double store_9dof_mag store_9dof_mag_eq
    (fun _ _ => rfl) (fun _ _ _ => rfl) (fun _ => rfl) (fun _ _ _ _ _ _ => rfl)
    (fun _ _ _ _ _ => rfl) (fun _ _ => ⟨rfl, rfl, rfl⟩) SEP_NUM_9DOF 0 R5 (by decide)
  generalize hR6 : State.set_right_9dof_mag _ _ = R6 at hr6
  have hbf6 := read_loop_buffer_fd bus 6 store_9dof_mag store_9dof_mag_io _ _ _ _ hr6
  obtain ⟨b7, f7, w7, hr7, hw7, hl7, hb7⟩ := read_loop_content bus 6 State.right_9dof_gyro
    State.set_right_9dof_gyro dec_double store_9dof_gyro store_9dof_gyro_eq
    (fun _ _ => rfl) (fun _ _ _ => rfl) (fun _ => rfl) (fun _ _ _ _ _ _ => rfl)
    (fun _ _ _ _ _ => rfl) (fun _ _ => ⟨rfl, rfl, rfl⟩) SEP_NUM_9DOF 0 R6 (by decide)
  generalize hR7 : State.set_right_9dof_gyro _ _ = R7 at hr7
  have hbf7 := read_loop_buffer_fd bus 6 store_9dof_gyro store_9dof_gyro_io _ _ _ _ hr7
  have hcyc : cycle bus s = some (State.set_hands
      (Function.update
        (Function.update R7.hands 0
          (assemble (R7.hands 0) R7.left_flex R7.left_contact R7.left_303_accel
            R7.left_303_mag R7.left_9dof_accel R7.left_9dof_mag R7.left_9dof_gyro))
        1
        (assemble (R7.hands 1) R7.right_flex R7.right_contact R7.right_303_accel
          R7.right_303_mag R7.right_9dof_accel R7.right_9dof_mag R7.right_9dof_gyro)) R7) := by
    have e1 : read_flex bus (cursor_reset bus s) = some R1 := by rw [hc]; exact hr1
    have e2 : read_contacts bus R1 = some R2 := hr2
    have e3 : read_303 bus R2 = some R4 := by
      simp only [read_303, Option.bind_eq_bind, hr3, Option.some_bind]
      exact hr4
    have e4 : read_9dof bus R4 = some R7 := by
      simp only [read_9dof, Option.bind_eq_bind, hr5, Option.some_bind, hr6]
      exact hr7
    simp only [cycle, Option.bind_eq_bind, e1, e2, e3, e4, Option.some_bind, group,
      group_data_eq, Option.map_some']
    rfl
  refine ⟨_, hcyc, ?_⟩
  subst hR7 hR6 hR5 hR4 hR3 hR2 hR1
  have t1 : w1.t = at_contacts bus s.world.t := by
    rw [hw1]
    show w0.t + read_calls bus 4 (NUM_FINGERS - 1) w0.t = _
    rw [hw0]
    rfl
  have t2 : w2.t = at_303_accel bus s.world.t := by
    rw [hw2]
    show w1.t + read_calls bus 1 TOTAL_NUM_CONTACTS w1.t = _
    rw [t1]
    rfl
  have t3 : w3.t = at_303_mag bus s.world.t := by
    rw [hw3]
    show w2.t + read_calls bus 4 SEP_NUM_303 w2.t = _
    rw [t2]
    rfl
  have t4 : w4.t = at_9dof_accel bus s.world.t := by
    rw [hw4]
    show w3.t + read_calls bus 4 SEP_NUM_303 w3.t = _
    rw [t3]
    rfl
  have t5 : w5.t = at_9dof_mag bus s.world.t := by
    rw [hw5]
    show w4.t + read_calls bus 6 SEP_NUM_9DOF w4.t = _
    rw [t4]
    rfl
  have t6 : w6.t = at_9dof_gyro bus s.world.t := by
    rw [hw6]
    show w5.t + read_calls bus 6 SEP_NUM_9DOF w5.t = _
    rw [t5]
    rfl
  have t7 : w7.t = at_end bus s.world.t := by
    rw [hw7]
    show w6.t + read_calls bus 6 SEP_NUM_9DOF w6.t = _
    rw [t6]
    rfl
  have d2 : b2.drop 1 = buffer_init.drop 1 := hb2
  have d3 : b3.drop 4 = buffer_init.drop 4 :=
    (show b3.drop 4 = b2.drop 4 from hb3).trans (drop_eq_of_drop_eq _ _ 1 4 (by decide) d2)
  have d4 : b4.drop 4 = buffer_init.drop 4 :=
    (show b4.drop 4 = b3.drop 4 from hb4).trans d3
  have d5 : b5.drop 6 = buffer_init.drop 6 :=
    (show b5.drop 6 = b4.drop 6 from hb5).trans (drop_eq_of_drop_eq _ _ 4 6 (by decide) d4)
  have d6 : b6.drop 6 = buffer_init.drop 6 :=
    (show b6.drop 6 = b5.drop 6 from hb6).trans d5
  have g1 : w1.log = s.world.log ++
      ([{ is_write := true, num_bytes := 1, ok := write_succeeds (bus s.world.t) 1 }] ++
        read_events bus 4 (NUM_FINGERS - 1) (at_flex s.world.t)) := by
    rw [hl1]
    show w0.log ++ read_events bus 4 (NUM_FINGERS - 1) w0.t = _
    rw [hl0, hw0, List.append_assoc]
  have g2 : w2.log = s.world.log ++
      ([{ is_write := true, num_bytes := 1, ok := write_succeeds (bus s.world.t) 1 }] ++
        read_events bus 4 (NUM_FINGERS - 1) (at_flex s.world.t) ++
        read_events bus 1 TOTAL_NUM_CONTACTS (at_contacts bus s.world.t)) := by
    rw [hl2]
    show w1.log ++ read_events bus 1 TOTAL_NUM_CONTACTS w1.t = _
    rw [g1, t1, List.append_assoc]
  have g3 : w3.log = s.world.log ++
      ([{ is_write := true, num_bytes := 1, ok := write_succeeds (bus s.world.t) 1 }] ++
        read_events bus 4 (NUM_FINGERS - 1) (at_flex s.world.t) ++
        read_events bus 1 TOTAL_NUM_CONTACTS (at_contacts bus s.world.t) ++
        read_events bus 4 SEP_NUM_303 (at_303_accel bus s.world.t)) := by
    rw [hl3]
    show w2.log ++ read_events bus 4 SEP_NUM_303 w2.t = _
    rw [g2, t2, List.append_assoc]
  have g4 : w4.log = s.world.log ++
      ([{ is_write := true, num_bytes := 1, ok := write_succeeds (bus s.world.t) 1 }] ++
        read_events bus 4 (NUM_FINGERS - 1) (at_flex s.world.t) ++
        read_events bus 1 TOTAL_NUM_CONTACTS (at_contacts bus s.world.t) ++
        read_events bus 4 SEP_NUM_303 (at_303_accel bus s.world.t) ++
        read_events bus 4 SEP_NUM_303 (at_303_mag bus s.world.t)) := by
    rw [hl4]
    show w3.log ++ read_events bus 4 SEP_NUM_303 w3.t = _
    rw [g3, t3, List.append_assoc]
  have g5 : w5.log = s.world.log ++
      ([{ is_write := true, num_bytes := 1, ok := write_succeeds (bus s.world.t) 1 }] ++
        read_events bus 4 (NUM_FINGERS - 1) (at_flex s.world.t) ++
        read_events bus 1 TOTAL_NUM_CONTACTS (at_contacts bus s.world.t) ++
        read_events bus 4 SEP_NUM_303 (at_303_accel bus s.world.t) ++
        read_events bus 4 SEP_NUM_303 (at_303_mag bus s.world.t) ++
        read_events bus 6 SEP_NUM_9DOF (at_9dof_accel bus s.world.t)) := by
    rw [hl5]
    show w4.log ++ read_events bus 6 SEP_NUM_9DOF w4.t = _
    rw [g4, t4, List.append_assoc]
  have g6 : w6.log = s.world.log ++
      ([{ is_write := true, num_bytes := 1, ok := write_succeeds (bus s.world.t) 1 }] ++
        read_events bus 4 (NUM_FINGERS - 1) (at_flex s.world.t) ++
        read_events bus 1 TOTAL_NUM_CONTACTS (at_contacts bus s.world.t) ++
        read_events bus 4 SEP_NUM_303 (at_303_accel bus s.world.t) ++
        read_events bus 4 SEP_NUM_303 (at_303_mag bus s.world.t) ++
        read_events bus 6 SEP_NUM_9DOF (at_9dof_accel bus s.world.t) ++
        read_events bus 6 SEP_NUM_9DOF (at_9dof_mag bus s.world.t)) := by
    rw [hl6]
    show w5.log ++ read_events bus 6 SEP_NUM_9DOF w5.t = _
    rw [g5, t5, List.append_assoc]
  have g7 : w7.log = s.world.log ++ cycle_events bus s.world.t := by
    rw [hl7]
    show w6.log ++ read_events bus 6 SEP_NUM_9DOF w6.t = _
    rw [g6, t6, List.append_assoc]
    simp only [cycle_events, List.singleton_append, List.cons_append, List.nil_append]
  have B2 : b2 = loop_buffer bus 1 TOTAL_NUM_CONTACTS w1.t buffer_init := hbf2.1
  have B3 : b3 = loop_buffer bus 4 SEP_NUM_303 w2.t b2 := hbf3.1
  have B4 : b4 = loop_buffer bus 4 SEP_NUM_303 w3.t b3 := hbf4.1
  have B5 : b5 = loop_buffer bus 6 SEP_NUM_9DOF w4.t b4 := hbf5.1
  have B6 : b6 = loop_buffer bus 6 SEP_NUM_9DOF w5.t b5 := hbf6.1
  have B7 : b7 = loop_buffer bus 6 SEP_NUM_9DOF w6.t b6 := hbf7.1
  have F1 : f1 = loop_fd bus 4 (NUM_FINGERS - 1) w0.t f0 := hbf1.2
  have F2 : f2 = loop_fd bus 1 TOTAL_NUM_CONTACTS w1.t f1 := hbf2.2
  have F3 : f3 = loop_fd bus 4 SEP_NUM_303 w2.t f2 := hbf3.2
  have F4 : f4 = loop_fd bus 4 SEP_NUM_303 w3.t f3 := hbf4.2
  have F5 : f5 = loop_fd bus 6 SEP_NUM_9DOF w4.t f4 := hbf5.2
  have F6 : f6 = loop_fd bus 6 SEP_NUM_9DOF w5.t f5 := hbf6.2
  have F7 : f7 = loop_fd bus 6 SEP_NUM_9DOF w6.t f6 := hbf7.2
  have hbuffer : b7 = cycle_buffer bus s.world.t := by
    rw [B7, B6, B5, B4, B3, B2, t6, t5, t4, t3, t2, t1]
    rfl
  have hfd : f7 = cycle_fd bus s.world.t := by
    rw [F7, F6, F5, F4, F3, F2, F1, hf0, t6, t5, t4, t3, t2, t1, hw0]
    rfl
  refine ⟨?_, t7, g7, rfl, hbuffer, hfd, ?_, ?_, ?_, ?_, ?_, ?_, ?_,
    ⟨rfl, rfl, rfl, rfl, rfl, rfl, rfl⟩, rfl⟩
  · show (if read_count bus 6 SEP_NUM_9DOF w6.t < SEP_NUM_9DOF then "disconnected"
      else if read_count bus 6 SEP_NUM_9DOF w5.t < SEP_NUM_9DOF then "disconnected"
      else if read_count bus 6 SEP_NUM_9DOF w4.t < SEP_NUM_9DOF then "disconnected"
      else if read_count bus 4 SEP_NUM_303 w3.t < SEP_NUM_303 then "disconnected"
      else if read_count bus 4 SEP_NUM_303 w2.t < SEP_NUM_303 then "disconnected"
      else if read_count bus 1 TOTAL_NUM_CONTACTS w1.t < TOTAL_NUM_CONTACTS then "disconnected"
      else if read_count bus 4 (NUM_FINGERS - 1) w0.t < NUM_FINGERS - 1 then "disconnected"
      else if write_succeeds (bus s.world.t) 1 then "connected" else "disconnected") = _
    rw [t6, t5, t4, t3, t2, t1, hw0]
    exact status_chain _ _ _ _ _ _ _ _ _ _ _ _ _ _ _
      (read_count_le bus 4 (NUM_FINGERS - 1) (at_flex s.world.t))
      (read_count_le bus 1 TOTAL_NUM_CONTACTS (at_contacts bus s.world.t))
      (read_count_le bus 4 SEP_NUM_303 (at_303_accel bus s.world.t))
      (read_count_le bus 4 SEP_NUM_303 (at_303_mag bus s.world.t))
      (read_count_le bus 6 SEP_NUM_9DOF (at_9dof_accel bus s.world.t))
      (read_count_le bus 6 SEP_NUM_9DOF (at_9dof_mag bus s.world.t))
      (read_count_le bus 6 SEP_NUM_9DOF (at_9dof_gyro bus s.world.t))
  · show stream_after bus 4 (NUM_FINGERS - 1) 0 w0.t (buffer_init.drop 4) dec_flex
      s.right_flex = _
    rw [hw0]
  · show stream_after bus 1 TOTAL_NUM_CONTACTS 0 w1.t (buffer_init.drop 1) dec_contact
      s.right_contact = _
    rw [t1]
  · show stream_after bus 4 SEP_NUM_303 0 w2.t (b2.drop 4) dec_double s.right_303_accel = _
    rw [t2, drop_eq_of_drop_eq _ _ 1 4 (by decide) d2]
  · show stream_after bus 4 SEP_NUM_303 0 w3.t (b3.drop 4) dec_double s.right_303_mag = _
    rw [t3, d3]
  · show stream_after bus 6 SEP_NUM_9DOF 0 w4.t (b4.drop 6) dec_double s.right_9dof_accel = _
    rw [t4, drop_eq_of_drop_eq _ _ 4 6 (by decide) d4]
  · show stream_after bus 6 SEP_NUM_9DOF 0 w5.t (b5.drop 6) dec_double s.right_9dof_mag = _
    rw [t5, d5]
  · show stream_after bus 6 SEP_NUM_9DOF 0 w6.t (b6.drop 6) dec_double s.right_9dof_gyro = _
    rw [t6, d6]

/-! ## The order of the categories -/

theorem on_calls_append (P : Nat → Event → Prop) (off : Nat) (l1 l2 : List Event) :
    on_calls P off (l1 ++ l2) ↔ on_calls P off l1 ∧ on_calls P (off + l1.length) l2 := by
  constructor
  · intro h
    refine ⟨?_, ?_⟩
    · intro j e he
      apply h j e
      have hj : j < l1.length := by
        by_contra hc
        rw [List.getElem?_eq_none (by omega)] at he
        cases he
      rw [List.getElem?_append_left hj]
      exact he
    · intro j e he
      have := h (l1.length + j) e (by
        rw [List.getElem?_append_right (by omega)]
        simpa using he)
      rw [Nat.add_assoc]
      exact this
  · rintro ⟨h1, h2⟩ j e he
    by_cases hj : j < l1.length
    · rw [List.getElem?_append_left hj] at he
      exact h1 j e he
    · rw [List.getElem?_append_right (by omega)] at he
      have := h2 (j - l1.length) e he
      rw [Nat.add_assoc, Nat.add_sub_cancel' (by omega)] at this
      exact this

theorem on_calls_cons (P : Nat → Event → Prop) (off : Nat) (a : Event) (l : List Event) :
    on_calls P off (a :: l) ↔ P off a ∧ on_calls P (off + 1) l := by
  have := on_calls_append P off [a] l
  rw [List.singleton_append] at this
  rw [this]
  constructor
  · rintro ⟨h1, h2⟩
    exact ⟨h1 0 a rfl, h2⟩
  · rintro ⟨h1, h2⟩
    refine ⟨?_, h2⟩
    intro j e he
    cases j with
    | zero =>
      simp only [List.getElem?_cons_zero, Option.some.injEq] at he
      subst he
      exact h1
    | succ j => simp at he

theorem read_events_succ (bus : Nat → BusOutcome) (wd n t : Nat) :
    read_events bus wd (n + 1) t =
      if read_succeeds (bus t) wd then
        { is_write := false, num_bytes := wd, ok := true } :: read_events bus wd n (t + 1)
      else [{ is_write := false, num_bytes := wd, ok := false }] := by
  cases h : read_succeeds (bus t) wd with
  | false => simp [read_events, read_count, h]
  | true => simp [read_events, read_count, h, List.replicate_succ]

theorem read_events_zero (bus : Nat → BusOutcome) (wd t : Nat) :
    read_events bus wd 0 t = [] := by
  simp [read_events, read_count]

theorem read_events_length (bus : Nat → BusOutcome) (wd n t : Nat) :
    (read_events bus wd n t).length = read_calls bus wd n t := by
  have := read_count_le bus wd n t
  simp only [read_events, read_calls, List.length_append, List.length_replicate]
  split_ifs
  · rfl
  · simp only [List.length_nil]
    omega

theorem read_events_count (bus : Nat → BusOutcome) (wd n t : Nat) :
    (read_events bus wd n t).countP (fun e => e.ok) = read_count bus wd n t := by
  simp only [read_events, List.countP_append]
  split_ifs <;> simp [List.countP_replicate]

theorem is_category_run_read_events (bus : Nat → BusOutcome) (wd : Nat) :
    ∀ n t, 0 < n → is_category_run wd n (read_events bus wd n t) = true := by
  intro n
  induction n with
  | zero => intro t h; omega
  | succ n ih =>
    intro t _
    rw [read_events_succ]
    split_ifs
    · cases n with
      | zero =>
        rw [read_events_zero]
        exact is_category_run_last wd true
      | succ m => exact is_category_run_cons wd (m + 1) _ (ih (t + 1) (by omega))
    · exact is_category_run_fail wd n

/-- Each call of a read loop is a read of the loop's width, and the `j`-th one
returns what outcome `t + j` makes it return. -/
theorem read_events_answered (bus : Nat → BusOutcome) (wd : Nat) :
    ∀ n t j e, (read_events bus wd n t)[j]? = some e →
      e.is_write = false ∧ e.num_bytes = wd ∧ e.ok = read_succeeds (bus (t + j)) wd := by
  intro n
  induction n with
  | zero =>
    intro t j e he
    rw [read_events_zero] at he
    simp at he
  | succ n ih =>
    intro t j e he
    rw [read_events_succ] at he
    cases hs : read_succeeds (bus t) wd with
    | false =>
      rw [hs] at he
      cases j with
      | zero =>
        simp only [Bool.false_eq_true, if_false, List.getElem?_cons_zero,
          Option.some.injEq] at he
        subst he
        exact ⟨rfl, rfl, hs.symm⟩
      | succ j => simp at he
    | true =>
      rw [hs] at he
      cases j with
      | zero =>
        simp only [if_true, List.getElem?_cons_zero, Option.some.injEq] at he
        subst he
        exact ⟨rfl, rfl, hs.symm⟩
      | succ j =>
        simp only [if_true, List.getElem?_cons_succ] at he
        have := ih (t + 1) j e he
        rw [show t + (j + 1) = t + 1 + j by omega]
        exact this

theorem filled_by_read_events {α : Type} {N : Nat} (bus : Nat → BusOutcome)
    (wd n t0 t1 : Nat) (dec : List Nat → α) (a : Fin N → α) (h : t1 = t0) :
    filled_by bus wd t1 (read_events bus wd n t0) dec a
      = stream_after bus wd n 0 t0 (buffer_init.drop wd) dec a := by
  subst h
  funext i
  simp only [filled_by, stream_after, read_events_count, Nat.zero_le, true_and, Nat.zero_add,
    Nat.sub_zero]

/-- The calls of a cycle, split into the reset and the seven runs, each with
the position of its first call in the cycle. -/
theorem cycle_events_calls (bus : Nat → BusOutcome) (t : Nat) (P : Nat → Event → Prop) :
    on_calls P 0 (cycle_events bus t) ↔
      P 0 { is_write := true, num_bytes := 1, ok := write_succeeds (bus t) 1 } ∧
      on_calls P (at_flex t - t) (read_events bus 4 (NUM_FINGERS - 1) (at_flex t)) ∧
      on_calls P (at_contacts bus t - t) (read_events bus 1 TOTAL_NUM_CONTACTS (at_contacts bus t)) ∧
      on_calls P (at_303_accel bus t - t) (read_events bus 4 SEP_NUM_303 (at_303_accel bus t)) ∧
      on_calls P (at_303_mag bus t - t) (read_events bus 4 SEP_NUM_303 (at_303_mag bus t)) ∧
      on_calls P (at_9dof_accel bus t - t)
        (read_events bus 6 SEP_NUM_9DOF (at_9dof_accel bus t)) ∧
      on_calls P (at_9dof_mag bus t - t) (read_events bus 6 SEP_NUM_9DOF (at_9dof_mag bus t)) ∧
      on_calls P (at_9dof_gyro bus t - t)
        (read_events bus 6 SEP_NUM_9DOF (at_9dof_gyro bus t)) := by
  have o1 : 0 + 1 = at_flex t - t := by simp only [at_flex]; omega
  have o2 : at_flex t - t + (read_events bus 4 (NUM_FINGERS - 1) (at_flex t)).length
      = at_contacts bus t - t := by
    rw [read_events_length]; simp only [at_contacts, at_flex]; omega
  have o3 : at_contacts bus t - t
      + (read_events bus 1 TOTAL_NUM_CONTACTS (at_contacts bus t)).length
      = at_303_accel bus t - t := by
    rw [read_events_length]; simp only [at_303_accel, at_contacts, at_flex]; omega
  have o4 : at_303_accel bus t - t
      + (read_events bus 4 SEP_NUM_303 (at_303_accel bus t)).length
      = at_303_mag bus t - t := by
    rw [read_events_length]; simp only [at_303_mag, at_303_accel, at_contacts, at_flex]; omega
  have o5 : at_303_mag bus t - t
      + (read_events bus 4 SEP_NUM_303 (at_303_mag bus t)).length
      = at_9dof_accel bus t - t := by
    rw [read_events_length]
    simp only [at_9dof_accel, at_303_mag, at_303_accel, at_contacts, at_flex]; omega
  have o6 : at_9dof_accel bus t - t
      + (read_events bus 6 SEP_NUM_9DOF (at_9dof_accel bus t)).length
      = at_9dof_mag bus t - t := by
    rw [read_events_length]
    simp only [at_9dof_mag, at_9dof_accel, at_303_mag, at_303_accel, at_contacts, at_flex]; omega
  have o7 : at_9dof_mag bus t - t
      + (read_events bus 6 SEP_NUM_9DOF (at_9dof_mag bus t)).length
      = at_9dof_gyro bus t - t := by
    rw [read_events_length]
    simp only [at_9dof_gyro, at_9dof_mag, at_9dof_accel, at_303_mag, at_303_accel, at_contacts,
      at_flex]; omega
  unfold cycle_events
  rw [on_calls_cons, on_calls_append, on_calls_append, on_calls_append, on_calls_append,
    on_calls_append, on_calls_append, o1]
  simp only [List.length_append, ← Nat.add_assoc, o2, o3, o4, o5, o6, o7, and_assoc]

/-- C10: for every sequence of outcomes a cycle returns, and the calls it
issues are, in order, one write (the cursor reset) and then seven runs of
reads: flex (width 4, up to 4), contacts (width 1, up to 13), LSM303 accel and
mag (width 4, up to 6 each), LSM9DOF accel, mag and gyro (width 6, up to 6
each).  Each run has at least one read, stops at its first failed read or at
its count, and the next run follows whether or not the run, or the reset
write, failed.  The `j`-th call of the cycle returns what outcome number
`t + j` of the bus makes it return, and each run fills its own stream: the
successful reads of the run `flex` are decoded into `right_flex`, those of
`contacts` into `right_contact`, those of `accel303` into `right_303_accel`,
those of `mag303` into `right_303_mag`, those of `accel9dof`, `mag9dof` and
`gyro9dof` into `right_9dof_accel`, `right_9dof_mag` and `right_9dof_gyro`,
each from the outcomes at the positions the run has in the cycle. -/
theorem cycle_category_order (bus : Nat → BusOutcome) (s : State) :
    ∃ s' reset flex contacts accel303 mag303 accel9dof mag9dof gyro9dof,
      cycle bus s = some s' ∧
      new_events s s' = reset ::
        (flex ++ contacts ++ accel303 ++ mag303 ++ accel9dof ++ mag9dof ++ gyro9dof) ∧
      s'.world.log = s.world.log ++ new_events s s' ∧
      reset.is_write = true ∧
      is_category_run 4 (NUM_FINGERS - 1) flex = true ∧
      is_category_run 1 TOTAL_NUM_CONTACTS contacts = true ∧
      is_category_run 4 SEP_NUM_303 accel303 = true ∧
      is_category_run 4 SEP_NUM_303 mag303 = true ∧
      is_category_run 6 SEP_NUM_9DOF accel9dof = true ∧
      is_category_run 6 SEP_NUM_9DOF mag9dof = true ∧
      is_category_run 6 SEP_NUM_9DOF gyro9dof = true ∧
      (∀ j e, (new_events s s')[j]? = some e →
        e.ok = call_result (bus (s.world.t + j)) e) ∧
      s'.right_flex = filled_by bus 4 (s.world.t + 1) flex dec_flex s.right_flex ∧
      s'.right_contact = filled_by bus 1 (s.world.t + 1 + flex.length) contacts dec_contact
        s.right_contact ∧
      s'.right_303_accel = filled_by bus 4 (s.world.t + 1 + flex.length + contacts.length)
        accel303 dec_double s.right_303_accel ∧
      s'.right_303_mag = filled_by bus 4
        (s.world.t + 1 + flex.length + contacts.length + accel303.length)
        mag303 dec_double s.right_303_mag ∧
      s'.right_9dof_accel = filled_by bus 6
        (s.world.t + 1 + flex.length + contacts.length + accel303.length + mag303.length)
        accel9dof dec_double s.right_9dof_accel ∧
      s'.right_9dof_mag = filled_by bus 6
        (s.world.t + 1 + flex.length + contacts.length + accel303.length + mag303.length
          + accel9dof.length)
        mag9dof dec_double s.right_9dof_mag ∧
      s'.right_9dof_gyro = filled_by bus 6
        (s.world.t + 1 + flex.length + contacts.length + accel303.length + mag303.length
          + accel9dof.length + mag9dof.length)
        gyro9dof dec_double s.right_9dof_gyro := by
  obtain ⟨s', hc, -, -, hl, -, -, -, hrf, hrc, hra, hrm, hxa, hxm, hxg, -, -⟩ :=
    cycle_content bus s
  have hn : new_events s s' = cycle_events bus s.world.t := new_events_of_log s s' _ hl
  have hans : ∀ j e, (new_events s s')[j]? = some e →
      e.ok = call_result (bus (s.world.t + j)) e := by
    rw [hn]
    have key := (cycle_events_calls bus s.world.t
      (fun j e => e.ok = call_result (bus (s.world.t + j)) e)).mpr
    have run : ∀ wd n a off, s.world.t + off = a →
        on_calls (fun j e => e.ok = call_result (bus (s.world.t + j)) e) off
          (read_events bus wd n a) := by
      intro wd n a off ha j e he
      obtain ⟨h1, h2, h3⟩ := read_events_answered bus wd n a j e he
      show e.ok = call_result (bus (s.world.t + (off + j))) e
      rw [← Nat.add_assoc, ha, h3]
      simp only [call_result, h1, h2, Bool.false_eq_true, if_false]
    have le1 : s.world.t ≤ at_flex s.world.t := by simp only [at_flex]; omega
    have le2 : at_flex s.world.t ≤ at_contacts bus s.world.t := by
      simp only [at_contacts]; omega
    have le3 : at_contacts bus s.world.t ≤ at_303_accel bus s.world.t := by
      simp only [at_303_accel]; omega
    have le4 : at_303_accel bus s.world.t ≤ at_303_mag bus s.world.t := by
      simp only [at_303_mag]; omega
    have le5 : at_303_mag bus s.world.t ≤ at_9dof_accel bus s.world.t := by
      simp only [at_9dof_accel]; omega
    have le6 : at_9dof_accel bus s.world.t ≤ at_9dof_mag bus s.world.t := by
      simp only [at_9dof_mag]; omega
    have le7 : at_9dof_mag bus s.world.t ≤ at_9dof_gyro bus s.world.t := by
      simp only [at_9dof_gyro]; omega
    have all := key ⟨by simp [call_result], run _ _ _ _ (by omega), run _ _ _ _ (by omega),
      run _ _ _ _ (by omega), run _ _ _ _ (by omega), run _ _ _ _ (by omega),
      run _ _ _ _ (by omega), run _ _ _ _ (by omega)⟩
    intro j e he
    have := all j e he
    simpa using this
  refine ⟨s', _, read_events bus 4 (NUM_FINGERS - 1) (at_flex s.world.t),
    read_events bus 1 TOTAL_NUM_CONTACTS (at_contacts bus s.world.t),
    read_events bus 4 SEP_NUM_303 (at_303_accel bus s.world.t),
    read_events bus 4 SEP_NUM_303 (at_303_mag bus s.world.t),
    read_events bus 6 SEP_NUM_9DOF (at_9dof_accel bus s.world.t),
    read_events bus 6 SEP_NUM_9DOF (at_9dof_mag bus s.world.t),
    read_events bus 6 SEP_NUM_9DOF (at_9dof_gyro bus s.world.t),
    hc, hn, by rw [hn]; exact hl, rfl,
    is_category_run_read_events bus 4 _ _ (by decide),
    is_category_run_read_events bus 1 _ _ (by decide),
    is_category_run_read_events bus 4 _ _ (by decide),
    is_category_run_read_events bus 4 _ _ (by decide),
    is_category_run_read_events bus 6 _ _ (by decide),
    is_category_run_read_events bus 6 _ _ (by decide),
    is_category_run_read_events bus 6 _ _ (by decide),
    hans, ?_, ?_, ?_, ?_, ?_, ?_, ?_⟩
  · exact hrf.trans (filled_by_read_events bus 4 _ _ _ _ _ rfl).symm
  · exact hrc.trans (filled_by_read_events bus 1 _ _ _ _ _
      (by simp only [read_events_length]; rfl)).symm
  · exact hra.trans (filled_by_read_events bus 4 _ _ _ _ _
      (by simp only [read_events_length]; rfl)).symm
  · exact hrm.trans (filled_by_read_events bus 4 _ _ _ _ _
      (by simp only [read_events_length]; rfl)).symm
  · exact hxa.trans (filled_by_read_events bus 6 _ _ _ _ _
      (by simp only [read_events_length]; rfl)).symm
  · exact hxm.trans (filled_by_read_events bus 6 _ _ _ _ _
      (by simp only [read_events_length]; rfl)).symm
  · exact hxg.trans (filled_by_read_events bus 6 _ _ _ _ _
      (by simp only [read_events_length]; rfl)).symm

/-! ## Record assembler: the 9-axis family and the two sides -/

/-- C15: for each side `i`, each sensor instance `j` and each axis,
`store_data` fills the accel, mag and gyro components of `lsm9dof[j]` from one
and the same position of their three streams, and that position (`3*j` for x,
`3*j+1` for y, `3*j+2` for z) is the one from which it fills the accel and mag
components of `lsm303[j]`. -/
theorem store_data_9dof_positions (hands : Hands) (flex : Fin NUM_FINGERS → Nat)
    (c : Fin TOTAL_NUM_CONTACTS → bool) (a3 m3 : Fin SEP_NUM_303 → double)
    (a9 m9 g9 : Fin SEP_NUM_9DOF → double) (i : Fin NUM_HANDS) :
    ∃ hands', store_data hands flex c a3 m3 a9 m9 g9 i.val = some hands' ∧
      ∀ j : Fin 2,
        (((hands' i).lsm9dof j).accel_x = a9 (⟨3 * j.val, by omega⟩ : Fin 6) ∧
         ((hands' i).lsm9dof j).mag_x = m9 (⟨3 * j.val, by omega⟩ : Fin 6) ∧
         ((hands' i).lsm9dof j).gyro_x = g9 (⟨3 * j.val, by omega⟩ : Fin 6) ∧
         ((hands' i).lsm303 j).accel_x = a3 (⟨3 * j.val, by omega⟩ : Fin 6) ∧
         ((hands' i).lsm303 j).mag_x = m3 (⟨3 * j.val, by omega⟩ : Fin 6)) ∧
        (((hands' i).lsm9dof j).accel_y = a9 (⟨3 * j.val + 1, by omega⟩ : Fin 6) ∧
         ((hands' i).lsm9dof j).mag_y = m9 (⟨3 * j.val + 1, by omega⟩ : Fin 6) ∧
         ((hands' i).lsm9dof j).gyro_y = g9 (⟨3 * j.val + 1, by omega⟩ : Fin 6) ∧
         ((hands' i).lsm303 j).accel_y = a3 (⟨3 * j.val + 1, by omega⟩ : Fin 6) ∧
         ((hands' i).lsm303 j).mag_y = m3 (⟨3 * j.val + 1, by omega⟩ : Fin 6)) ∧
        (((hands' i).lsm9dof j).accel_z = a9 (⟨3 * j.val + 2, by omega⟩ : Fin 6) ∧
         ((hands' i).lsm9dof j).mag_z = m9 (⟨3 * j.val + 2, by omega⟩ : Fin 6) ∧
         ((hands' i).lsm9dof j).gyro_z = g9 (⟨3 * j.val + 2, by omega⟩ : Fin 6) ∧
         ((hands' i).lsm303 j).accel_z = a3 (⟨3 * j.val + 2, by omega⟩ : Fin 6) ∧
         ((hands' i).lsm303 j).mag_z = m3 (⟨3 * j.val + 2, by omega⟩ : Fin 6)) := by
  refine ⟨_, store_data_eq hands flex c a3 m3 a9 m9 g9 i, ?_⟩
  rw [Function.update_same]
  intro j
  fin_cases j <;>
    exact ⟨⟨rfl, rfl, rfl, rfl, rfl⟩, ⟨rfl, rfl, rfl, rfl, rfl⟩, ⟨rfl, rfl, rfl, rfl, rfl⟩⟩

/-- C16: `group_data` returns; `hands[0]` is the record `store_data` builds
for side 0 from the left streams and `hands[1]` the record it builds for side
1 from the right streams; a `store_data` call for one side leaves the other
side's record as it was; so `hands[0]` is the same for any other right-hand
streams and `hands[1]` the same for any other left-hand streams. -/
theorem group_data_side_routing (hands : Hands) (lf rf : Fin NUM_FINGERS → Nat)
    (lc rc : Fin TOTAL_NUM_CONTACTS → bool)
    (la3 lm3 ra3 rm3 : Fin SEP_NUM_303 → double)
    (la9 lm9 lg9 ra9 rm9 rg9 : Fin SEP_NUM_9DOF → double) :
    ∃ h' hl hr,
      group_data hands lf rf lc rc la3 lm3 ra3 rm3 la9 lm9 lg9 ra9 rm9 rg9 = some h' ∧
      store_data hands lf lc la3 lm3 la9 lm9 lg9 0 = some hl ∧
      store_data hands rf rc ra3 rm3 ra9 rm9 rg9 1 = some hr ∧
      h' 0 = hl 0 ∧ h' 1 = hr 1 ∧
      hl 1 = hands 1 ∧ hr 0 = hands 0 ∧
      (∀ (rf' : Fin NUM_FINGERS → Nat) (rc' : Fin TOTAL_NUM_CONTACTS → bool)
          (ra3' rm3' : Fin SEP_NUM_303 → double) (ra9' rm9' rg9' : Fin SEP_NUM_9DOF → double),
        (group_data hands lf rf' lc rc' la3 lm3 ra3' rm3' la9 lm9 lg9 ra9' rm9' rg9').map
            (fun h => h 0) = some (h' 0)) ∧
      (∀ (lf' : Fin NUM_FINGERS → Nat) (lc' : Fin TOTAL_NUM_CONTACTS → bool)
          (la3' lm3' : Fin SEP_NUM_303 → double) (la9' lm9' lg9' : Fin SEP_NUM_9DOF → double),
        (group_data hands lf' rf lc' rc la3' lm3' ra3 rm3 la9' lm9' lg9' ra9 rm9 rg9).map
            (fun h => h 1) = some (h' 1)) := by
  refine ⟨_, _, _, group_data_eq hands lf rf lc rc la3 lm3 ra3 rm3 la9 lm9 lg9 ra9 rm9 rg9,
    store_data_eq hands lf lc la3 lm3 la9 lm9 lg9 0,
    store_data_eq hands rf rc ra3 rm3 ra9 rm9 rg9 1, rfl, rfl, rfl, rfl, ?_, ?_⟩
  · intro rf' rc' ra3' rm3' ra9' rm9' rg9'
    rw [group_data_eq]
    rfl
  · intro lf' lc' la3' lm3' la9' lm9' lg9'
    rw [group_data_eq]
    rfl

/-! ## The cursor reset and the handles -/

theorem read_events_reads (bus : Nat → BusOutcome) (wd n t : Nat) :
    ∀ e ∈ read_events bus wd n t, e.is_write = false ∧ e.num_bytes = wd := by
  intro e he
  simp only [read_events, List.mem_append, List.mem_replicate] at he
  rcases he with ⟨_, rfl⟩ | he
  · exact ⟨rfl, rfl⟩
  · split_ifs at he
    · simp only [List.mem_singleton] at he
      subst he
      exact ⟨rfl, rfl⟩
    · simp at he

theorem i2c_read_sent (bus : Nat → BusOutcome) (buffer : List Nat) (num_bytes : Nat)
    (fd : Int) (open_file close_file : Bool) (w : World) :
    (i2c_read bus buffer num_bytes fd open_file close_file w).world.sent = w.sent := by
  unfold i2c_read
  simp only []
  split_ifs <;> try rfl
  all_goals (split <;> try split_ifs) <;> rfl

theorem i2c_write_sent (bus : Nat → BusOutcome) (buffer : List Nat) (num_bytes : Nat)
    (fd : Int) (close_file : Bool) (w : World) :
    (i2c_write bus buffer num_bytes fd true close_file w).world.sent
      = w.sent ++ write_sent (bus w.t) buffer num_bytes := by
  unfold i2c_write write_sent
  simp only []
  by_cases h1 : (bus w.t).open_ret = -1
  · simp [h1, World.after]
  · by_cases h2 : (bus w.t).ioctl_ret < 0
    · simp [h1, h2, World.after]
    · simp only [h1, h2, and_false, or_self, if_false]
      split_ifs <;> rfl

theorem read_loop_sent (bus : Nat → BusOutcome) (wd : Nat)
    (store : Nat → State → Option State)
    (hframe : ∀ i s s2, store i s = some s2 →
      s2.buffer = s.buffer ∧ s2.fd = s.fd ∧ s2.world = s.world) :
    ∀ n k s r, forRange (read_step bus wd store) n k s = some r →
      r.world.sent = s.world.sent := by
  intro n
  induction n with
  | zero =>
    intro k s r h
    simp only [forRange, Option.some.injEq] at h
    subst h
    rfl
  | succ n ih =>
    intro k s r h
    have hret := i2c_read_ret bus s.buffer wd s.fd s.world
    have hs := i2c_read_sent bus s.buffer wd s.fd true true s.world
    have hstep := read_step_eq bus wd store k s
    cases hsucc : read_succeeds (bus s.world.t) wd with
    | false =>
      rw [hsucc] at hret
      rw [if_pos hret] at hstep
      simp only [forRange, hstep, Option.some.injEq] at h
      subst h
      exact hs
    | true =>
      rw [hsucc] at hret
      rw [if_neg (by simp [hret])] at hstep
      cases hst : store k (s.with_io (i2c_read bus s.buffer wd s.fd true true s.world).buffer
          (i2c_read bus s.buffer wd s.fd true true s.world).fd
          (i2c_read bus s.buffer wd s.fd true true s.world).world s.status) with
      | none =>
        rw [hst] at hstep
        simp [forRange, hstep] at h
      | some s2 =>
        rw [hst] at hstep
        simp only [forRange, hstep, Option.map_some'] at h
        obtain ⟨-, -, e3⟩ := hframe _ _ _ hst
        rw [ih (k + 1) s2 r h, e3]
        exact hs

theorem cycle_sent (bus : Nat → BusOutcome) (s s' : State) (h : cycle bus s = some s') :
    s'.world.sent = s.world.sent ++ write_sent (bus s.world.t) (s.cmd.set 0 0) 1 := by
  simp only [cycle, read_flex, read_contacts, read_303, read_9dof, group, Option.bind_eq_bind,
    Option.bind_eq_some, Option.map_eq_some'] at h
  obtain ⟨R1, h1, R2, h2, R4, ⟨R3, h3, h4⟩, R7, ⟨R5, h5, R6, h6, h7⟩, hs, -, rfl⟩ := h
  have e1 := read_loop_sent bus 4 store_flex store_flex_io _ _ _ _ h1
  have e2 := read_loop_sent bus 1 store_contact store_contact_io _ _ _ _ h2
  have e3 := read_loop_sent bus 4 store_303_accel store_303_accel_io _ _ _ _ h3
  have e4 := read_loop_sent bus 4 store_303_mag store_303_mag_io _ _ _ _ h4
  have e5 := read_loop_sent bus 6 store_9dof_accel store_9dof_accel_io _ _ _ _ h5
  have e6 := read_loop_sent bus 6 store_9dof_mag store_9dof_mag_io _ _ _ _ h6
  have e7 := read_loop_sent bus 6 store_9dof_gyro store_9dof_gyro_io _ _ _ _ h7
  have e0 : (cursor_reset bus s).world.sent
      = s.world.sent ++ write_sent (bus s.world.t) (s.cmd.set 0 0) 1 := by
    have := i2c_write_sent bus (s.cmd.set 0 0) 1 s.fd true s.world
    simp only [cursor_reset]
    split_ifs <;> exact this
  show R7.world.sent = _
  rw [e7, e6, e5, e4, e3, e2]
  show R1.world.sent = _
  rw [e1, e0]

theorem cmd_reset_take (cmd : List Nat) (h : cmd.length = MAX_CHAR) :
    (cmd.set 0 0).take 1 = [0] := by
  cases cmd with
  | nil => simp [MAX_CHAR] at h
  | cons a l => rfl

theorem cycles_cmd_length (bus : Nat → BusOutcome) :
    ∀ n s out st, s.cmd.length = MAX_CHAR → cycles bus n s = some (out, st) →
      st.cmd.length = MAX_CHAR := by
  intro n
  induction n with
  | zero =>
    intro s out st hs h
    simp only [cycles, Option.some.injEq, Prod.mk.injEq] at h
    rw [← h.2]
    exact hs
  | succ n ih =>
    intro s out st hs h
    obtain ⟨s1, hc, -, -, -, hcmd, -⟩ := cycle_content bus s
    have h1 : s1.cmd.length = MAX_CHAR := by rw [hcmd, List.length_set]; exact hs
    simp only [cycles, hc] at h
    cases hr : cycles bus n s1 with
    | none => simp [hr] at h
    | some p =>
      obtain ⟨out1, st1⟩ := p
      simp only [hr, Option.some.injEq, Prod.mk.injEq] at h
      rw [← h.2]
      exact ih s1 out1 st1 h1 hr

/-- The array `cmd` keeps its declared size `MAX_CHAR` at every pass of the
loop of `main`. -/
theorem main_cmd_length (bus : Nat → BusOutcome) (n : Nat) (s : State)
    (out : List (Hands × String)) (st : State) (h : main bus n s = some (out, st)) :
    st.cmd.length = MAX_CHAR :=
  cycles_cmd_length bus n (main_init s) out st (by simp [main_init, data_init, buffer_init]) h

/-- C17 (as stated, refuted): the write that opens a cycle asks for one byte,
not for zero bytes, whether the bus answers or not. -/
theorem cursor_reset_width_not_zero :
    (cycle bus_dead zero_state).map
        (fun s' => (new_events zero_state s').head?.map fun e => (e.is_write, e.num_bytes))
      = some (some (true, 1)) ∧
    (cycle (fun _ => good_outcome [49, 50, 51, 52, 53, 54] 1) zero_state).map
        (fun s' => (new_events zero_state s').head?.map fun e => (e.is_write, e.num_bytes))
      = some (some (true, 1)) ∧
    (cycle bus_dead zero_state).map
        (fun s' => (new_events zero_state s').head?.map fun e => e.num_bytes)
      ≠ some (some 0) := by
  refine ⟨rfl, rfl, ?_⟩
  decide

/-- C17 (amended): from every state in which `cmd` has its declared size, a
cycle returns, and its calls are exactly one write, issued first, followed by
reads only; that cursor-reset write has byte width one.  The cycle sets
`cmd[0]` to 0 before the call, and when `open` and `ioctl` succeed the `write`
call hands the bus exactly one byte, of value 0, whatever `cmd[0]` held
before; when one of them fails no byte is handed over.  No other byte is
written in the cycle. -/
theorem cursor_reset_one_byte (bus : Nat → BusOutcome) (s : State)
    (hsize : s.cmd.length = MAX_CHAR) :
    ∃ s' reads, cycle bus s = some s' ∧
      new_events s s' =
        { is_write := true, num_bytes := 1, ok := write_succeeds (bus s.world.t) 1 } :: reads ∧
      (∀ e ∈ reads, e.is_write = false) ∧
      s'.cmd = s.cmd.set 0 0 ∧
      s'.cmd.length = MAX_CHAR ∧
      s'.world.sent = s.world.sent ++
        (if (bus s.world.t).open_ret = -1 ∨ (bus s.world.t).ioctl_ret < 0 then []
         else [[0]]) := by
  obtain ⟨s', hc, -, -, hl, hcmd, -⟩ := cycle_content bus s
  refine ⟨s', _, hc, new_events_of_log s s' _ hl, ?_, hcmd, ?_, ?_⟩
  · intro e he
    simp only [List.mem_append] at he
    rcases he with (((((he | he) | he) | he) | he) | he) | he <;>
      exact (read_events_reads _ _ _ _ e he).1
  · rw [hcmd, List.length_set]
    exact hsize
  · rw [cycle_sent bus s s' hc]
    simp only [write_sent, cmd_reset_take s.cmd hsize]

/-- Witness of C17: a cycle from a state whose `cmd[0]` holds 255, on the bus
on which every transaction succeeds. -/
theorem cursor_reset_one_byte_witness :
    (State.set_cmd (buffer_init.set 0 255) zero_state).cmd.length = MAX_CHAR ∧
    ∃ s' reads,
      cycle (fun _ => good_outcome [49, 50, 51, 52, 53, 54] 1)
          (State.set_cmd (buffer_init.set 0 255) zero_state) = some s' ∧
      new_events (State.set_cmd (buffer_init.set 0 255) zero_state) s' =
        { is_write := true, num_bytes := 1,
          ok := write_succeeds ((fun _ => good_outcome [49, 50, 51, 52, 53, 54] 1)
            (State.set_cmd (buffer_init.set 0 255) zero_state).world.t) 1 } :: reads ∧
      (∀ e ∈ reads, e.is_write = false) ∧
      s'.cmd = (State.set_cmd (buffer_init.set 0 255) zero_state).cmd.set 0 0 ∧
      s'.cmd.length = MAX_CHAR ∧
      s'.world.sent = (State.set_cmd (buffer_init.set 0 255) zero_state).world.sent ++
        (if ((fun _ => good_outcome [49, 50, 51, 52, 53, 54] 1)
              (State.set_cmd (buffer_init.set 0 255) zero_state).world.t).open_ret = -1 ∨
            ((fun _ => good_outcome [49, 50, 51, 52, 53, 54] 1)
              (State.set_cmd (buffer_init.set 0 255) zero_state).world.t).ioctl_ret < 0 then []
         else [[0]]) :=
  ⟨by simp [State.set_cmd, buffer_init],
   cursor_reset_one_byte _ _ (by simp [State.set_cmd, buffer_init])⟩

/-- C18 (the code at the failing inputs): when `open` succeeds and `ioctl`
fails, or the transfer is short, `i2c_read` and `i2c_write` return `false`
without a `close` call: one more handle is open after the call than before. -/
theorem i2c_leaves_handle_open_on_failure :
    open_handles zero_state.world = 0 ∧
    (i2c_read (fun _ => unaddressed_outcome) buffer_init 4 0 true true zero_state.world).ret
      = false ∧
    open_handles
      (i2c_read (fun _ => unaddressed_outcome) buffer_init 4 0 true true zero_state.world).world
      = 1 ∧
    open_handles
      (i2c_read (fun _ => short_outcome) buffer_init 4 0 true true zero_state.world).world
      = 1 ∧
    open_handles
      (i2c_write (fun _ => unaddressed_outcome) buffer_init 1 0 true true zero_state.world).world
      = 1 ∧
    open_handles
      (i2c_write (fun _ => short_outcome) buffer_init 1 0 true true zero_state.world).world
      = 1 ∧
    open_handles
      (i2c_read (fun _ => good_outcome [49, 50, 51, 52] 1) buffer_init 4 0 true true
        zero_state.world).world
      = 0 := by
  decide

/-- The handles of `i2c_read` on every path: `close` is called exactly when
`open`, `ioctl` and the full transfer succeeded; after a successful `open`
followed by a failed `ioctl` or a short transfer the handle stays open. -/
theorem i2c_read_handles (bus : Nat → BusOutcome) (buffer : List Nat) (num_bytes : Nat)
    (fd : Int) (w : World) :
    (i2c_read bus buffer num_bytes fd true true w).world.opened
      = (if (bus w.t).open_ret = -1 then w.opened else w.opened + 1) ∧
    (i2c_read bus buffer num_bytes fd true true w).world.closed
      = (if (bus w.t).open_ret ≠ -1 ∧ 0 ≤ (bus w.t).ioctl_ret ∧
            (∃ bytes, (bus w.t).read_data = some bytes ∧ num_bytes ≤ bytes.length)
          then w.closed + 1 else w.closed) := by
  unfold i2c_read
  simp only []
  by_cases h1 : (bus w.t).open_ret = -1
  · simp [h1, World.after]
  · by_cases h2 : (bus w.t).ioctl_ret < 0
    · have h2' : ¬ 0 ≤ (bus w.t).ioctl_ret := by omega
      simp [h1, h2, h2', World.after]
    · have h2' : 0 ≤ (bus w.t).ioctl_ret := by omega
      cases hrd : (bus w.t).read_data with
      | none => simp [h1, h2, World.after]
      | some bytes =>
        by_cases h3 : num_bytes ≤ bytes.length
        · have h3' : ¬ bytes.length < num_bytes := by omega
          by_cases h4 : (bus w.t).close_ret = -1
          · simp [h1, h2, h2', h3, h3', h4, World.after]
          · simp [h1, h2, h2', h3, h3', h4, World.after]
        · have h3' : bytes.length < num_bytes := by omega
          simp [h1, h2, h2', h3, h3', World.after]

/-! ## The thumb -/

theorem stream_after_beyond {α : Type} {N : Nat} (bus : Nat → BusOutcome) (wd n t : Nat)
    (tail : List Nat) (dec : List Nat → α) (a : Fin N → α) (i : Fin N) (h : n ≤ i.val) :
    stream_after bus wd n 0 t tail dec a i = a i := by
  have := read_count_le bus wd n t
  simp only [stream_after]
  rw [if_neg (by omega)]

theorem main_init_thumb_unused (s : State) : thumb_unused (main_init s) :=
  ⟨rfl, rfl, fun _ => rfl⟩

theorem cycle_thumb_unused (bus : Nat → BusOutcome) (s : State) (h : thumb_unused s) :
    ∃ s', cycle bus s = some s' ∧ thumb_unused s' ∧
      ∀ side : Fin NUM_HANDS,
        (((emitted s').1 side).fingers 4).flex = 0 ∧
        (((emitted s').1 side).fingers 4).contact 1 = bool.false := by
  obtain ⟨s', hc, -, -, -, -, -, -, hrf, -, -, -, -, -, -, ⟨hlf, -⟩, hh⟩ := cycle_content bus s
  obtain ⟨h1, h2, h3⟩ := h
  have hl4 : s'.left_flex 4 = 0 := by rw [hlf]; exact h1
  have hr4 : s'.right_flex 4 = 0 := by
    rw [hrf, stream_after_beyond _ _ _ _ _ _ _ 4 (by decide)]
    exact h2
  have key : ∀ side : Fin NUM_HANDS,
      ((s'.hands side).fingers 4).flex = 0 ∧
      ((s'.hands side).fingers 4).contact 1 = bool.false := by
    intro side
    rw [hh]
    fin_cases side
    · exact ⟨hl4, h3 0⟩
    · exact ⟨hr4, h3 1⟩
  exact ⟨s', hc, ⟨hl4, hr4, fun i => (key i).2⟩, key⟩

theorem cycles_thumb_unused (bus : Nat → BusOutcome) :
    ∀ n s, thumb_unused s →
      ∃ out st, cycles bus n s = some (out, st) ∧ out.length = n ∧
        ∀ r ∈ out, ∀ side : Fin NUM_HANDS,
          ((r.1 side).fingers 4).flex = 0 ∧ ((r.1 side).fingers 4).contact 1 = bool.false := by
  intro n
  induction n with
  | zero =>
    intro s _
    exact ⟨[], s, rfl, rfl, by simp⟩
  | succ n ih =>
    intro s hs
    obtain ⟨s1, hc, hs1, hem⟩ := cycle_thumb_unused bus s hs
    obtain ⟨out, st, hrun, hlen, hall⟩ := ih s1 hs1
    refine ⟨emitted s1 :: out, st, ?_, by simp [hlen], ?_⟩
    · simp only [cycles, hc, hrun]
    · intro r hr
      rcases List.mem_cons.mp hr with rfl | hr
      · exact hem
      · exact hall r hr

/-- C14: for every number `n` of cycles, every sequence of outcomes and every
initial content of the locals, `main` reaches its `n`-th `write_file` call,
and in each of the `n` pairs of records handed to `write_file` the thumb's
flex reading is 0 and the thumb's second contact slot is `false`, on both
sides. -/
theorem main_thumb_invariant (bus : Nat → BusOutcome) (n : Nat) (s : State) :
    ∃ out st, main bus n s = some (out, st) ∧ out.length = n ∧
      ∀ r ∈ out, ∀ side : Fin NUM_HANDS,
        ((r.1 side).fingers 4).flex = 0 ∧ ((r.1 side).fingers 4).contact 1 = bool.false :=
  cycles_thumb_unused bus n (main_init s) (main_init_thumb_unused s)

/-! ## A failure in the middle of the contact reads -/

theorem contact_member_assemble (h : Hand) (flex : Fin NUM_FINGERS → Nat)
    (contact : Fin TOTAL_NUM_CONTACTS → bool) (a3 m3 : Fin SEP_NUM_303 → double)
    (a9 m9 g9 : Fin SEP_NUM_9DOF → double) (k : Fin TOTAL_NUM_CONTACTS) :
    contact_member (assemble h flex contact a3 m3 a9 m9 g9) k = contact k := by
  fin_cases k <;> rfl

theorem read_events_ne_nil (bus : Nat → BusOutcome) (wd n t : Nat) (hn : 0 < n) :
    read_events bus wd n t ≠ [] := by
  unfold read_events
  by_cases h : read_count bus wd n t < n
  · simp [h]
  · have hpos : 0 < read_count bus wd n t := by omega
    obtain ⟨m, hm⟩ : ∃ m, read_count bus wd n t = m + 1 :=
      ⟨_, (Nat.succ_pred_eq_of_pos hpos).symm⟩
    simp [hm, List.replicate_succ]

/-- C11 (as stated, refuted): from the zero-initialised program, on a bus whose
first contact read succeeds with the text `"0"` and whose second contact read
fails (position 1 of 13), the status is `"disconnected"` and the tip contact
of the right index finger is emitted as `true`, not as its zero-initialised
`false`. -/
theorem contacts_partly_stored :
    read_count bus_contacts_fail_at_1 1 TOTAL_NUM_CONTACTS
        (at_contacts bus_contacts_fail_at_1 0) = 1 ∧
    (main bus_contacts_fail_at_1 1 zero_state).map
        (fun r => r.1.map fun e => (e.2, contact_member (e.1 1) 0, ((e.1 1).fingers 0).contact 0))
      = some [("disconnected", bool.true, bool.true)] := by
  refine ⟨rfl, rfl⟩

/-- C11 (amended): in every cycle whose contact reads fail at position `p`
below 13 after `p` successes, the status is `"disconnected"`, each of the five
inertial categories still issues at least one read, and in the emitted
right-hand record the contact members fed by the stream positions below `p`
hold the decoded samples of the first `p` reads, while those fed by the
positions from `p` on hold what the contact stream held before the cycle. -/
theorem contacts_fail_midway (bus : Nat → BusOutcome) (s : State) (p : Nat)
    (hp : p < TOTAL_NUM_CONTACTS)
    (hfail : read_count bus 1 TOTAL_NUM_CONTACTS (at_contacts bus s.world.t) = p) :
    ∃ s', cycle bus s = some s' ∧
      (emitted s').2 = "disconnected" ∧
      new_events s s' = cycle_events bus s.world.t ∧
      (read_events bus 4 SEP_NUM_303 (at_303_accel bus s.world.t) ≠ [] ∧
       read_events bus 4 SEP_NUM_303 (at_303_mag bus s.world.t) ≠ [] ∧
       read_events bus 6 SEP_NUM_9DOF (at_9dof_accel bus s.world.t) ≠ [] ∧
       read_events bus 6 SEP_NUM_9DOF (at_9dof_mag bus s.world.t) ≠ [] ∧
       read_events bus 6 SEP_NUM_9DOF (at_9dof_gyro bus s.world.t) ≠ []) ∧
      ∀ k : Fin TOTAL_NUM_CONTACTS,
        contact_member ((emitted s').1 1) k =
          if k.val < p then
            dec_contact (sample (bus (at_contacts bus s.world.t + k.val)) 1
              ++ buffer_init.drop 1)
          else s.right_contact k := by
  obtain ⟨s', hc, hst, -, hl, -, -, -, -, hrc, -, -, -, -, -, -, hh⟩ := cycle_content bus s
  refine ⟨s', hc, ?_, new_events_of_log s s' _ hl,
    ⟨read_events_ne_nil _ _ _ _ (by decide), read_events_ne_nil _ _ _ _ (by decide),
     read_events_ne_nil _ _ _ _ (by decide), read_events_ne_nil _ _ _ _ (by decide),
     read_events_ne_nil _ _ _ _ (by decide)⟩, ?_⟩
  · show s'.status = "disconnected"
    rw [hst, if_neg]
    intro hall
    simp only [all_succeed, Bool.and_eq_true, decide_eq_true_eq] at hall
    have h2 := hall.1.1.1.1.1.2
    rw [hfail] at h2
    omega
  · intro k
    show contact_member (s'.hands 1) k = _
    rw [hh, Function.update_same, contact_member_assemble, hrc]
    simp only [stream_after, hfail, Nat.zero_le, true_and, Nat.zero_add, Nat.sub_zero]

/-- Witness of C11 (amended): the bus whose contact reads fail at position 1,
from the zero-initialised state. -/
theorem contacts_fail_midway_witness :
    ∃ s', cycle bus_contacts_fail_at_1 zero_state = some s' ∧
      (emitted s').2 = "disconnected" ∧
      new_events zero_state s' = cycle_events bus_contacts_fail_at_1 zero_state.world.t ∧
      (read_events bus_contacts_fail_at_1 4 SEP_NUM_303
          (at_303_accel bus_contacts_fail_at_1 zero_state.world.t) ≠ [] ∧
       read_events bus_contacts_fail_at_1 4 SEP_NUM_303
          (at_303_mag bus_contacts_fail_at_1 zero_state.world.t) ≠ [] ∧
       read_events bus_contacts_fail_at_1 6 SEP_NUM_9DOF
          (at_9dof_accel bus_contacts_fail_at_1 zero_state.world.t) ≠ [] ∧
       read_events bus_contacts_fail_at_1 6 SEP_NUM_9DOF
          (at_9dof_mag bus_contacts_fail_at_1 zero_state.world.t) ≠ [] ∧
       read_events bus_contacts_fail_at_1 6 SEP_NUM_9DOF
          (at_9dof_gyro bus_contacts_fail_at_1 zero_state.world.t) ≠ []) ∧
      ∀ k : Fin TOTAL_NUM_CONTACTS,
        contact_member ((emitted s').1 1) k =
          if k.val < 1 then
            dec_contact (sample (bus_contacts_fail_at_1
                (at_contacts bus_contacts_fail_at_1 zero_state.world.t + k.val)) 1
              ++ buffer_init.drop 1)
          else zero_state.right_contact k :=
  contacts_fail_midway bus_contacts_fail_at_1 zero_state 1 (by decide) rfl

/-! ## Two cycles on the same responses -/

theorem same_responses_add (bus : Nat → BusOutcome) (t : Nat) (bus' : Nat → BusOutcome)
    (t' : Nat) (h : same_responses bus t bus' t') (d : Nat) :
    same_responses bus (t + d) bus' (t' + d) := by
  intro j
  have := h (d + j)
  rw [← Nat.add_assoc, ← Nat.add_assoc] at this
  exact this

theorem read_count_same (wd : Nat) (bus bus' : Nat → BusOutcome) :
    ∀ n t t', same_responses bus t bus' t' →
      read_count bus' wd n t' = read_count bus wd n t := by
  intro n
  induction n with
  | zero => intro t t' _; rfl
  | succ n ih =>
    intro t t' h
    have h0 : bus' t' = bus t := h 0
    simp only [read_count, h0, ih (t + 1) (t' + 1) (same_responses_add bus t bus' t' h 1)]

theorem read_calls_same (wd n : Nat) (bus bus' : Nat → BusOutcome) (t t' : Nat)
    (h : same_responses bus t bus' t') :
    read_calls bus' wd n t' = read_calls bus wd n t := by
  simp only [read_calls, read_count_same wd bus bus' n t t' h]

theorem stream_after_same {α : Type} {N : Nat} (wd n : Nat) (bus bus' : Nat → BusOutcome)
    (t t' : Nat) (h : same_responses bus t bus' t') (tail : List Nat) (dec : List Nat → α)
    (a : Fin N → α) :
    stream_after bus' wd n 0 t' tail dec a = stream_after bus wd n 0 t tail dec a := by
  funext i
  simp only [stream_after, read_count_same wd bus bus' n t t' h, h (i.val - 0)]

theorem stream_after_agree_or_kept {α : Type} {N : Nat} (wd n : Nat)
    (bus bus' : Nat → BusOutcome) (t t' : Nat) (h : same_responses bus t bus' t')
    (tail : List Nat) (dec : List Nat → α) (a a' : Fin N → α) :
    agree_or_kept (read_count bus wd n t) a a'
      (stream_after bus wd n 0 t tail dec a) (stream_after bus' wd n 0 t' tail dec a') := by
  intro i
  rw [stream_after_same wd n bus bus' t t' h]
  simp only [stream_after, Nat.zero_le, true_and, Nat.zero_add]
  split_ifs
  · rfl
  · exact ⟨rfl, rfl⟩

/-- On the same responses the seven categories of two cycles start at
corresponding outcomes. -/
theorem same_responses_phases (bus bus' : Nat → BusOutcome) (t t' : Nat)
    (h : same_responses bus t bus' t') :
    same_responses bus (at_flex t) bus' (at_flex t') ∧
    same_responses bus (at_contacts bus t) bus' (at_contacts bus' t') ∧
    same_responses bus (at_303_accel bus t) bus' (at_303_accel bus' t') ∧
    same_responses bus (at_303_mag bus t) bus' (at_303_mag bus' t') ∧
    same_responses bus (at_9dof_accel bus t) bus' (at_9dof_accel bus' t') ∧
    same_responses bus (at_9dof_mag bus t) bus' (at_9dof_mag bus' t') ∧
    same_responses bus (at_9dof_gyro bus t) bus' (at_9dof_gyro bus' t') ∧
    same_responses bus (at_end bus t) bus' (at_end bus' t') := by
  have p1 : same_responses bus (at_flex t) bus' (at_flex t') :=
    same_responses_add bus t bus' t' h 1
  have p2 : same_responses bus (at_contacts bus t) bus' (at_contacts bus' t') := by
    unfold at_contacts
    rw [read_calls_same 4 _ bus bus' _ _ p1]
    exact same_responses_add _ _ _ _ p1 _
  have p3 : same_responses bus (at_303_accel bus t) bus' (at_303_accel bus' t') := by
    unfold at_303_accel
    rw [read_calls_same 1 _ bus bus' _ _ p2]
    exact same_responses_add _ _ _ _ p2 _
  have p4 : same_responses bus (at_303_mag bus t) bus' (at_303_mag bus' t') := by
    unfold at_303_mag
    rw [read_calls_same 4 _ bus bus' _ _ p3]
    exact same_responses_add _ _ _ _ p3 _
  have p5 : same_responses bus (at_9dof_accel bus t) bus' (at_9dof_accel bus' t') := by
    unfold at_9dof_accel
    rw [read_calls_same 4 _ bus bus' _ _ p4]
    exact same_responses_add _ _ _ _ p4 _
  have p6 : same_responses bus (at_9dof_mag bus t) bus' (at_9dof_mag bus' t') := by
    unfold at_9dof_mag
    rw [read_calls_same 6 _ bus bus' _ _ p5]
    exact same_responses_add _ _ _ _ p5 _
  have p7 : same_responses bus (at_9dof_gyro bus t) bus' (at_9dof_gyro bus' t') := by
    unfold at_9dof_gyro
    rw [read_calls_same 6 _ bus bus' _ _ p6]
    exact same_responses_add _ _ _ _ p6 _
  have p8 : same_responses bus (at_end bus t) bus' (at_end bus' t') := by
    unfold at_end
    rw [read_calls_same 6 _ bus bus' _ _ p7]
    exact same_responses_add _ _ _ _ p7 _
  exact ⟨p1, p2, p3, p4, p5, p6, p7, p8⟩

theorem all_succeed_same (bus bus' : Nat → BusOutcome) (t t' : Nat)
    (h : same_responses bus t bus' t') : all_succeed bus' t' = all_succeed bus t := by
  obtain ⟨p1, p2, p3, p4, p5, p6, p7, -⟩ := same_responses_phases bus bus' t t' h
  have h0 : bus' t' = bus t := h 0
  simp only [all_succeed, h0, read_count_same _ bus bus' _ _ _ p1,
    read_count_same _ bus bus' _ _ _ p2, read_count_same _ bus bus' _ _ _ p3,
    read_count_same _ bus bus' _ _ _ p4, read_count_same _ bus bus' _ _ _ p5,
    read_count_same _ bus bus' _ _ _ p6, read_count_same _ bus bus' _ _ _ p7]

theorem same_cycle_responses_of_same (bus : Nat → BusOutcome) (t : Nat)
    (bus' : Nat → BusOutcome) (t' : Nat) (h : same_responses bus t bus' t') :
    same_cycle_responses bus t bus' t' := by
  intro j e _
  rw [h j]
  exact ⟨rfl, fun _ => rfl⟩

/-- On the bus `bus_fresh_handles` two consecutive cycles from the
zero-initialised state leave different descriptor numbers in `fd`: 50 after the
first (the 48th `open`), 98 after the second. -/
theorem fd_after_fresh_handles :
    ((cycle bus_fresh_handles zero_state).bind fun s1 =>
      (cycle bus_fresh_handles s1).map fun s2 => (s1.fd, s2.fd)) = some (50, 98) := by
  rfl

/-- C13 (as stated, refuted): two runs of the program whose second cycles
receive the same responses (every transaction fails) emit different records in
that cycle.  After a first cycle that read the flex value 1234 the second
cycle emits 1234 for the right index finger, a value whose read did not
succeed in it; after a first cycle that read nothing it emits 0. -/
theorem record_depends_on_history :
    (main bus_good_then_dead 1 zero_state).map (fun r => r.2.world.t) = some 48 ∧
    (main bus_dead 1 zero_state).map (fun r => r.2.world.t) = some 8 ∧
    same_responses bus_good_then_dead 48 bus_dead 8 ∧
    (main bus_good_then_dead 2 zero_state).map
        (fun r => r.1.map fun e => (((e.1 1).fingers 0).flex, e.2))
      = some [(1234, "connected"), (1234, "disconnected")] ∧
    (main bus_dead 2 zero_state).map
        (fun r => r.1.map fun e => (((e.1 1).fingers 0).flex, e.2))
      = some [(0, "disconnected"), (0, "disconnected")] := by
  refine ⟨rfl, rfl, ?_, rfl, rfl⟩
  intro j
  have h : ¬ 48 + j < 48 := by omega
  simp only [bus_good_then_dead, bus_dead, if_neg h]

/-- C13 (amended): for any two states in which a cycle can start (any two
histories) and the same responses to the cycle, both cycles return with the
same status; in each right-hand stream the slots whose read succeeded in the
cycle hold the same value in both runs, and every other slot holds what it
held before the cycle in its own run; the left-hand streams are as before the
cycle; and the emitted records are assembled from these streams over the
records of the previous cycle. -/
theorem cycle_keeps_unread_slots (bus bus' : Nat → BusOutcome) (s s' : State)
    (hsame : same_responses bus s.world.t bus' s'.world.t) :
    ∃ r r', cycle bus s = some r ∧ cycle bus' s' = some r' ∧
      (emitted r).2 = (emitted r').2 ∧
      (agree_or_kept (read_count bus 4 (NUM_FINGERS - 1) (at_flex s.world.t))
          s.right_flex s'.right_flex r.right_flex r'.right_flex ∧
       agree_or_kept (read_count bus 1 TOTAL_NUM_CONTACTS (at_contacts bus s.world.t))
          s.right_contact s'.right_contact r.right_contact r'.right_contact ∧
       agree_or_kept (read_count bus 4 SEP_NUM_303 (at_303_accel bus s.world.t))
          s.right_303_accel s'.right_303_accel r.right_303_accel r'.right_303_accel ∧
       agree_or_kept (read_count bus 4 SEP_NUM_303 (at_303_mag bus s.world.t))
          s.right_303_mag s'.right_303_mag r.right_303_mag r'.right_303_mag ∧
       agree_or_kept (read_count bus 6 SEP_NUM_9DOF (at_9dof_accel bus s.world.t))
          s.right_9dof_accel s'.right_9dof_accel r.right_9dof_accel r'.right_9dof_accel ∧
       agree_or_kept (read_count bus 6 SEP_NUM_9DOF (at_9dof_mag bus s.world.t))
          s.right_9dof_mag s'.right_9dof_mag r.right_9dof_mag r'.right_9dof_mag ∧
       agree_or_kept (read_count bus 6 SEP_NUM_9DOF (at_9dof_gyro bus s.world.t))
          s.right_9dof_gyro s'.right_9dof_gyro r.right_9dof_gyro r'.right_9dof_gyro) ∧
      ((r.left_flex = s.left_flex ∧ r.left_contact = s.left_contact ∧
        r.left_303_accel = s.left_303_accel ∧ r.left_303_mag = s.left_303_mag ∧
        r.left_9dof_accel = s.left_9dof_accel ∧ r.left_9dof_mag = s.left_9dof_mag ∧
        r.left_9dof_gyro = s.left_9dof_gyro) ∧
       (r'.left_flex = s'.left_flex ∧ r'.left_contact = s'.left_contact ∧
        r'.left_303_accel = s'.left_303_accel ∧ r'.left_303_mag = s'.left_303_mag ∧
        r'.left_9dof_accel = s'.left_9dof_accel ∧ r'.left_9dof_mag = s'.left_9dof_mag ∧
        r'.left_9dof_gyro = s'.left_9dof_gyro)) ∧
      (emitted r).1 = Function.update
        (Function.update s.hands 0
          (assemble (s.hands 0) r.left_flex r.left_contact r.left_303_accel r.left_303_mag
            r.left_9dof_accel r.left_9dof_mag r.left_9dof_gyro))
        1
        (assemble (s.hands 1) r.right_flex r.right_contact r.right_303_accel
          r.right_303_mag r.right_9dof_accel r.right_9dof_mag r.right_9dof_gyro) ∧
      (emitted r').1 = Function.update
        (Function.update s'.hands 0
          (assemble (s'.hands 0) r'.left_flex r'.left_contact r'.left_303_accel
            r'.left_303_mag r'.left_9dof_accel r'.left_9dof_mag r'.left_9dof_gyro))
        1
        (assemble (s'.hands 1) r'.right_flex r'.right_contact r'.right_303_accel
          r'.right_303_mag r'.right_9dof_accel r'.right_9dof_mag r'.right_9dof_gyro) := by
  obtain ⟨r, hc, hst, -, -, -, -, -, hrf, hrc, hra, hrm, hxa, hxm, hxg, hleft, hh⟩ :=
    cycle_content bus s
  obtain ⟨r', hc', hst', -, -, -, -, -, hrf', hrc', hra', hrm', hxa', hxm', hxg', hleft',
      hh'⟩ :=
    cycle_content bus' s'
  obtain ⟨p1, p2, p3, p4, p5, p6, p7, -⟩ :=
    same_responses_phases bus bus' s.world.t s'.world.t hsame
  refine ⟨r, r', hc, hc', ?_, ⟨?_, ?_, ?_, ?_, ?_, ?_, ?_⟩, ⟨hleft, hleft'⟩, hh, hh'⟩
  · show r.status = r'.status
    rw [hst, hst', all_succeed_same bus bus' _ _ hsame]
  · rw [hrf, hrf']; exact stream_after_agree_or_kept _ _ bus bus' _ _ p1 _ _ _ _
  · rw [hrc, hrc']; exact stream_after_agree_or_kept _ _ bus bus' _ _ p2 _ _ _ _
  · rw [hra, hra']; exact stream_after_agree_or_kept _ _ bus bus' _ _ p3 _ _ _ _
  · rw [hrm, hrm']; exact stream_after_agree_or_kept _ _ bus bus' _ _ p4 _ _ _ _
  · rw [hxa, hxa']; exact stream_after_agree_or_kept _ _ bus bus' _ _ p5 _ _ _ _
  · rw [hxm, hxm']; exact stream_after_agree_or_kept _ _ bus bus' _ _ p6 _ _ _ _
  · rw [hxg, hxg']; exact stream_after_agree_or_kept _ _ bus bus' _ _ p7 _ _ _ _

/-- Witness of C13 (amended): the bus whose contact reads fail at position 1,
from the zero-initialised state and from the same state with the flex array
`[0, 0, 0, 0, 7]`. -/
theorem cycle_keeps_unread_slots_witness :
    ∃ r r', cycle bus_contacts_fail_at_1 zero_state = some r ∧
      cycle bus_contacts_fail_at_1 state_flex_7 = some r' ∧
      (emitted r).2 = (emitted r').2 ∧
      (agree_or_kept
          (read_count bus_contacts_fail_at_1 4 (NUM_FINGERS - 1) (at_flex zero_state.world.t))
          zero_state.right_flex state_flex_7.right_flex r.right_flex r'.right_flex ∧
       agree_or_kept
          (read_count bus_contacts_fail_at_1 1 TOTAL_NUM_CONTACTS
            (at_contacts bus_contacts_fail_at_1 zero_state.world.t))
          zero_state.right_contact state_flex_7.right_contact r.right_contact r'.right_contact ∧
       agree_or_kept
          (read_count bus_contacts_fail_at_1 4 SEP_NUM_303
            (at_303_accel bus_contacts_fail_at_1 zero_state.world.t))
          zero_state.right_303_accel state_flex_7.right_303_accel r.right_303_accel r'.right_303_accel ∧
       agree_or_kept
          (read_count bus_contacts_fail_at_1 4 SEP_NUM_303
            (at_303_mag bus_contacts_fail_at_1 zero_state.world.t))
          zero_state.right_303_mag state_flex_7.right_303_mag r.right_303_mag r'.right_303_mag ∧
       agree_or_kept
          (read_count bus_contacts_fail_at_1 6 SEP_NUM_9DOF
            (at_9dof_accel bus_contacts_fail_at_1 zero_state.world.t))
          zero_state.right_9dof_accel state_flex_7.right_9dof_accel r.right_9dof_accel r'.right_9dof_accel ∧
       agree_or_kept
          (read_count bus_contacts_fail_at_1 6 SEP_NUM_9DOF
            (at_9dof_mag bus_contacts_fail_at_1 zero_state.world.t))
          zero_state.right_9dof_mag state_flex_7.right_9dof_mag r.right_9dof_mag r'.right_9dof_mag ∧
       agree_or_kept
          (read_count bus_contacts_fail_at_1 6 SEP_NUM_9DOF
            (at_9dof_gyro bus_contacts_fail_at_1 zero_state.world.t))
          zero_state.right_9dof_gyro state_flex_7.right_9dof_gyro r.right_9dof_gyro r'.right_9dof_gyro) ∧
      ((r.left_flex = zero_state.left_flex ∧
        r.left_contact = zero_state.left_contact ∧
        r.left_303_accel = zero_state.left_303_accel ∧
        r.left_303_mag = zero_state.left_303_mag ∧
        r.left_9dof_accel = zero_state.left_9dof_accel ∧
        r.left_9dof_mag = zero_state.left_9dof_mag ∧
        r.left_9dof_gyro = zero_state.left_9dof_gyro) ∧
       (r'.left_flex = state_flex_7.left_flex ∧
        r'.left_contact = state_flex_7.left_contact ∧
        r'.left_303_accel = state_flex_7.left_303_accel ∧
        r'.left_303_mag = state_flex_7.left_303_mag ∧
        r'.left_9dof_accel = state_flex_7.left_9dof_accel ∧
        r'.left_9dof_mag = state_flex_7.left_9dof_mag ∧
        r'.left_9dof_gyro = state_flex_7.left_9dof_gyro)) ∧
      (emitted r).1 = Function.update
        (Function.update zero_state.hands 0
          (assemble (zero_state.hands 0) r.left_flex r.left_contact r.left_303_accel
            r.left_303_mag r.left_9dof_accel r.left_9dof_mag r.left_9dof_gyro))
        1
        (assemble (zero_state.hands 1) r.right_flex r.right_contact r.right_303_accel
          r.right_303_mag r.right_9dof_accel r.right_9dof_mag r.right_9dof_gyro) ∧
      (emitted r').1 = Function.update
        (Function.update state_flex_7.hands 0
          (assemble (state_flex_7.hands 0) r'.left_flex r'.left_contact r'.left_303_accel
            r'.left_303_mag r'.left_9dof_accel r'.left_9dof_mag r'.left_9dof_gyro))
        1
        (assemble (state_flex_7.hands 1) r'.right_flex r'.right_contact r'.right_303_accel
          r'.right_303_mag r'.right_9dof_accel r'.right_9dof_mag r'.right_9dof_gyro) :=
  cycle_keeps_unread_slots bus_contacts_fail_at_1 bus_contacts_fail_at_1 zero_state
    state_flex_7 (fun _ => rfl)

end Glove
